import Mathlib

set_option autoImplicit false

/-!
PolicyKit: result codes, configuration file and walk, policy files, authorization store,
caller cache, error objects, the spawn utility and the text conversation of polkit-auth.

A shallow embedding of parts of the PolicyKit sources and theorems about them.

Conventions of the embedding.
* C strings are `String` (or `List Char` where the code indexes bytes); a `NULL`
  pointer is `none`.
* C enums whose range is checked by the code are `Int`; tagged unions are inductive types.
* Collaborators outside the embedded code (regex engine, password database, D-Bus,
  file system, spawned helper) are explicit parameters carrying the answers they give.
* `none` as the result of a function whose C counterpart has no failure value stands for
  a memory fault (dereference of `NULL`, use of freed memory, read past a buffer), or,
  for a loop over system calls, for a run that has not ended when the listed outcomes are
  used up.
* Allocations (`kit_strdup`, `g_strdup_printf`, ...) succeed unless a definition takes
  the outcome of an allocation as a parameter.
-/

namespace PolicyKit

/-! ## polkit-result.h / polkit-result.c -/

/-- The C enum `PolKitResult`; it is passed around as a plain `int`. -/
abbrev PolKitResult := Int

def POLKIT_RESULT_UNKNOWN : PolKitResult := 0
def POLKIT_RESULT_NO : PolKitResult := 1
def POLKIT_RESULT_ONLY_VIA_ADMIN_AUTH : PolKitResult := 2
def POLKIT_RESULT_ONLY_VIA_ADMIN_AUTH_KEEP_SESSION : PolKitResult := 3
def POLKIT_RESULT_ONLY_VIA_ADMIN_AUTH_KEEP_ALWAYS : PolKitResult := 4
def POLKIT_RESULT_ONLY_VIA_SELF_AUTH : PolKitResult := 5
def POLKIT_RESULT_ONLY_VIA_SELF_AUTH_KEEP_SESSION : PolKitResult := 6
def POLKIT_RESULT_ONLY_VIA_SELF_AUTH_KEEP_ALWAYS : PolKitResult := 7
def POLKIT_RESULT_YES : PolKitResult := 8
def POLKIT_RESULT_ONLY_VIA_ADMIN_AUTH_ONE_SHOT : PolKitResult := 9
def POLKIT_RESULT_ONLY_VIA_SELF_AUTH_ONE_SHOT : PolKitResult := 10
def POLKIT_RESULT_N_RESULTS : Int := 11

/-- The static table `mapping[POLKIT_RESULT_N_RESULTS]` of polkit-result.c. -/
def mapping : List (PolKitResult × String) :=
  [ (POLKIT_RESULT_UNKNOWN, "unknown"),
    (POLKIT_RESULT_NO, "no"),
    (POLKIT_RESULT_ONLY_VIA_ADMIN_AUTH, "auth_admin"),
    (POLKIT_RESULT_ONLY_VIA_ADMIN_AUTH_KEEP_SESSION, "auth_admin_keep_session"),
    (POLKIT_RESULT_ONLY_VIA_ADMIN_AUTH_KEEP_ALWAYS, "auth_admin_keep_always"),
    (POLKIT_RESULT_ONLY_VIA_SELF_AUTH, "auth_self"),
    (POLKIT_RESULT_ONLY_VIA_SELF_AUTH_KEEP_SESSION, "auth_self_keep_session"),
    (POLKIT_RESULT_ONLY_VIA_SELF_AUTH_KEEP_ALWAYS, "auth_self_keep_always"),
    (POLKIT_RESULT_YES, "yes"),
    (POLKIT_RESULT_ONLY_VIA_ADMIN_AUTH_ONE_SHOT, "auth_admin_one_shot"),
    (POLKIT_RESULT_ONLY_VIA_SELF_AUTH_ONE_SHOT, "auth_self_one_shot") ]

/-- Function `polkit_result_to_string_representation`: `NULL` (here `none`) outside the valid
range, otherwise `mapping[result].str`. -/
def polkit_result_to_string_representation (result : PolKitResult) : Option String :=
  if result < 0 ∨ result ≥ POLKIT_RESULT_N_RESULTS then none
  else (mapping.get? result.toNat).map Prod.snd

/-- The `for (n = 0; n < POLKIT_RESULT_N_RESULTS; n++)` loop of
`polkit_result_from_string_representation`, run over the remaining rows of the table:
the first row whose `str` compares equal (`strcmp == 0`) gives the result. -/
def polkit_result_from_string_loop (string : String) :
    List (PolKitResult × String) → Option PolKitResult
  | [] => none
  | row :: rest =>
    if row.2 = string then some row.1 else polkit_result_from_string_loop string rest

/-- Function `polkit_result_from_string_representation`: `some r` stands for returning `TRUE`
with `*out_result = r`, `none` for returning `FALSE`. -/
def polkit_result_from_string_representation (string : String) : Option PolKitResult :=
  polkit_result_from_string_loop string mapping

/-! ## Subjects: polkit-caller.c and the session/action objects it refers to -/

/-- Modelled from the spec: the session object of polkit-session.c, which is not part of
the embedded sources (`{ identifier, uid, is_active, is_local, remote_host? }`); the
identifier is the ConsoleKit object path. -/
structure PolKitSession where
  ck_objref : Option String
  uid : Nat
  is_active : Bool
  is_local : Bool
  remote_host : Option String

/-- The C struct `_PolKitCaller` of polkit-caller.c (the reference count is left out). -/
structure PolKitCaller where
  dbus_name : Option String
  uid : Nat
  pid : Int
  selinux_context : Option String
  session : Option PolKitSession

/-- Modelled from the spec: the action object of polkit-action.c, which is not part of the
embedded sources. `polkit_action_get_action_id` fails exactly when no identifier is set,
so the object is the optional identifier. -/
structure PolKitAction where
  action_id : Option String

/-! ## polkit-config.c -/

inductive MatchType where
  | MATCH_TYPE_ACTION
  | MATCH_TYPE_USER
  deriving DecidableEq

inductive PolKitConfigAdminAuthType where
  | POLKIT_CONFIG_ADMIN_AUTH_TYPE_USER
  | POLKIT_CONFIG_ADMIN_AUTH_TYPE_GROUP
  deriving DecidableEq

/-- The field `node_type` of `struct ConfigNode` together with the member of the union
`data` that belongs to it. The compiled expression `preq` of a match node is determined
by the pattern text `data` (it is `regcomp (data, REG_NOSUB|REG_EXTENDED)`). -/
inductive NodeData where
  | NODE_TYPE_NOP
  | NODE_TYPE_TOP
  | NODE_TYPE_MATCH (match_type : MatchType) (data : String)
  | NODE_TYPE_RETURN (result : PolKitResult)
  | NODE_TYPE_DEFINE_ADMIN_AUTH (admin_type : PolKitConfigAdminAuthType) (data : String)
  deriving DecidableEq

/-- The C struct `ConfigNode`: type and payload, and the list `children`. -/
inductive ConfigNode where
  | mk (data : NodeData) (children : List ConfigNode)

/-- The C struct `_PolKitConfig` (without the reference count); `top_config_node` may be
`NULL`. -/
structure PolKitConfig where
  top_config_node : Option ConfigNode

/-- What `getpwuid_r (uid, &pd, ..., &tempPwdPtr)` can do: return non-zero (`error`),
return zero without an entry, in which case `pd` is left unset (`noEntry`), or return
zero and fill `pd.pw_name` (`entry`). -/
inductive PwLookup where
  | error
  | noEntry
  | entry (pw_name : String)
  deriving DecidableEq

/-- The collaborators of `config_node_match`: `regexec pattern str` says whether
`regexec` on the expression compiled from `pattern` returns 0 for `str`; `getpwuid_r` is
the password database. -/
structure ConfigEnv where
  regexec : String → String → Bool
  getpwuid_r : Nat → PwLookup

/-- The text `printf ("%d", uid)` gives for a 32-bit `uid_t`: the value read as a signed
32-bit integer. -/
def printf_d_uid (uid : Nat) : String :=
  if uid % 2 ^ 32 < 2 ^ 31 then toString (uid % 2 ^ 32)
  else toString ((uid % 2 ^ 32 : Int) - 2 ^ 32)

/-- The uid `config_node_match` looks at for a user match: the caller's when a caller is
given, else the session's, else none (`goto out`). -/
def subject_uid (caller : Option PolKitCaller) (session : Option PolKitSession) :
    Option Nat :=
  match caller, session with
  | some c, _ => some c.uid
  | none, some s => some s.uid
  | none, none => none

/-- Function `config_node_match` for a match node with the given `match_type` and pattern `data`.
`none` is the read of the unset `pd.pw_name` after a zero return of `getpwuid_r` that
found no entry. -/
def config_node_match (env : ConfigEnv) (match_type : MatchType) (data : String)
    (action : PolKitAction) (caller : Option PolKitCaller) (session : Option PolKitSession) :
    Option Bool :=
  match match_type with
  | .MATCH_TYPE_ACTION =>
    match action.action_id with
    | none => some false
    | some str => some (env.regexec data str)
  | .MATCH_TYPE_USER =>
    match subject_uid caller session with
    | none => some false
    | some uid =>
      match env.getpwuid_r uid with
      | .error => some false
      | .noEntry => none
      | .entry pw_name =>
        some (env.regexec data (printf_d_uid uid) || env.regexec data pw_name)

/-- The `switch (node->node_type)` of `config_node_test`: the values of `recurse` and
`result` after it. -/
def config_node_test_switch (env : ConfigEnv) (data : NodeData)
    (action : PolKitAction) (caller : Option PolKitCaller) (session : Option PolKitSession) :
    Option (Bool × PolKitResult) :=
  match data with
  | .NODE_TYPE_NOP => some (false, POLKIT_RESULT_UNKNOWN)
  | .NODE_TYPE_TOP => some (true, POLKIT_RESULT_UNKNOWN)
  | .NODE_TYPE_MATCH match_type pattern =>
    match config_node_match env match_type pattern action caller session with
    | none => none
    | some m => some (m, POLKIT_RESULT_UNKNOWN)
  | .NODE_TYPE_RETURN result => some (false, result)
  | .NODE_TYPE_DEFINE_ADMIN_AUTH _ _ => some (false, POLKIT_RESULT_UNKNOWN)

mutual
/-- Function `config_node_test`. -/
def config_node_test (env : ConfigEnv) (action : PolKitAction)
    (caller : Option PolKitCaller) (session : Option PolKitSession) :
    ConfigNode → Option PolKitResult
  | .mk data children =>
    match config_node_test_switch env data action caller session with
    | none => none
    | some (recurse, result) =>
      if recurse then config_node_test_loop env action caller session children
      else some result
/-- The loop `for (i = node->children; i != NULL; i = i->next)` of `config_node_test`:
it leaves with the first child result that is not `POLKIT_RESULT_UNKNOWN`. -/
def config_node_test_loop (env : ConfigEnv) (action : PolKitAction)
    (caller : Option PolKitCaller) (session : Option PolKitSession) :
    List ConfigNode → Option PolKitResult
  | [] => some POLKIT_RESULT_UNKNOWN
  | child_node :: rest =>
    match config_node_test env action caller session child_node with
    | none => none
    | some result =>
      if result ≠ POLKIT_RESULT_UNKNOWN then some result
      else config_node_test_loop env action caller session rest
end

/-- Function `polkit_config_can_session_do_action`. -/
def polkit_config_can_session_do_action (env : ConfigEnv) (pk_config : PolKitConfig)
    (action : PolKitAction) (session : Option PolKitSession) : Option PolKitResult :=
  match pk_config.top_config_node with
  | some top => config_node_test env action none session top
  | none => some POLKIT_RESULT_UNKNOWN

/-- Function `polkit_config_can_caller_do_action`. -/
def polkit_config_can_caller_do_action (env : ConfigEnv) (pk_config : PolKitConfig)
    (action : PolKitAction) (caller : Option PolKitCaller) : Option PolKitResult :=
  match pk_config.top_config_node with
  | some top => config_node_test env action caller none top
  | none => some POLKIT_RESULT_UNKNOWN

mutual
/-- The walk of `config_node_test` with the nodes it evaluates recorded in order: the
same control flow, returning the result together with the list of nodes on which
`config_node_test` was entered. -/
def config_node_test_trace (env : ConfigEnv) (action : PolKitAction)
    (caller : Option PolKitCaller) (session : Option PolKitSession) :
    ConfigNode → Option PolKitResult × List ConfigNode
  | .mk data children =>
    match config_node_test_switch env data action caller session with
    | none => (none, [.mk data children])
    | some (recurse, result) =>
      if recurse then
        let r := config_node_test_loop_trace env action caller session children
        (r.1, .mk data children :: r.2)
      else (some result, [.mk data children])
/-- The children loop of `config_node_test_trace`. -/
def config_node_test_loop_trace (env : ConfigEnv) (action : PolKitAction)
    (caller : Option PolKitCaller) (session : Option PolKitSession) :
    List ConfigNode → Option PolKitResult × List ConfigNode
  | [] => (some POLKIT_RESULT_UNKNOWN, [])
  | child_node :: rest =>
    let c := config_node_test_trace env action caller session child_node
    match c.1 with
    | none => (none, c.2)
    | some result =>
      if result ≠ POLKIT_RESULT_UNKNOWN then (some result, c.2)
      else
        let r := config_node_test_loop_trace env action caller session rest
        (r.1, c.2 ++ r.2)
end

/-! ### The walk order the specification describes -/

/-- Whether the walk descends into a node: the top node, and a match node that matches
the action/subject. -/
def descends (env : ConfigEnv) (action : PolKitAction)
    (caller : Option PolKitCaller) (session : Option PolKitSession) : NodeData → Bool
  | .NODE_TYPE_TOP => true
  | .NODE_TYPE_MATCH match_type pattern =>
    config_node_match env match_type pattern action caller session == some true
  | _ => false

mutual
/-- The nodes of a configuration tree in depth-first, left-to-right order, descending
only into the top node and into match nodes that match, with no early stop. -/
def walk_order (env : ConfigEnv) (action : PolKitAction)
    (caller : Option PolKitCaller) (session : Option PolKitSession) :
    ConfigNode → List ConfigNode
  | .mk data children =>
    if descends env action caller session data then
      .mk data children :: walk_order_list env action caller session children
    else [.mk data children]
/-- The walk order of a list of sibling nodes. -/
def walk_order_list (env : ConfigEnv) (action : PolKitAction)
    (caller : Option PolKitCaller) (session : Option PolKitSession) :
    List ConfigNode → List ConfigNode
  | [] => []
  | child :: rest =>
    walk_order env action caller session child ++
      walk_order_list env action caller session rest
end

/-- The result attribute of a return node, `none` for any other node. -/
def return_result : ConfigNode → Option PolKitResult
  | .mk (.NODE_TYPE_RETURN result) _ => some result
  | _ => none

/-- The result attribute of the first return node of a list of nodes. -/
def first_return : List ConfigNode → Option PolKitResult
  | [] => none
  | n :: rest =>
    match return_result n with
    | some r => some r
    | none => first_return rest

/-- Whether a node is a return node whose result is not `POLKIT_RESULT_UNKNOWN`. -/
def is_definite_return (n : ConfigNode) : Bool :=
  match return_result n with
  | some r => r != POLKIT_RESULT_UNKNOWN
  | none => false

/-- The result attribute of the first return node of a list whose result is not
`POLKIT_RESULT_UNKNOWN`; `POLKIT_RESULT_UNKNOWN` when there is none. -/
def first_definite_result : List ConfigNode → PolKitResult
  | [] => POLKIT_RESULT_UNKNOWN
  | n :: rest =>
    match return_result n with
    | some r => if r ≠ POLKIT_RESULT_UNKNOWN then r else first_definite_result rest
    | none => first_definite_result rest

/-- The prefix of a list of nodes up to and including its first return node whose
result is not `POLKIT_RESULT_UNKNOWN` (the whole list when there is none). -/
def upto_first_definite : List ConfigNode → List ConfigNode
  | [] => []
  | n :: rest => if is_definite_return n then [n] else n :: upto_first_definite rest

/-- The subject's password-database lookup does not end in the unset-`pd` case. -/
def lookup_defined (env : ConfigEnv) (caller : Option PolKitCaller)
    (session : Option PolKitSession) : Bool :=
  match subject_uid caller session with
  | none => true
  | some uid => env.getpwuid_r uid != .noEntry

/-- The walk order of a whole configuration: that of its top node, and no node at all
when the configuration has no top node. -/
def config_walk_order (env : ConfigEnv) (pk_config : PolKitConfig) (action : PolKitAction)
    (caller : Option PolKitCaller) (session : Option PolKitSession) : List ConfigNode :=
  match pk_config.top_config_node with
  | some top => walk_order env action caller session top
  | none => []

/-- A test environment: the expression matches exactly the text equal to its pattern,
and uid 500 is user `joe`. -/
def env_example : ConfigEnv where
  regexec := fun pattern str => pattern == str
  getpwuid_r := fun uid => if uid = 500 then .entry "joe" else .error

def caller_example : PolKitCaller :=
  { dbus_name := none, uid := 500, pid := 4242, selinux_context := none, session := none }

def session_example : PolKitSession :=
  { ck_objref := some "/org/freedesktop/ConsoleKit/Session1", uid := 500,
    is_active := true, is_local := true, remote_host := none }

/-- The tree of `<config><return result="unknown"/><return result="yes"/></config>`. -/
def config_unknown_then_yes : ConfigNode :=
  .mk .NODE_TYPE_TOP
    [ .mk (.NODE_TYPE_RETURN POLKIT_RESULT_UNKNOWN) [],
      .mk (.NODE_TYPE_RETURN POLKIT_RESULT_YES) [] ]

/-- The tree of
`<config><match action="org.foo.bar"><return result="no"/></match></config>`. -/
def config_guarded_return : ConfigNode :=
  .mk .NODE_TYPE_TOP
    [ .mk (.NODE_TYPE_MATCH .MATCH_TYPE_ACTION "org.foo.bar")
        [ .mk (.NODE_TYPE_RETURN POLKIT_RESULT_NO) [] ] ]

/-! ## polkit-policy-file.c: localisation -/

/-- The translations table handed to `_localize`, seen through `kit_hash_lookup`: the
value stored under a key, `none` (the `NULL` result) when the key is absent. Strings are
C strings, one `Char` per byte. -/
abbrev KitHash := String → Option String

/-- The bytes of a character buffer read as a C string: those before the first NUL. -/
def c_str (buf : List Char) : List Char :=
  buf.takeWhile (fun c => c ≠ '\x00')

/-- Function `strncpy (dest, src, n)`: the buffer of `n` bytes it leaves in `dest`; the bytes of
`src` up to its end (at most `n` of them), the rest filled with NUL. -/
def strncpy (src : List Char) (n : Nat) : List Char :=
  (c_str src).take n ++ List.replicate (n - ((c_str src).take n).length) '\x00'

/-- The loop `for (n = 0; lang2[n] != 0; n++) if (lang2[n] == '_') { lang2[n] = 0; break; }`
of `_localize` run over the buffer: the buffer it leaves, or `none` when it runs past the
end of the buffer without meeting a NUL or an underscore. -/
def _localize_cut : List Char → Option (List Char)
  | [] => none
  | c :: rest =>
    if c = '\x00' then some (c :: rest)
    else if c = '_' then some ('\x00' :: rest)
    else (_localize_cut rest).map (fun b => c :: b)

/-- Function `_localize (translations, untranslated, lang)`; `untranslated` and `lang` may be
`NULL`. The outer `none` is the read past `lang2[256]`. -/
def _localize (translations : KitHash) (untranslated : Option String)
    (lang : Option String) : Option (Option String) :=
  match lang with
  | none => some untranslated
  | some lang =>
    match translations lang with
    | some result => some (some result)
    | none =>
      match _localize_cut (strncpy lang.data 256) with
      | none => none
      | some lang2 =>
        match translations (String.mk (c_str lang2)) with
        | some result => some (some result)
        | none => some untranslated

/-- The loop of `polkit_policy_file_new` that cuts `pd.lang` at its first `'.'`. -/
def lang_cut_encoding : List Char → List Char
  | [] => []
  | c :: rest => if c = '.' then [] else c :: lang_cut_encoding rest

/-- The value of `pd.lang` that `polkit_policy_file_new` computes from `getenv ("LANG")`
(`none` when the variable is unset). -/
def policy_file_lang (LANG : Option String) : Option String :=
  match LANG with
  | none => none
  | some lang => some (String.mk (lang_cut_encoding lang.data))

/-- The resolution rule of the specification: the translation stored under the language
tag, else the one stored under the tag truncated before its first underscore, else the
untagged value; the untagged value when no language is set. -/
def localize_spec (translations : KitHash) (untranslated : Option String)
    (lang : Option String) : Option String :=
  match lang with
  | none => untranslated
  | some lang =>
    match translations lang with
    | some t => some t
    | none =>
      match translations (String.mk (lang.data.takeWhile (fun c => c ≠ '_'))) with
      | some t => some t
      | none => untranslated

/-- The language tag of the specification: `$LANG` with everything from the first `'.'`
removed. -/
def lang_tag_spec (LANG : String) : String :=
  String.mk (LANG.data.takeWhile (fun c => c ≠ '.'))

/-- The translations of test-valid-3-lang.policy for the description of
`org.example.valid3`: one entry, for `da`. -/
def translations_example : KitHash :=
  fun key => if key = "da" then some "example (danish)" else none

/-! ## Authorizations

polkit-authorization.c and polkit-authorization-constraint.c are not part of the embedded
sources; the objects they define are modelled from the specification and from the way the
embedded code uses their accessors. -/

/-- Modelled from the spec: an authorization constraint (polkit-authorization-constraint.c
is absent): `local`, `active`, `exe:<path>` or `selinux_context:<label>`. -/
inductive PolKitAuthorizationConstraint where
  | REQUIRE_LOCAL
  | REQUIRE_ACTIVE
  | REQUIRE_EXE (path : String)
  | REQUIRE_SELINUX_CONTEXT (label : String)
  deriving DecidableEq

/-- Modelled from the spec: `polkit_authorization_constraint_equal`, absent from the
embedded sources; constraint equality is structural. -/
def polkit_authorization_constraint_equal (a b : PolKitAuthorizationConstraint) : Bool :=
  a == b

/-- Modelled from the spec: the scope of an authorization with the fields the scope
requires (the enum `PolKitAuthorizationScope` with the data read by
`polkit_authorization_scope_process_get_pid` and
`polkit_authorization_scope_session_get_ck_objref`). -/
inductive PolKitAuthorizationScope where
  | POLKIT_AUTHORIZATION_SCOPE_PROCESS_ONE_SHOT (pid : Int) (pid_start_time : Nat)
  | POLKIT_AUTHORIZATION_SCOPE_PROCESS (pid : Int) (pid_start_time : Nat)
  | POLKIT_AUTHORIZATION_SCOPE_SESSION (ck_objref : String)
  | POLKIT_AUTHORIZATION_SCOPE_ALWAYS
  deriving DecidableEq

/-- Modelled from the spec: how an authorization was obtained; through authentication
(`auth-as`) or through an explicit grant (`granted-by`), which is positive or negative. -/
inductive GrantOrigin where
  | via_defaults (auth_as : Nat)
  | explicitly (granted_by : Nat) (is_negative : Bool)
  deriving DecidableEq

/-- Modelled from the spec: an authorization entry (polkit-authorization.c is absent):
the user it belongs to, action, scope, time of grant, origin and constraint list. -/
structure PolKitAuthorization where
  uid : Nat
  action_id : String
  scope : PolKitAuthorizationScope
  when : Nat
  origin : GrantOrigin
  constraints : List PolKitAuthorizationConstraint
  deriving DecidableEq

/-- Modelled from the spec: `polkit_authorization_was_granted_explicitly`, absent from
the embedded sources: `some (by_whom, is_negative)` for an explicit grant, `none`
(`FALSE`) otherwise. -/
def polkit_authorization_was_granted_explicitly (auth : PolKitAuthorization) :
    Option (Nat × Bool) :=
  match auth.origin with
  | .explicitly granted_by is_negative => some (granted_by, is_negative)
  | .via_defaults _ => none

/-! ## polkit-dbus.c: relevance of an authorization -/

/-- An element of the array in ConsoleKit's reply, by its D-Bus type. -/
inductive DBusArg where
  | DBUS_TYPE_OBJECT_PATH (value : String)
  | OTHER_TYPE
  deriving DecidableEq

/-- What `dbus_connection_send_with_reply_and_block` gives for `GetSessionsForUnixUser`:
no reply (the error is set), a reply whose argument is not an array, or an array. -/
inductive CKReply where
  | failed
  | not_an_array
  | array (elems : List DBusArg)
  deriving DecidableEq

/-- The system bus connection, as far as the embedded code uses it: the answer of
ConsoleKit's `GetSessionsForUnixUser` for a uid. -/
structure DBusConnection where
  GetSessionsForUnixUser : Nat → CKReply

/-- The C struct `DBusError`, as far as the code looks at it. -/
structure DBusError where
  is_set : Bool
  deriving DecidableEq

/-- A `KitList *` of strings as a function result: a list (`NULL` is the empty list), or
a pointer to a list that has already been freed. -/
inductive KitListPtr where
  | list (elems : List String)
  | dangling
  deriving DecidableEq

/-- The `while` loop of `_get_list_of_sessions` over the elements of the array, `ret`
being the list built so far. On an element that is not an object path the list is freed
and the stale `ret` is returned. -/
def _get_list_of_sessions_loop (ret : List String) : List DBusArg → KitListPtr
  | [] => .list ret
  | .DBUS_TYPE_OBJECT_PATH value :: rest => _get_list_of_sessions_loop (ret ++ [value]) rest
  | .OTHER_TYPE :: _ => if ret = [] then .list [] else .dangling

/-- Function `_get_list_of_sessions (con, uid, error)`: the returned list and the error
afterwards. -/
def _get_list_of_sessions (con : DBusConnection) (uid : Nat) (error : DBusError) :
    KitListPtr × DBusError :=
  match con.GetSessionsForUnixUser uid with
  | .failed => (.list [], { is_set := true })
  | .not_an_array => (.list [], error)
  | .array elems => (_get_list_of_sessions_loop [] elems, error)

/-- Function `_polkit_is_authorization_relevant_internal (con, auth, sessions, error)`, with
`polkit_sysdeps_get_start_time_for_pid` as a parameter; pointers that may be `NULL` are
options and `sessions` is a `KitList *` (`NULL` is `[]`). The result is the returned
boolean and the error afterwards; `none` is the walk over a list already freed. -/
def _polkit_is_authorization_relevant_internal
    (polkit_sysdeps_get_start_time_for_pid : Int → Nat)
    (con : Option DBusConnection) (auth : Option PolKitAuthorization)
    (sessions : List String) (error : Option DBusError) : Option (Bool × Option DBusError) :=
  match con, auth, error with
  | none, _, _ => some (false, error)
  | some _, none, _ => some (false, error)
  | some _, some _, none => some (false, error)
  | some con, some auth, some err =>
    if err.is_set then some (false, error)
    else
      let uid := auth.uid
      match auth.scope with
      | .POLKIT_AUTHORIZATION_SCOPE_PROCESS_ONE_SHOT pid pid_start_time =>
        some (polkit_sysdeps_get_start_time_for_pid pid == pid_start_time, error)
      | .POLKIT_AUTHORIZATION_SCOPE_PROCESS pid pid_start_time =>
        some (polkit_sysdeps_get_start_time_for_pid pid == pid_start_time, error)
      | .POLKIT_AUTHORIZATION_SCOPE_SESSION ck_objref =>
        let fetched : KitListPtr × DBusError :=
          if sessions = [] then _get_list_of_sessions con uid err
          else (.list sessions, err)
        match fetched.1 with
        | .dangling => none
        | .list elems => some (elems.any (fun session_id => session_id == ck_objref),
            some fetched.2)
      | .POLKIT_AUTHORIZATION_SCOPE_ALWAYS => some (true, error)

/-- Function `polkit_is_authorization_relevant (con, auth, error)`. -/
def polkit_is_authorization_relevant
    (polkit_sysdeps_get_start_time_for_pid : Int → Nat)
    (con : Option DBusConnection) (auth : Option PolKitAuthorization)
    (error : Option DBusError) : Option (Bool × Option DBusError) :=
  _polkit_is_authorization_relevant_internal polkit_sysdeps_get_start_time_for_pid
    con auth [] error

/-- The reply of ConsoleKit is well-typed: when it is an array, every element is an
object path. -/
def reply_well_typed : CKReply → Bool
  | .array elems => elems.all (fun a => a != .OTHER_TYPE)
  | _ => true

/-- The object paths among the elements of an array. -/
def object_paths : List DBusArg → List String
  | [] => []
  | .DBUS_TYPE_OBJECT_PATH value :: rest => value :: object_paths rest
  | .OTHER_TYPE :: rest => object_paths rest

/-- The sessions currently known for a uid: the object paths ConsoleKit lists for it
(none when it gives no list). -/
def known_sessions (con : DBusConnection) (uid : Nat) : List String :=
  match con.GetSessionsForUnixUser uid with
  | .array elems => object_paths elems
  | _ => []

/-- The relevance rule of the specification. -/
def relevant_spec (start_time_for_pid : Int → Nat) (con : DBusConnection)
    (auth : PolKitAuthorization) : Prop :=
  (∃ pid pid_start_time,
      (auth.scope = .POLKIT_AUTHORIZATION_SCOPE_PROCESS pid pid_start_time ∨
        auth.scope = .POLKIT_AUTHORIZATION_SCOPE_PROCESS_ONE_SHOT pid pid_start_time) ∧
      start_time_for_pid pid = pid_start_time) ∨
  (∃ ck_objref, auth.scope = .POLKIT_AUTHORIZATION_SCOPE_SESSION ck_objref ∧
      ck_objref ∈ known_sessions con auth.uid) ∨
  auth.scope = .POLKIT_AUTHORIZATION_SCOPE_ALWAYS

/-- A bus on which ConsoleKit knows the sessions `Session1` and `Session2` of uid 500. -/
def con_example : DBusConnection where
  GetSessionsForUnixUser := fun uid =>
    if uid = 500 then
      .array [ .DBUS_TYPE_OBJECT_PATH "/org/freedesktop/ConsoleKit/Session1",
               .DBUS_TYPE_OBJECT_PATH "/org/freedesktop/ConsoleKit/Session2" ]
    else .array []

/-- Process 4242 started at time 777; no other process exists. -/
def start_time_example : Int → Nat :=
  fun pid => if pid = 4242 then 777 else 0

def auth_session_example : PolKitAuthorization :=
  { uid := 500, action_id := "org.foo.bar",
    scope := .POLKIT_AUTHORIZATION_SCOPE_SESSION "/org/freedesktop/ConsoleKit/Session2",
    when := 1200000000, origin := .via_defaults 500, constraints := [] }

/-! ## polkit-error.c -/

/-- The C enum `PolKitErrorCode`, passed around as an `int`; the values are the indices
of the table `error_names`. -/
abbrev PolKitErrorCode := Int

def POLKIT_ERROR_OUT_OF_MEMORY : PolKitErrorCode := 0
def POLKIT_ERROR_POLICY_FILE_INVALID : PolKitErrorCode := 1
def POLKIT_ERROR_GENERAL_ERROR : PolKitErrorCode := 2
def POLKIT_ERROR_NOT_AUTHORIZED_TO_READ_AUTHORIZATIONS_FOR_OTHER_USERS : PolKitErrorCode := 3
def POLKIT_ERROR_NOT_AUTHORIZED_TO_REVOKE_AUTHORIZATIONS_FROM_OTHER_USERS : PolKitErrorCode := 4
def POLKIT_ERROR_NOT_AUTHORIZED_TO_GRANT_AUTHORIZATION : PolKitErrorCode := 5
def POLKIT_ERROR_AUTHORIZATION_ALREADY_EXISTS : PolKitErrorCode := 6
def POLKIT_ERROR_NOT_SUPPORTED : PolKitErrorCode := 7
def POLKIT_ERROR_NOT_AUTHORIZED_TO_MODIFY_DEFAULTS : PolKitErrorCode := 8
def POLKIT_ERROR_NUM_ERROR_CODES : Int := 9

/-- The static table `error_names`. -/
def error_names : List String :=
  [ "OutOfMemory",
    "PolicyFileInvalid",
    "GeneralError",
    "NotAuthorizedToReadAuthorizationsForOtherUsers",
    "NotAuthorizedToRevokeAuthorizationsFromOtherUsers",
    "NotAuthorizedToGrantAuthorization",
    "AuthorizationAlreadyExists",
    "NotSupported",
    "NotAuthorizedToModifyDefaults" ]

/-- The C struct `_PolKitError`. -/
structure PolKitError where
  is_static : Bool
  error_code : PolKitErrorCode
  error_message : String
  deriving DecidableEq

/-- The static object `_oom_error`. -/
def _oom_error : PolKitError :=
  { is_static := true, error_code := POLKIT_ERROR_OUT_OF_MEMORY,
    error_message := "Pre-allocated OOM error object" }

/-- Function `polkit_error_is_set (error)`: the pointer is not `NULL`. -/
def polkit_error_is_set (error : Option PolKitError) : Bool :=
  error.isSome

/-- Whether the two allocations of `polkit_error_set_error` succeed: `kit_new0` for the
error object and `kit_strdup_vprintf` for the message. -/
structure ErrorAlloc where
  kit_new0_ok : Bool
  kit_strdup_vprintf_ok : Bool

/-- Function `polkit_error_set_error (error, error_code, format, ...)`. The location `error` is
`none` for a `NULL` pointer and otherwise holds the current `*error`; `format` is `none`
for `NULL` and otherwise the text the format gives with its arguments. The result is the
returned boolean and the location afterwards. -/
def polkit_error_set_error (mem : ErrorAlloc) (error : Option (Option PolKitError))
    (error_code : PolKitErrorCode) (format : Option String) :
    Bool × Option (Option PolKitError) :=
  match format with
  | none => (false, error)
  | some message =>
    if error_code < 0 ∨ error_code ≥ POLKIT_ERROR_NUM_ERROR_CODES then (false, error)
    else
      match error with
      | none => (true, none)
      | some _ =>
        if ¬ mem.kit_new0_ok then (true, some (some _oom_error))
        else if ¬ mem.kit_strdup_vprintf_ok then (true, some (some _oom_error))
        else (true, some (some { is_static := false, error_code := error_code,
                                 error_message := message }))

/-! ## polkit-authorization-db-write.c: granting -/

/-- The two serialisers `_write_constraints` calls, both absent from the embedded sources
and taken as parameters: the text of a constraint and the percent-encoding of a text.
The C functions write into a bounded buffer and return the length of the full text. -/
structure ConstraintCodec where
  polkit_authorization_constraint_to_string : PolKitAuthorizationConstraint → String
  kit_string_percent_encode : String → String

/-- An `unsigned int` value returned as an `int`. -/
def unsigned_as_int (m : Nat) : Int :=
  if m % 2 ^ 32 < 2 ^ 31 then (m % 2 ^ 32 : Nat) else ((m % 2 ^ 32 : Nat) : Int) - 2 ^ 32

/-- The loop of `_write_constraints` from the counter value `m` (an `unsigned int`) on:
the returned `int` and the text produced so far (`text`), which is what the buffer holds
when the returned length is smaller than the buffer size. -/
def _write_constraints_loop (codec : ConstraintCodec) :
    List PolKitAuthorizationConstraint → Nat → String → Int × String
  | [], m, text => (unsigned_as_int m, text)
  | c :: rest, m, text =>
    let value := codec.polkit_authorization_constraint_to_string c
    if value.length ≥ 1024 then (-1, text)
    else
      let key := codec.kit_string_percent_encode "constraint"
      let enc := codec.kit_string_percent_encode value
      _write_constraints_loop codec rest
        ((m + 1 + key.length + 1 + enc.length) % 2 ^ 32)
        (text ++ ":" ++ key ++ "=" ++ enc)

/-- Function `_write_constraints (buf, buf_size, constraints)`: the returned `int` and the text
written; `constraints` is `none` for `NULL` (the function then returns 0). -/
def _write_constraints (codec : ConstraintCodec)
    (constraints : Option (List PolKitAuthorizationConstraint)) : Int × String :=
  match constraints with
  | none => (0, "")
  | some cs => _write_constraints_loop codec cs 0 ""

/-- The C struct `CheckDataGrant`; `constraints` is `none` for a `NULL` array. -/
structure CheckDataGrant where
  action_id : String
  _check_constraint_num : Nat
  constraints : Option (List PolKitAuthorizationConstraint)
  is_authorized : Bool
  is_negative_authorized : Bool
  deriving DecidableEq

/-- The read `cd->constraints[k]` of the `NULL`-terminated array: `some none` is the
terminator, `none` a read through a `NULL` array or past the terminator. -/
def constraints_at (constraints : Option (List PolKitAuthorizationConstraint)) (k : Nat) :
    Option (Option PolKitAuthorizationConstraint) :=
  match constraints with
  | none => none
  | some cs => if k ≤ cs.length then some (cs.get? k) else none

/-- Function `_check_constraints_for_grant (auth, authc, user_data)`: the returned boolean (`TRUE`
stops the iteration: no match) and the data afterwards. -/
def _check_constraints_for_grant (authc : PolKitAuthorizationConstraint)
    (cd : CheckDataGrant) : Option (Bool × CheckDataGrant) :=
  match constraints_at cd.constraints cd._check_constraint_num with
  | none => none
  | some none => some (true, cd)
  | some (some c) =>
    if ¬ polkit_authorization_constraint_equal authc c then some (true, cd)
    else some (false, { cd with _check_constraint_num := cd._check_constraint_num + 1 })

/-- Modelled from the spec: `polkit_authorization_constraints_foreach`, absent from the
embedded sources, run over the constraints still to visit: the callback is called on
each constraint in order; when it returns `TRUE` the iteration stops and the result is
`TRUE`, otherwise the result is `FALSE`. -/
def polkit_authorization_constraints_foreach {σ : Type}
    (cb : PolKitAuthorizationConstraint → σ → Option (Bool × σ)) :
    List PolKitAuthorizationConstraint → σ → Option (Bool × σ)
  | [], user_data => some (false, user_data)
  | authc :: rest, user_data =>
    match cb authc user_data with
    | none => none
    | some (true, user_data) => some (true, user_data)
    | some (false, user_data) => polkit_authorization_constraints_foreach cb rest user_data

/-- Function `_check_auth_for_grant (authdb, auth, user_data)`: the returned boolean (`TRUE` stops
the iteration over the store) and the data afterwards. -/
def _check_auth_for_grant (auth : PolKitAuthorization) (cd : CheckDataGrant) :
    Option (Bool × CheckDataGrant) :=
  if auth.action_id ≠ cd.action_id then some (false, cd)
  else
    match polkit_authorization_was_granted_explicitly auth with
    | none => some (false, cd)
    | some (_, is_negative) =>
      let cd := { cd with _check_constraint_num := 0 }
      match polkit_authorization_constraints_foreach _check_constraints_for_grant
          auth.constraints cd with
      | none => none
      | some (true, cd) => some (false, cd)
      | some (false, cd) =>
        match constraints_at cd.constraints cd._check_constraint_num with
        | none => none
        | some (some _) => some (false, cd)
        | some none =>
          if is_negative then
            some (true, { cd with is_authorized := false, is_negative_authorized := true })
          else
            some (false, { cd with is_authorized := true, is_negative_authorized := false })

/-- Modelled from the spec: what reading the store of one user gives (the reader,
polkit-authorization-db.c, is absent): an error of some kind, or the entries of the user
in file order. -/
inductive StoreRead where
  | failed (error_code : PolKitErrorCode)
  | entries (auths : List PolKitAuthorization)
  deriving DecidableEq

/-- Modelled from the spec: the authorization database as the reader sees it, one store
per uid. -/
structure PolKitAuthorizationDB where
  store : Nat → StoreRead

/-- Modelled from the spec: the visiting loop of `polkit_authorization_db_foreach_for_uid`
over the entries still to visit; it stops as soon as the visitor returns `TRUE`. -/
def foreach_for_uid_loop {σ : Type} (cb : PolKitAuthorization → σ → Option (Bool × σ)) :
    List PolKitAuthorization → σ → Option (Bool × σ)
  | [], user_data => some (false, user_data)
  | auth :: rest, user_data =>
    match cb auth user_data with
    | none => none
    | some (true, user_data) => some (true, user_data)
    | some (false, user_data) => foreach_for_uid_loop cb rest user_data

/-- Modelled from the spec: `polkit_authorization_db_foreach_for_uid (authdb, uid, cb,
user_data, error)`, absent from the embedded sources. When the store cannot be read the
error is set and nothing is visited; otherwise the entries are visited in order until the
visitor asks to stop. The result is the returned boolean, the visitor data and the error
location afterwards. -/
def polkit_authorization_db_foreach_for_uid {σ : Type} (mem : ErrorAlloc)
    (authdb : PolKitAuthorizationDB) (uid : Nat)
    (cb : PolKitAuthorization → σ → Option (Bool × σ)) (user_data : σ)
    (error : Option (Option PolKitError)) :
    Option (Bool × σ × Option (Option PolKitError)) :=
  match authdb.store uid with
  | .failed error_code =>
    some (false, user_data,
      (polkit_error_set_error mem error error_code
        (some ("Cannot read authorizations for uid " ++ printf_d_uid uid))).2)
  | .entries auths =>
    match foreach_for_uid_loop cb auths user_data with
    | none => none
    | some (ret, user_data) => some (ret, user_data, error)

/-- What `g_spawn_sync` reports for the grant helper: failure to spawn, or the wait
status of the terminated child. -/
inductive SpawnResult where
  | spawn_failed (message : String)
  | terminated (exit_status : Nat)
  deriving DecidableEq

/-- The macro `WIFEXITED` of `<sys/wait.h>`. -/
def WIFEXITED (status : Nat) : Bool := status % 128 == 0

/-- The macro `WEXITSTATUS` of `<sys/wait.h>`. -/
def WEXITSTATUS (status : Nat) : Nat := (status / 256) % 256

/-- The surroundings of `_grant_internal`: the serialisers, the build-time directory of
the helper, what spawning the helper with a given `argv` reports, and the allocations of
the error object. -/
structure GrantEnv where
  codec : ConstraintCodec
  PACKAGE_LIBEXEC_DIR : String
  g_spawn_sync : List String → SpawnResult
  mem : ErrorAlloc
  getuid : Nat

/-- What a call of `_grant_internal` leaves: the returned boolean, the error location
afterwards, and the `argv` with which the helper was spawned (`none` when it was not
run). -/
structure GrantOutcome where
  ret : Bool
  error : Option (Option PolKitError)
  helper_argv : Option (List String)
  deriving DecidableEq

/-- The text of the `AuthorizationAlreadyExists` error of `_grant_internal`. -/
def already_exists_message (uid : Nat) (action_id cbuf : String) : String :=
  "An authorization for uid " ++ printf_d_uid uid ++ " for the action " ++ action_id ++
    " with constraint \'" ++ cbuf ++ "\' already exists"

/-- Function `_grant_internal (authdb, action, uid, constraints, error, is_negative)`. Pointers
that may be `NULL` are options. `none` is a memory fault (the read of `cd->constraints[..]`
through a `NULL` array). -/
def _grant_internal (env : GrantEnv) (authdb : Option PolKitAuthorizationDB)
    (action : Option PolKitAction) (uid : Nat)
    (constraints : Option (List PolKitAuthorizationConstraint))
    (error : Option (Option PolKitError)) (is_negative : Bool) : Option GrantOutcome :=
  match authdb, action with
  | none, _ => some { ret := false, error := error, helper_argv := none }
  | some _, none => some { ret := false, error := error, helper_argv := none }
  | some authdb, some action =>
    match action.action_id with
    | none =>
      some { ret := false, helper_argv := none,
             error := (polkit_error_set_error env.mem error POLKIT_ERROR_GENERAL_ERROR
               (some "Given action does not have action_id set")).2 }
    | some action_id =>
      let written : Int × String :=
        match constraints with
        | none => (0, "")
        | some _ => _write_constraints env.codec constraints
      if written.1 = -1 then
        some { ret := false, helper_argv := none,
               error := (polkit_error_set_error env.mem error POLKIT_ERROR_GENERAL_ERROR
                 (some "one of the given constraints did not fit")).2 }
      else if written.1 < 0 ∨ written.1 ≥ 1024 then
        some { ret := false, helper_argv := none,
               error := (polkit_error_set_error env.mem error POLKIT_ERROR_GENERAL_ERROR
                 (some "buffer for auth constraint is too small")).2 }
      else
        let cbuf := written.2
        let cd : CheckDataGrant :=
          { action_id := action_id, _check_constraint_num := 0, constraints := constraints,
            is_authorized := false, is_negative_authorized := false }
        match polkit_authorization_db_foreach_for_uid env.mem authdb uid
            _check_auth_for_grant cd error with
        | none => none
        | some (_, cd, error) =>
          if (match error with
              | none => false
              | some e => polkit_error_is_set e) then
            some { ret := false, error := error, helper_argv := none }
          else
            let did_exist : Bool :=
              if is_negative then cd.is_negative_authorized else cd.is_authorized
            if did_exist then
              some { ret := false, helper_argv := none,
                     error := (polkit_error_set_error env.mem error
                       POLKIT_ERROR_AUTHORIZATION_ALREADY_EXISTS
                       (some (already_exists_message uid cd.action_id cbuf))).2 }
            else
              let helper_argv : List String :=
                [ env.PACKAGE_LIBEXEC_DIR ++ "/polkit-explicit-grant-helper",
                  cd.action_id, cbuf,
                  if is_negative then "uid-negative" else "uid",
                  printf_d_uid uid ]
              match env.g_spawn_sync helper_argv with
              | .spawn_failed message =>
                some { ret := false, helper_argv := some helper_argv,
                       error := (polkit_error_set_error env.mem error
                         POLKIT_ERROR_GENERAL_ERROR
                         (some ("Error spawning explicit grant helper: " ++ message))).2 }
              | .terminated exit_status =>
                if ¬ WIFEXITED exit_status then
                  some { ret := false, helper_argv := some helper_argv,
                         error := (polkit_error_set_error env.mem error
                           POLKIT_ERROR_GENERAL_ERROR
                           (some "Explicit grant helper crashed!")).2 }
                else if WEXITSTATUS exit_status ≠ 0 then
                  some { ret := false, helper_argv := some helper_argv,
                         error := (polkit_error_set_error env.mem error
                           POLKIT_ERROR_NOT_AUTHORIZED_TO_GRANT_AUTHORIZATION
                           (some ("uid " ++ printf_d_uid env.getuid ++
                             " is not authorized to grant authorization for action " ++
                             cd.action_id ++ " to uid " ++ printf_d_uid uid ++
                             " (requires org.freedesktop.policykit.grant)"))).2 }
                else
                  some { ret := true, error := error, helper_argv := some helper_argv }

/-- Function `polkit_authorization_db_grant_to_uid`. -/
def polkit_authorization_db_grant_to_uid (env : GrantEnv)
    (authdb : Option PolKitAuthorizationDB) (action : Option PolKitAction) (uid : Nat)
    (constraints : Option (List PolKitAuthorizationConstraint))
    (error : Option (Option PolKitError)) : Option GrantOutcome :=
  _grant_internal env authdb action uid constraints error false

/-- Function `polkit_authorization_db_grant_negative_to_uid`. -/
def polkit_authorization_db_grant_negative_to_uid (env : GrantEnv)
    (authdb : Option PolKitAuthorizationDB) (action : Option PolKitAction) (uid : Nat)
    (constraints : Option (List PolKitAuthorizationConstraint))
    (error : Option (Option PolKitError)) : Option GrantOutcome :=
  _grant_internal env authdb action uid constraints error true

/-- A stored entry is an explicit grant of the given sign for the requested action with
a constraint list identical to the requested one. -/
def is_matching_grant (action_id : String) (cs : List PolKitAuthorizationConstraint)
    (negative : Bool) (auth : PolKitAuthorization) : Bool :=
  auth.action_id == action_id &&
    (match auth.origin with
     | .explicitly _ is_negative => is_negative == negative
     | .via_defaults _ => false) &&
    auth.constraints == cs

/-- The scan `_grant_internal` runs over the stored entries of a user: `_check_auth_for_grant`
on each entry in order until it asks to stop. -/
def grant_scan (auths : List PolKitAuthorization) (cd : CheckDataGrant) :
    Option (Bool × CheckDataGrant) :=
  foreach_for_uid_loop _check_auth_for_grant auths cd

/-- The store of a user holding, for `org.foo.bar` with the constraint `local`, a
positive explicit grant, then a negative one, then another positive one, between entries
that do not match. -/
def auths_example : List PolKitAuthorization :=
  [ { uid := 500, action_id := "org.foo.other", scope := .POLKIT_AUTHORIZATION_SCOPE_ALWAYS,
      when := 1200000000, origin := .explicitly 0 true, constraints := [.REQUIRE_LOCAL] },
    { uid := 500, action_id := "org.foo.bar", scope := .POLKIT_AUTHORIZATION_SCOPE_ALWAYS,
      when := 1200000001, origin := .explicitly 0 false, constraints := [.REQUIRE_LOCAL] },
    { uid := 500, action_id := "org.foo.bar", scope := .POLKIT_AUTHORIZATION_SCOPE_ALWAYS,
      when := 1200000002, origin := .explicitly 0 true,
      constraints := [.REQUIRE_LOCAL, .REQUIRE_ACTIVE] },
    { uid := 500, action_id := "org.foo.bar", scope := .POLKIT_AUTHORIZATION_SCOPE_ALWAYS,
      when := 1200000003, origin := .explicitly 0 true, constraints := [.REQUIRE_LOCAL] },
    { uid := 500, action_id := "org.foo.bar", scope := .POLKIT_AUTHORIZATION_SCOPE_ALWAYS,
      when := 1200000004, origin := .explicitly 0 false, constraints := [.REQUIRE_LOCAL] } ]

/-- A database in which uid 500 has the entries of `auths_example` and every other user
an empty store. -/
def authdb_example : PolKitAuthorizationDB where
  store := fun uid => if uid = 500 then .entries auths_example else .entries []

/-- The store of uid 501: one positive explicit grant for `org.foo.bar` with the
constraint `local`. -/
def auths_positive_example : List PolKitAuthorization :=
  [ { uid := 501, action_id := "org.foo.bar", scope := .POLKIT_AUTHORIZATION_SCOPE_ALWAYS,
      when := 1200000001, origin := .explicitly 0 false, constraints := [.REQUIRE_LOCAL] } ]

def authdb_positive_example : PolKitAuthorizationDB where
  store := fun uid => if uid = 501 then .entries auths_positive_example else .entries []

/-- Serialisers for the examples: the constraint tokens of the specification, and an
encoder that leaves its input as it is (the tokens used hold unreserved bytes only). -/
def codec_example : ConstraintCodec where
  polkit_authorization_constraint_to_string := fun c =>
    match c with
    | .REQUIRE_LOCAL => "local"
    | .REQUIRE_ACTIVE => "active"
    | .REQUIRE_EXE path => "exe:" ++ path
    | .REQUIRE_SELINUX_CONTEXT label => "selinux_context:" ++ label
  kit_string_percent_encode := fun str => str

/-- Surroundings for the examples: the helper runs and exits with status 0. -/
def grant_env_example : GrantEnv where
  codec := codec_example
  PACKAGE_LIBEXEC_DIR := "/usr/libexec"
  g_spawn_sync := fun _ => .terminated 0
  mem := { kit_new0_ok := true, kit_strdup_vprintf_ok := true }
  getuid := 0

/-! ## polkit-authorization-db-write.c: appending to the store of a user -/

/-- A file: its bytes and its permission bits. -/
structure File where
  contents : List Char
  mode : Nat
  deriving DecidableEq

/-- The file system as the writer sees it: the file found at a path, if any. -/
abbrev FileSystem := String → Option File

/-- The file system with the entry of one path replaced. -/
def fs_set (fs : FileSystem) (path : String) (file : Option File) : FileSystem :=
  fun p => if p = path then file else fs p

/-- The system and library calls `_polkit_authorization_db_auth_file_add` makes on the
file system, as recorded in the trace of a run. -/
inductive Syscall where
  | stat (path : String)
  | g_file_get_contents (path : String)
  | mkstemp (template : String) (created : Option String)
  | fchmod (path : String) (mode : Nat)
  | open_rdwr_creat (path : String) (mode : Nat)
  | write (path : String) (count : Nat)
  | close (path : String)
  | rename (oldpath newpath : String)
  | unlink (path : String)
  | utimes (path : String)
  deriving DecidableEq

/-- What one call of `write (fd, buf, count)` does: it writes the first `n` bytes (at
most `count`), fails with `EAGAIN` or `EINTR`, or fails with another error. -/
inductive WriteOutcome where
  | wrote (n : Nat)
  | again
  | error
  deriving DecidableEq

/-- The surroundings of `_polkit_authorization_db_auth_file_add`: the build-time state
directory, the password database (`pw_name` of a uid), and how the calls that can fail
turn out; `writes` lists the outcomes of the successive `write` calls, `mkstemp_suffix`
the characters `mkstemp` puts in place of `XXXXXX` (`none` when it fails). -/
structure AuthFileEnv where
  PACKAGE_LOCALSTATE_DIR : String
  getpwuid : Nat → Option String
  g_file_get_contents_ok : Bool
  mkstemp_suffix : Option String
  fchmod_ok : Bool
  open_ok : Bool
  writes : List WriteOutcome
  rename_ok : Bool
  unlink_ok : Bool
  utimes_ok : Bool

/-- The effect on the file system of writing `data` at offset `offset` of the file open
at `fd` (a descriptor is modelled by the path of its file). -/
def write_at (fs : FileSystem) (fd : String) (offset : Nat) (data : List Char) : FileSystem :=
  match fs fd with
  | none => fs
  | some f =>
    let contents := f.contents.take offset ++ data ++ f.contents.drop (offset + data.length)
    fs_set fs fd (some { f with contents := contents })

/-- The state of `_write_to_fd` between two `write` calls: the file system, the file
offset of the descriptor, the `write` outcomes still to come and the calls made. -/
structure WriteState where
  fs : FileSystem
  offset : Nat
  writes : List WriteOutcome
  trace : List Syscall

/-- The loop `while (written < str_len)` of `_write_to_fd`, `rest` being the bytes
`str + written` still to write. It is run over the outcomes of the `write` calls; `none`
means that the loop is still running when the listed outcomes are used up. -/
def _write_to_fd_loop (fd : String) :
    List WriteOutcome → FileSystem → Nat → List Char → List Syscall →
      Option (Bool × WriteState)
  | writes, fs, offset, [], trace =>
    some (true, { fs := fs, offset := offset, writes := writes, trace := trace })
  | [], _, _, _ :: _, _ => none
  | .again :: writes, fs, offset, b :: bs, trace =>
    _write_to_fd_loop fd writes fs offset (b :: bs)
      (trace ++ [.write fd (b :: bs).length])
  | .error :: writes, fs, offset, b :: bs, trace =>
    some (false, { fs := fs, offset := offset, writes := writes,
                   trace := trace ++ [.write fd (b :: bs).length] })
  | .wrote n :: writes, fs, offset, b :: bs, trace =>
    _write_to_fd_loop fd writes
      (write_at fs fd offset ((b :: bs).take n))
      (offset + ((b :: bs).take n).length)
      ((b :: bs).drop n)
      (trace ++ [.write fd (b :: bs).length])

/-- Function `_write_to_fd (fd, str, str_len)` started in a given state. -/
def _write_to_fd (fd : String) (st : WriteState) (str : List Char) :
    Option (Bool × WriteState) :=
  _write_to_fd_loop fd st.writes st.fs st.offset str st.trace

/-- The blurb written when the file is created for the first time. -/
def auth_file_blurb (transient : Bool) (pw_name : String) : String :=
  "# This file lists authorizations for user " ++ pw_name ++ "\n" ++
  (if transient then "# (these are temporary and will be removed on the next system boot)\n"
   else "") ++
  "# \n" ++
  "# File format may change at any time; do not rely on it. To manage\n" ++
  "# authorizations use polkit-auth(1) instead.\n" ++
  "\n"

/-- The directory of the store: `root` in `_polkit_authorization_db_auth_file_add`. -/
def auth_file_root (env : AuthFileEnv) (transient : Bool) : String :=
  if transient then env.PACKAGE_LOCALSTATE_DIR ++ "/run/PolicyKit"
  else env.PACKAGE_LOCALSTATE_DIR ++ "/lib/PolicyKit"

/-- The path of the store of a user: `root/user-<name>.auths`. -/
def auth_file_path (env : AuthFileEnv) (transient : Bool) (pw_name : String) : String :=
  auth_file_root env transient ++ "/user-" ++ pw_name ++ ".auths"

/-- The file whose times are updated to trigger a reload. -/
def reload_file (env : AuthFileEnv) : String :=
  env.PACKAGE_LOCALSTATE_DIR ++ "/lib/misc/PolicyKit.reload"

/-- The failure exit after a failed `_write_to_fd`: `close (fd)`, `unlink (path_tmp)`,
return `FALSE`. -/
def auth_file_write_failed (env : AuthFileEnv) (path_tmp : String) (st : WriteState) :
    Bool × FileSystem × List Syscall :=
  (false, if env.unlink_ok then fs_set st.fs path_tmp none else st.fs,
   st.trace ++ [.close path_tmp, .unlink path_tmp])

/-- The part of `_polkit_authorization_db_auth_file_add` after the descriptor is open:
the three `_write_to_fd` calls, `close`, `rename` when `path` is not `NULL`, and the
reload trigger. -/
def auth_file_write_out (env : AuthFileEnv) (path : Option String) (path_tmp : String)
    (contents : List Char) (str_to_add : String) (st : WriteState) :
    Option (Bool × FileSystem × List Syscall) :=
  match _write_to_fd path_tmp st contents with
  | none => none
  | some (false, st) => some (auth_file_write_failed env path_tmp st)
  | some (true, st) =>
    match _write_to_fd path_tmp st (c_str str_to_add.data) with
    | none => none
    | some (false, st) => some (auth_file_write_failed env path_tmp st)
    | some (true, st) =>
      match _write_to_fd path_tmp st ['\n'] with
      | none => none
      | some (false, st) => some (auth_file_write_failed env path_tmp st)
      | some (true, st) =>
        let trace := st.trace ++ [.close path_tmp]
        match path with
        | some path =>
          if ¬ env.rename_ok then
            some (false, if env.unlink_ok then fs_set st.fs path_tmp none else st.fs,
              trace ++ [.rename path_tmp path, .unlink path_tmp])
          else
            some (true, fs_set (fs_set st.fs path (st.fs path_tmp)) path_tmp none,
              trace ++ [.rename path_tmp path, .utimes (reload_file env)])
        | none => some (true, st.fs, trace ++ [.utimes (reload_file env)])

/-- Function `_polkit_authorization_db_auth_file_add (transient, uid, str_to_add)` run on a file
system: the returned boolean, the file system afterwards and the calls made. `stat` finds
a file exactly when the file system holds one at the path. -/
def _polkit_authorization_db_auth_file_add (env : AuthFileEnv) (fs : FileSystem)
    (transient : Bool) (uid : Nat) (str_to_add : String) :
    Option (Bool × FileSystem × List Syscall) :=
  match env.getpwuid uid with
  | none => some (false, fs, [])
  | some pw_name =>
    let path := auth_file_path env transient pw_name
    match fs path with
    | none =>
      -- stat fails with ENOENT: path_tmp = path, path = NULL
      let contents := (auth_file_blurb transient pw_name).data
      if ¬ env.open_ok then some (false, fs, [.stat path, .open_rdwr_creat path 0o464])
      else
        auth_file_write_out env none path contents str_to_add
          { fs := fs_set fs path (some { contents := [], mode := 0o464 }), offset := 0,
            writes := env.writes, trace := [.stat path, .open_rdwr_creat path 0o464] }
    | some file =>
      if ¬ env.g_file_get_contents_ok then
        some (false, fs, [.stat path, .g_file_get_contents path])
      else
        let contents := file.contents
        let template := path ++ ".XXXXXX"
        match env.mkstemp_suffix with
        | none =>
          some (false, fs, [.stat path, .g_file_get_contents path, .mkstemp template none])
        | some suffix =>
          let path_tmp := path ++ "." ++ suffix
          match fs path_tmp with
          | some _ =>
            some (false, fs,
              [.stat path, .g_file_get_contents path, .mkstemp template none])
          | none =>
            let fs1 := fs_set fs path_tmp (some { contents := [], mode := 0o600 })
            let trace := [.stat path, .g_file_get_contents path,
              .mkstemp template (some path_tmp), .fchmod path_tmp 0o464]
            if ¬ env.fchmod_ok then
              some (false, if env.unlink_ok then fs_set fs1 path_tmp none else fs1,
                trace ++ [.close path_tmp, .unlink path_tmp])
            else
              auth_file_write_out env (some path) path_tmp contents str_to_add
                { fs := fs_set fs1 path_tmp (some { contents := [], mode := 0o464 }),
                  offset := 0, writes := env.writes, trace := trace }

/-- A run environment in which every call succeeds, `mkstemp` picks `Ab3dEf`, and the
`write` calls write 10 bytes, are interrupted once, then write everything asked. -/
def auth_file_env_example : AuthFileEnv where
  PACKAGE_LOCALSTATE_DIR := "/var"
  getpwuid := fun uid => if uid = 500 then some "joe" else none
  g_file_get_contents_ok := true
  mkstemp_suffix := some "Ab3dEf"
  fchmod_ok := true
  open_ok := true
  writes := [.wrote 10, .again, .wrote 4096, .wrote 4096, .wrote 4096, .wrote 4096]
  rename_ok := true
  unlink_ok := true
  utimes_ok := true

/-- A file system without any file. -/
def fs_empty : FileSystem := fun _ => none

/-- A file system in which the persistent store of user `joe` exists and holds one
line. -/
def fs_with_store : FileSystem :=
  fun p =>
    if p = "/var/lib/PolicyKit/user-joe.auths" then
      some { contents := "scope=always:action-id=org.a.b:when=1:auth-as=500\n".data,
             mode := 0o464 }
    else none

/-- The contents of the file at a path (`none` when there is no file). -/
def file_contents (fs : FileSystem) (path : String) : Option (List Char) :=
  (fs path).map (fun f => f.contents)

/-- Whether a call opens the target path for writing or writes to it. -/
def touches_for_writing (target : String) : Syscall → Bool
  | .open_rdwr_creat path _ => path == target
  | .write path _ => path == target
  | _ => false

/-- Whether a call renames a file onto the target path. -/
def renames_onto (target : String) : Syscall → Bool
  | .rename _ newpath => newpath == target
  | _ => false

/-- A run replaces the target atomically: some file is renamed onto the target, and the
target path itself is never opened for writing nor written to. -/
def replaces_atomically (target : String) (trace : List Syscall) : Bool :=
  trace.any (renames_onto target) && !trace.any (touches_for_writing target)

/-! ## polkit-config.c: what "authenticate as administrator" means -/

/-- The two output locations of `config_node_determine_admin_auth`: for each, `none` is a
`NULL` pointer and `some v` a location that currently holds `v` (`v = none` for a
location never written). -/
structure AdminAuthOut where
  out_admin_auth_type : Option (Option PolKitConfigAdminAuthType)
  out_data : Option (Option String)
  deriving DecidableEq

/-- The two guarded stores `if (out_... != NULL) *out_... = ...` of the
`NODE_TYPE_DEFINE_ADMIN_AUTH` case. -/
def admin_auth_store (out : AdminAuthOut) (admin_type : PolKitConfigAdminAuthType)
    (data : String) : AdminAuthOut :=
  { out_admin_auth_type := out.out_admin_auth_type.map (fun _ => some admin_type),
    out_data := out.out_data.map (fun _ => some data) }

mutual
/-- Function `config_node_determine_admin_auth`: the returned `result_set` and the output
locations afterwards; `none` is the fault of `config_node_match`. -/
def config_node_determine_admin_auth (env : ConfigEnv) (action : PolKitAction)
    (caller : Option PolKitCaller) :
    ConfigNode → AdminAuthOut → Option (Bool × AdminAuthOut)
  | .mk data children, out =>
    match data with
    | .NODE_TYPE_NOP => some (false, out)
    | .NODE_TYPE_TOP =>
      config_node_determine_admin_auth_loop env action caller children false out
    | .NODE_TYPE_MATCH match_type pattern =>
      match config_node_match env match_type pattern action caller none with
      | none => none
      | some true =>
        config_node_determine_admin_auth_loop env action caller children false out
      | some false => some (false, out)
    | .NODE_TYPE_DEFINE_ADMIN_AUTH admin_type d =>
      some (true, admin_auth_store out admin_type d)
    | .NODE_TYPE_RETURN _ => some (false, out)
/-- The loop over the children in `config_node_determine_admin_auth`:
`result_set = config_node_determine_admin_auth (child, ...) || result_set`, every child
being visited. -/
def config_node_determine_admin_auth_loop (env : ConfigEnv) (action : PolKitAction)
    (caller : Option PolKitCaller) :
    List ConfigNode → Bool → AdminAuthOut → Option (Bool × AdminAuthOut)
  | [], result_set, out => some (result_set, out)
  | child_node :: rest, result_set, out =>
    match config_node_determine_admin_auth env action caller child_node out with
    | none => none
    | some (r, out) =>
      config_node_determine_admin_auth_loop env action caller rest (r || result_set) out
end

/-- Function `polkit_config_determine_admin_auth_type`. -/
def polkit_config_determine_admin_auth_type (env : ConfigEnv) (pk_config : PolKitConfig)
    (action : PolKitAction) (caller : Option PolKitCaller) (out : AdminAuthOut) :
    Option (Bool × AdminAuthOut) :=
  match pk_config.top_config_node with
  | some top => config_node_determine_admin_auth env action caller top out
  | none => some (false, out)

/-- The type and value of a `define_admin_auth` node, `none` for any other node. -/
def define_admin_auth_of : ConfigNode → Option (PolKitConfigAdminAuthType × String)
  | .mk (.NODE_TYPE_DEFINE_ADMIN_AUTH admin_type data) _ => some (admin_type, data)
  | _ => none

/-- The type and value of the last `define_admin_auth` node of a list of nodes. -/
def last_define_admin_auth : List ConfigNode → Option (PolKitConfigAdminAuthType × String)
  | [] => none
  | n :: rest =>
    match last_define_admin_auth rest with
    | some d => some d
    | none => define_admin_auth_of n

/-- What the specification asks of `polkit_config_determine_admin_auth_type`, given the
`define_admin_auth` nodes reachable in walk order: `TRUE` with the type and value of the
last one stored, or `FALSE` with the locations untouched when there is none. -/
def determine_admin_auth_spec (reachable : List ConfigNode) (out : AdminAuthOut) :
    Bool × AdminAuthOut :=
  match last_define_admin_auth reachable with
  | some (admin_type, data) => (true, admin_auth_store out admin_type data)
  | none => (false, out)

/-- The tree of `<config><match action="org.foo.bar"><return
result="auth_admin_keep_session"/></match><define_admin_auth group="wheel"/></config>`. -/
def config_admin_example : ConfigNode :=
  .mk .NODE_TYPE_TOP
    [ .mk (.NODE_TYPE_MATCH .MATCH_TYPE_ACTION "org.foo.bar")
        [ .mk (.NODE_TYPE_RETURN POLKIT_RESULT_ONLY_VIA_ADMIN_AUTH_KEEP_SESSION) [] ],
      .mk (.NODE_TYPE_DEFINE_ADMIN_AUTH .POLKIT_CONFIG_ADMIN_AUTH_TYPE_GROUP "wheel") [] ]

/-- An environment in which the expression matches exactly the text equal to its pattern
and every password-database lookup fails with an error. -/
def env_lookup_fails : ConfigEnv where
  regexec := fun pattern str => pattern == str
  getpwuid_r := fun _ => .error

/-! ## polkit-caller.c: setters, getters and validation -/

/-- Function `polkit_caller_new`: the object `kit_new0` returns is zeroed; `none` when the
allocation fails. -/
def polkit_caller_new (kit_new0_ok : Bool) : Option PolKitCaller :=
  if kit_new0_ok then
    some { dbus_name := none, uid := 0, pid := 0, selinux_context := none, session := none }
  else none

/-- Function `polkit_caller_set_dbus_name (caller, dbus_name)`, with the validator
`_pk_validate_unique_bus_name` (polkit-utils.c, absent) and the outcome of `kit_strdup` as
parameters: the returned boolean and the caller object afterwards. -/
def polkit_caller_set_dbus_name (_pk_validate_unique_bus_name : String → Bool)
    (kit_strdup_ok : Bool) (caller : Option PolKitCaller) (dbus_name : Option String) :
    Bool × Option PolKitCaller :=
  match caller with
  | none => (false, none)
  | some c =>
    match dbus_name with
    | none => (true, some { c with dbus_name := none })
    | some name =>
      if ¬ _pk_validate_unique_bus_name name then (false, some c)
      else if kit_strdup_ok then (true, some { c with dbus_name := some name })
      else (false, some { c with dbus_name := none })

/-- Function `polkit_caller_set_uid`. -/
def polkit_caller_set_uid (caller : Option PolKitCaller) (uid : Nat) :
    Bool × Option PolKitCaller :=
  match caller with
  | none => (false, none)
  | some c => (true, some { c with uid := uid })

/-- Function `polkit_caller_set_pid`. -/
def polkit_caller_set_pid (caller : Option PolKitCaller) (pid : Int) :
    Bool × Option PolKitCaller :=
  match caller with
  | none => (false, none)
  | some c => (true, some { c with pid := pid })

/-- Function `polkit_caller_get_dbus_name (caller, out_dbus_name)`: the returned boolean
and the output location afterwards (`none` for a `NULL` location). -/
def polkit_caller_get_dbus_name (caller : Option PolKitCaller)
    (out_dbus_name : Option (Option String)) : Bool × Option (Option String) :=
  match caller, out_dbus_name with
  | none, _ => (false, out_dbus_name)
  | some _, none => (false, none)
  | some c, some _ => (true, some c.dbus_name)

/-- Function `polkit_caller_get_ck_session (caller, out_session)`, with the output
location as for `polkit_caller_get_dbus_name`. -/
def polkit_caller_get_ck_session (caller : Option PolKitCaller)
    (out_session : Option (Option PolKitSession)) : Bool × Option (Option PolKitSession) :=
  match caller, out_session with
  | none, _ => (false, out_session)
  | some _, none => (false, none)
  | some c, some _ => (true, some c.session)

/-- Function `polkit_caller_validate`. -/
def polkit_caller_validate (caller : Option PolKitCaller) : Bool :=
  match caller with
  | none => false
  | some c => if c.pid > 0 then true else false

/-- A validator for the examples: it accepts the names that start with a colon, as the
unique names of the message bus do. -/
def unique_bus_name_example (name : String) : Bool :=
  name.data.head? == some ':'

/-! ## polkit-policy-file.c: the parser -/

/-- The anonymous enum of parser states of polkit-policy-file.c. -/
inductive ParserState where
  | STATE_NONE
  | STATE_UNKNOWN_TAG
  | STATE_IN_POLICY_CONFIG
  | STATE_IN_POLICY_VENDOR
  | STATE_IN_POLICY_VENDOR_URL
  | STATE_IN_POLICY_ICON_NAME
  | STATE_IN_ACTION
  | STATE_IN_ACTION_DESCRIPTION
  | STATE_IN_ACTION_MESSAGE
  | STATE_IN_ACTION_VENDOR
  | STATE_IN_ACTION_VENDOR_URL
  | STATE_IN_ACTION_ICON_NAME
  | STATE_IN_DEFAULTS
  | STATE_IN_DEFAULTS_ALLOW_ANY
  | STATE_IN_DEFAULTS_ALLOW_INACTIVE
  | STATE_IN_DEFAULTS_ALLOW_ACTIVE
  | STATE_IN_ANNOTATE
  deriving DecidableEq

/-- The macro `PARSER_MAX_DEPTH`: the number of slots of `state_stack`. -/
def PARSER_MAX_DEPTH : Int := 32

/-- Modelled from the spec: an entry of a policy file (polkit-policy-file-entry.c is
absent): the declaration of one action with its vendor data, its three implicit defaults,
its annotations and the description and message chosen for the language. -/
structure PolKitPolicyFileEntry where
  action_id : Option String
  vendor : Option String
  vendor_url : Option String
  icon_name : Option String
  defaults_allow_any : PolKitResult
  defaults_allow_inactive : PolKitResult
  defaults_allow_active : PolKitResult
  annotations : Option KitHash
  policy_description : Option String
  policy_message : Option String

/-- The C struct `_PolKitPolicyFile` (without the reference count). -/
structure PolKitPolicyFile where
  entries : List PolKitPolicyFileEntry

/-- The C struct `ParserData` (without the expat handle and the path); `entries` is
`pd->pf->entries`. -/
structure ParserData where
  state : ParserState
  state_stack : List ParserState
  stack_depth : Int
  global_vendor : Option String
  global_vendor_url : Option String
  global_icon_name : Option String
  action_id : Option String
  vendor : Option String
  vendor_url : Option String
  icon_name : Option String
  defaults_allow_any : PolKitResult
  defaults_allow_inactive : PolKitResult
  defaults_allow_active : PolKitResult
  entries : List PolKitPolicyFileEntry
  load_descriptions : Bool
  policy_descriptions : Option KitHash
  policy_messages : Option KitHash
  policy_description_nolang : Option String
  policy_message_nolang : Option String
  lang : Option String
  elem_lang : Option String
  annotate_key : Option String
  annotations : Option KitHash
  is_oom : Bool

/-- What a handler leaves: it returns normally (`ok`), it has called `XML_StopParser`
(`stopped`), or it has read or written outside an array (`fault`). -/
inductive Handled where
  | ok (pd : ParserData)
  | stopped (pd : ParserData)
  | fault

/-- Whether a handler has faulted. -/
def handled_is_fault : Handled → Bool
  | .fault => true
  | _ => false

/-- The value of `stack_depth` a handler leaves when it returns normally. -/
def handled_stack_depth : Handled → Option Int
  | .ok pd => some pd.stack_depth
  | _ => none

/-- Modelled from the spec: function `kit_hash_new` of kit-hash.c, absent from the
embedded sources: an empty table. -/
def kit_hash_new : KitHash := fun _ => none

/-- Modelled from the spec: function `kit_hash_insert (hash, key, value)` of kit-hash.c,
absent from the embedded sources: afterwards `key` maps to `value`. -/
def kit_hash_insert (hash : KitHash) (key value : String) : KitHash :=
  fun k => if k = key then some value else hash k

/-- Modelled from the spec: function `kit_list_prepend (list, data)` of kit-list.c,
absent from the embedded sources: the returned list has the new element as its head and
the old list after it. -/
def kit_list_prepend {α : Type} (list : List α) (data : α) : List α :=
  data :: list

/-- Modelled from the spec: function `kit_str_has_suffix (s, suffix)` of kit-string.c,
absent from the embedded sources: whether `s` ends with the bytes of `suffix`. -/
def kit_str_has_suffix (s suffix : String) : Bool :=
  suffix.data.isSuffixOf s.data

/-- Function `pd_unref_action_data`. -/
def pd_unref_action_data (pd : ParserData) : ParserData :=
  { pd with
    action_id := none, vendor := none, vendor_url := none, icon_name := none,
    policy_description_nolang := none, policy_message_nolang := none,
    policy_descriptions := none, policy_messages := none,
    annotate_key := none, annotations := none, elem_lang := none }

/-- The `switch (pd->state)` of `_start`: `none` is `goto error`, otherwise the value of
`state` and the parser data after the switch. -/
def _start_switch (polkit_action_validate_id : String → Bool) (pd : ParserData)
    (el : String) (attr : List String) : Option (ParserState × ParserData) :=
  match pd.state with
  | .STATE_NONE =>
    if el = "policyconfig" then some (.STATE_IN_POLICY_CONFIG, pd) else some (.STATE_NONE, pd)
  | .STATE_IN_POLICY_CONFIG =>
    if el = "action" then
      match attr with
      | [name, value] =>
        if name ≠ "id" then none
        else if ¬ polkit_action_validate_id value then none
        else
          let pd := pd_unref_action_data pd
          some (.STATE_IN_ACTION,
            { pd with
              action_id := some value,
              policy_descriptions := some kit_hash_new,
              policy_messages := some kit_hash_new,
              defaults_allow_any := POLKIT_RESULT_NO,
              defaults_allow_inactive := POLKIT_RESULT_NO,
              defaults_allow_active := POLKIT_RESULT_NO })
      | _ => none
    else if el = "vendor" ∧ attr.length = 0 then some (.STATE_IN_POLICY_VENDOR, pd)
    else if el = "vendor_url" ∧ attr.length = 0 then some (.STATE_IN_POLICY_VENDOR_URL, pd)
    else if el = "icon_name" ∧ attr.length = 0 then some (.STATE_IN_POLICY_ICON_NAME, pd)
    else some (.STATE_NONE, pd)
  | .STATE_IN_ACTION =>
    if el = "defaults" then some (.STATE_IN_DEFAULTS, pd)
    else if el = "description" then
      match attr with
      | [name, value] =>
        if name = "xml:lang" then
          some (.STATE_IN_ACTION_DESCRIPTION, { pd with elem_lang := some value })
        else some (.STATE_IN_ACTION_DESCRIPTION, pd)
      | _ => some (.STATE_IN_ACTION_DESCRIPTION, pd)
    else if el = "message" then
      match attr with
      | [name, value] =>
        if name = "xml:lang" then
          some (.STATE_IN_ACTION_MESSAGE, { pd with elem_lang := some value })
        else some (.STATE_IN_ACTION_MESSAGE, pd)
      | _ => some (.STATE_IN_ACTION_MESSAGE, pd)
    else if el = "vendor" ∧ attr.length = 0 then some (.STATE_IN_ACTION_VENDOR, pd)
    else if el = "vendor_url" ∧ attr.length = 0 then some (.STATE_IN_ACTION_VENDOR_URL, pd)
    else if el = "icon_name" ∧ attr.length = 0 then some (.STATE_IN_ACTION_ICON_NAME, pd)
    else if el = "annotate" then
      match attr with
      | [name, value] =>
        if name ≠ "key" then none
        else some (.STATE_IN_ANNOTATE, { pd with annotate_key := some value })
      | _ => none
    else some (.STATE_NONE, pd)
  | .STATE_IN_DEFAULTS =>
    if el = "allow_any" then some (.STATE_IN_DEFAULTS_ALLOW_ANY, pd)
    else if el = "allow_inactive" then some (.STATE_IN_DEFAULTS_ALLOW_INACTIVE, pd)
    else if el = "allow_active" then some (.STATE_IN_DEFAULTS_ALLOW_ACTIVE, pd)
    else some (.STATE_NONE, pd)
  | _ => some (.STATE_NONE, pd)

/-- Function `_start (data, el, attr)`; `attr` is the array of attribute names and values
without its `NULL` terminator. The store `pd->state_stack[pd->stack_depth] = pd->state`
is a fault when `stack_depth` is not the index of one of the 32 slots. -/
def _start (polkit_action_validate_id : String → Bool) (pd : ParserData)
    (el : String) (attr : List String) : Handled :=
  match _start_switch polkit_action_validate_id pd el attr with
  | none => .stopped pd
  | some (state, pd) =>
    let state := if state = .STATE_NONE then .STATE_UNKNOWN_TAG else state
    if pd.stack_depth < 0 ∨ pd.stack_depth ≥ PARSER_MAX_DEPTH then .fault
    else
      .ok { pd with
            state := state,
            state_stack := pd.state_stack.set pd.stack_depth.toNat state,
            stack_depth := pd.stack_depth + 1 }

/-- The loop `for (n = 0; n < len; n++) if (icon_name[n] == '/') goto out` of
`_validate_icon_name`: whether it reaches the end of the name. -/
def icon_name_no_slash : List Char → Bool
  | [] => true
  | c :: rest => if c = '/' then false else icon_name_no_slash rest

/-- Function `_validate_icon_name`. -/
def _validate_icon_name (icon_name : String) : Bool :=
  if kit_str_has_suffix icon_name ".png" then false
  else if kit_str_has_suffix icon_name ".jpg" then false
  else icon_name_no_slash icon_name.data

/-- Function `_cdata (data, s, len)`; `str` is the copy `kit_strndup (s, len)`. A
`NULL` key handed to the string hash of `kit_hash_insert` is a fault. -/
def _cdata (pd : ParserData) (str : String) : Handled :=
  match pd.state with
  | .STATE_IN_ACTION_DESCRIPTION =>
    if pd.load_descriptions then
      match pd.elem_lang with
      | none => .ok { pd with policy_description_nolang := some str }
      | some elem_lang =>
        let hash := pd.policy_descriptions.map (fun h => kit_hash_insert h elem_lang str)
        .ok { pd with policy_descriptions := hash }
    else .ok pd
  | .STATE_IN_ACTION_MESSAGE =>
    if pd.load_descriptions then
      match pd.elem_lang with
      | none => .ok { pd with policy_message_nolang := some str }
      | some elem_lang =>
        let hash := pd.policy_messages.map (fun h => kit_hash_insert h elem_lang str)
        .ok { pd with policy_messages := hash }
    else .ok pd
  | .STATE_IN_POLICY_VENDOR =>
    if pd.load_descriptions then .ok { pd with global_vendor := some str } else .ok pd
  | .STATE_IN_POLICY_VENDOR_URL =>
    if pd.load_descriptions then .ok { pd with global_vendor_url := some str } else .ok pd
  | .STATE_IN_POLICY_ICON_NAME =>
    if ¬ _validate_icon_name str then .stopped pd
    else if pd.load_descriptions then .ok { pd with global_icon_name := some str }
    else .ok pd
  | .STATE_IN_ACTION_VENDOR =>
    if pd.load_descriptions then .ok { pd with vendor := some str } else .ok pd
  | .STATE_IN_ACTION_VENDOR_URL =>
    if pd.load_descriptions then .ok { pd with vendor_url := some str } else .ok pd
  | .STATE_IN_ACTION_ICON_NAME =>
    if ¬ _validate_icon_name str then .stopped pd
    else if pd.load_descriptions then .ok { pd with icon_name := some str }
    else .ok pd
  | .STATE_IN_DEFAULTS_ALLOW_ANY =>
    match polkit_result_from_string_representation str with
    | none => .stopped pd
    | some r => .ok { pd with defaults_allow_any := r }
  | .STATE_IN_DEFAULTS_ALLOW_INACTIVE =>
    match polkit_result_from_string_representation str with
    | none => .stopped pd
    | some r => .ok { pd with defaults_allow_inactive := r }
  | .STATE_IN_DEFAULTS_ALLOW_ACTIVE =>
    match polkit_result_from_string_representation str with
    | none => .stopped pd
    | some r => .ok { pd with defaults_allow_active := r }
  | .STATE_IN_ANNOTATE =>
    match pd.annotate_key with
    | none => .fault
    | some key =>
      let annotations := kit_hash_insert (pd.annotations.getD kit_hash_new) key str
      .ok { pd with annotations := some annotations }
  | _ => .ok pd

/-- The entry built in the case `STATE_IN_ACTION` of `_end`:
`_polkit_policy_file_entry_new` followed by `_polkit_policy_file_entry_set_descriptions`
with the texts `_localize` chooses; `none` is the fault of `_localize`. -/
def _end_action_entry (pd : ParserData) : Option PolKitPolicyFileEntry :=
  let vendor := match pd.vendor with
    | some v => some v
    | none => pd.global_vendor
  let vendor_url := match pd.vendor_url with
    | some v => some v
    | none => pd.global_vendor_url
  let icon_name := match pd.icon_name with
    | some v => some v
    | none => pd.global_icon_name
  let texts : Option (Option String × Option String) :=
    if pd.load_descriptions then
      match _localize (pd.policy_descriptions.getD kit_hash_new)
          pd.policy_description_nolang pd.lang,
        _localize (pd.policy_messages.getD kit_hash_new)
          pd.policy_message_nolang pd.lang with
      | some d, some m => some (d, m)
      | _, _ => none
    else some (none, none)
  match texts with
  | none => none
  | some (policy_description, policy_message) =>
    some { action_id := pd.action_id, vendor := vendor, vendor_url := vendor_url,
           icon_name := icon_name,
           defaults_allow_any := pd.defaults_allow_any,
           defaults_allow_inactive := pd.defaults_allow_inactive,
           defaults_allow_active := pd.defaults_allow_active,
           annotations := pd.annotations,
           policy_description := policy_description,
           policy_message := policy_message }

/-- The end of `_end`: `--pd->stack_depth`, the range check, and the state taken back
from the stack. -/
def _end_pop (pd : ParserData) : Handled :=
  let pd := { pd with stack_depth := pd.stack_depth - 1 }
  if pd.stack_depth < 0 ∨ pd.stack_depth ≥ PARSER_MAX_DEPTH then .stopped pd
  else if pd.stack_depth > 0 then
    .ok { pd with state := pd.state_stack.getD (pd.stack_depth - 1).toNat .STATE_NONE }
  else .ok { pd with state := .STATE_NONE }

/-- Function `_end (data, el)`. -/
def _end (pd : ParserData) (_el : String) : Handled :=
  let pd := { pd with elem_lang := none }
  match pd.state with
  | .STATE_IN_ACTION =>
    match _end_action_entry pd with
    | none => .fault
    | some pfe =>
      _end_pop { pd with annotations := none, entries := kit_list_prepend pd.entries pfe }
  | _ => _end_pop pd

/-- The calls expat makes while it reads a document. -/
inductive XmlEvent where
  | start (el : String) (attr : List String)
  | cdata (s : String)
  | «end» (el : String)
  deriving DecidableEq

/-- The handler expat calls for an event. -/
def xml_handle (polkit_action_validate_id : String → Bool) (pd : ParserData) :
    XmlEvent → Handled
  | .start el attr => _start polkit_action_validate_id pd el attr
  | .cdata s => _cdata pd s
  | .«end» el => _end pd el

/-- The handlers run over the events of a document in order, up to the first one that
stops the parser or faults. -/
def xml_run (polkit_action_validate_id : String → Bool) :
    ParserData → List XmlEvent → Handled
  | pd, [] => .ok pd
  | pd, ev :: rest =>
    match xml_handle polkit_action_validate_id pd ev with
    | .ok pd => xml_run polkit_action_validate_id pd rest
    | .stopped pd => .stopped pd
    | .fault => .fault

/-- The parser state once the handlers have accepted the events `pre`; `none` when one of
them stops the parser or faults. -/
def xml_state_after (polkit_action_validate_id : String → Bool) (pd : ParserData)
    (pre : List XmlEvent) : Option ParserState :=
  match xml_run polkit_action_validate_id pd pre with
  | .ok pd => some pd.state
  | _ => none

/-- A document as expat reads it: the events it delivers, and whether it finds the
document well-formed when no handler stops it. -/
structure XmlDocument where
  events : List XmlEvent
  well_formed : Bool
  deriving DecidableEq

/-- What `kit_file_get_contents` gives: failure with `ENOMEM`, another failure, or the
document in the file. -/
inductive FileContents where
  | enomem
  | unreadable
  | contents (doc : XmlDocument)
  deriving DecidableEq

/-- The surroundings of `polkit_policy_file_new`: the action-identifier validator
(polkit-action.c, absent), the files, `$LANG` and the allocations of the error object. -/
structure PolicyFileEnv where
  polkit_action_validate_id : String → Bool
  kit_file_get_contents : String → FileContents
  LANG : Option String
  mem : ErrorAlloc

/-- The parser data after `memset (&pd, 0, sizeof (ParserData))` and the initialisation in
`polkit_policy_file_new`. -/
def parser_data_init (load_descriptions : Bool) (LANG : Option String) : ParserData :=
  { state := .STATE_NONE,
    state_stack := List.replicate PARSER_MAX_DEPTH.toNat .STATE_NONE,
    stack_depth := 0,
    global_vendor := none, global_vendor_url := none, global_icon_name := none,
    action_id := none, vendor := none, vendor_url := none, icon_name := none,
    defaults_allow_any := 0, defaults_allow_inactive := 0, defaults_allow_active := 0,
    entries := [],
    load_descriptions := load_descriptions,
    policy_descriptions := none, policy_messages := none,
    policy_description_nolang := none, policy_message_nolang := none,
    lang := policy_file_lang LANG,
    elem_lang := none, annotate_key := none, annotations := none,
    is_oom := false }

/-- Function `polkit_policy_file_new (path, load_descriptions, error)`: the returned
object (`none` for `NULL`) and the error location afterwards; the outer `none` is a fault
in a handler. The text of the errors is shortened. -/
def polkit_policy_file_new (env : PolicyFileEnv) (path : String) (load_descriptions : Bool)
    (error : Option (Option PolKitError)) :
    Option (Option PolKitPolicyFile × Option (Option PolKitError)) :=
  if ¬ kit_str_has_suffix path ".policy" then
    some (none, (polkit_error_set_error env.mem error POLKIT_ERROR_POLICY_FILE_INVALID
      (some ("Policy files must have extension .policy; file " ++ path))).2)
  else
    match env.kit_file_get_contents path with
    | .enomem =>
      some (none, (polkit_error_set_error env.mem error POLKIT_ERROR_OUT_OF_MEMORY
        (some ("Cannot load PolicyKit policy file at " ++ path))).2)
    | .unreadable =>
      some (none, (polkit_error_set_error env.mem error POLKIT_ERROR_POLICY_FILE_INVALID
        (some ("Cannot load PolicyKit policy file at " ++ path))).2)
    | .contents doc =>
      match xml_run env.polkit_action_validate_id
          (parser_data_init load_descriptions env.LANG) doc.events with
      | .fault => none
      | .stopped pd =>
        if pd.is_oom then
          some (none, (polkit_error_set_error env.mem error POLKIT_ERROR_OUT_OF_MEMORY
            (some ("Out of memory parsing " ++ path))).2)
        else
          some (none, (polkit_error_set_error env.mem error POLKIT_ERROR_POLICY_FILE_INVALID
            (some (path ++ ": parse error"))).2)
      | .ok pd =>
        if ¬ doc.well_formed then
          some (none, (polkit_error_set_error env.mem error POLKIT_ERROR_POLICY_FILE_INVALID
            (some (path ++ ": parse error"))).2)
        else some (some { entries := pd.entries }, error)

/-- The loop of `polkit_policy_file_entry_foreach` over the entries still to visit. -/
def polkit_policy_file_entry_foreach_loop {σ : Type}
    (cb : PolKitPolicyFileEntry → σ → Bool × σ) :
    List PolKitPolicyFileEntry → σ → Bool × σ
  | [], user_data => (false, user_data)
  | pfe :: rest, user_data =>
    match cb pfe user_data with
    | (true, user_data) => (true, user_data)
    | (false, user_data) => polkit_policy_file_entry_foreach_loop cb rest user_data

/-- Function `polkit_policy_file_entry_foreach (policy_file, cb, user_data)`: the
returned boolean and the user data afterwards. -/
def polkit_policy_file_entry_foreach {σ : Type} (policy_file : Option PolKitPolicyFile)
    (cb : Option (PolKitPolicyFileEntry → σ → Bool × σ)) (user_data : σ) : Bool × σ :=
  match policy_file, cb with
  | none, _ => (false, user_data)
  | some _, none => (false, user_data)
  | some pf, some cb => polkit_policy_file_entry_foreach_loop cb pf.entries user_data

/-- A callback that notes each entry it is called on, in the order of the calls, and
never stops the iteration. -/
def note_entry (pfe : PolKitPolicyFileEntry) (seen : List PolKitPolicyFileEntry) :
    Bool × List PolKitPolicyFileEntry :=
  (false, seen ++ [pfe])

/-- The entry an event adds to the policy file: the one built at the end of an `action`
element, nothing at any other event. -/
def declared_at (pd : ParserData) : XmlEvent → List PolKitPolicyFileEntry
  | .«end» _ =>
    match pd.state, _end_action_entry { pd with elem_lang := none } with
    | .STATE_IN_ACTION, some pfe => [pfe]
    | _, _ => []
  | _ => []

/-- The entries of a document in the order in which their `action` elements are declared:
the entry built at each end of an `action` element, as the handlers run over the events. -/
def declared_entries (polkit_action_validate_id : String → Bool) :
    ParserData → List XmlEvent → List PolKitPolicyFileEntry
  | _, [] => []
  | pd, ev :: rest =>
    match xml_handle polkit_action_validate_id pd ev with
    | .ok pd' => declared_at pd ev ++ declared_entries polkit_action_validate_id pd' rest
    | _ => []

/-- The events of a document of `n` nested `x` elements. -/
def nested_events (n : Nat) : List XmlEvent :=
  List.replicate n (.start "x" []) ++ List.replicate n (.«end» "x")

/-- The events of a `policyconfig` with the action `org.example.a`, whose `defaults` hold
an `allow_any` element with text `auth_admin`, followed by the action `org.example.b`,
whose `defaults` hold an `allow_any` element with text `yes`. -/
def two_actions_events : List XmlEvent :=
  [ .start "policyconfig" [],
    .start "action" ["id", "org.example.a"],
    .start "defaults" [], .start "allow_any" [], .cdata "auth_admin", .«end» "allow_any",
    .«end» "defaults",
    .«end» "action",
    .start "action" ["id", "org.example.b"],
    .start "defaults" [], .start "allow_any" [], .cdata "yes", .«end» "allow_any",
    .«end» "defaults",
    .«end» "action",
    .«end» "policyconfig" ]

/-- The events of a `policyconfig` with the action `org.example.a`, whose `defaults` hold
an `allow_any` element without text. -/
def empty_allow_any_events : List XmlEvent :=
  [ .start "policyconfig" [],
    .start "action" ["id", "org.example.a"],
    .start "defaults" [], .start "allow_any" [], .«end» "allow_any", .«end» "defaults",
    .«end» "action",
    .«end» "policyconfig" ]

/-- The events of a `policyconfig` with the action `org.example.a`, whose `defaults` hold
an `allow_any` element with the text `maybe`. -/
def bogus_allow_any_events : List XmlEvent :=
  [ .start "policyconfig" [],
    .start "action" ["id", "org.example.a"],
    .start "defaults" [], .start "allow_any" [], .cdata "maybe", .«end» "allow_any",
    .«end» "defaults",
    .«end» "action",
    .«end» "policyconfig" ]

/-- The events of a `policyconfig` whose `icon_name` element has the given text. -/
def icon_name_events (icon_name : String) : List XmlEvent :=
  [ .start "policyconfig" [],
    .start "icon_name" [], .cdata icon_name, .«end» "icon_name",
    .«end» "policyconfig" ]

/-- An environment for the examples: every identifier is accepted, `LANG` is unset, the
file `deep33.policy` nests 33 elements, `deep32.policy` nests 32, `two.policy` holds the
two actions of `two_actions_events`, `empty.policy` and `bogus.policy` hold an `allow_any`
element without text and with the text `maybe`, and `icon.policy` holds the icon name
`icons/lock.png`. -/
def policy_env_example : PolicyFileEnv where
  polkit_action_validate_id := fun _ => true
  kit_file_get_contents := fun path =>
    if path = "deep33.policy" then .contents ⟨nested_events 33, true⟩
    else if path = "deep32.policy" then .contents ⟨nested_events 32, true⟩
    else if path = "two.policy" then .contents ⟨two_actions_events, true⟩
    else if path = "empty.policy" then .contents ⟨empty_allow_any_events, true⟩
    else if path = "bogus.policy" then .contents ⟨bogus_allow_any_events, true⟩
    else if path = "icon.policy" then .contents ⟨icon_name_events "icons/lock.png", true⟩
    else .unreadable
  LANG := none
  mem := { kit_new0_ok := true, kit_strdup_vprintf_ok := true }

/-- The policy file loaded from `two.policy` in the example environment. -/
def two_actions_policy_file : PolKitPolicyFile :=
  match polkit_policy_file_new policy_env_example "two.policy" false none with
  | some (some pf, _) => pf
  | _ => { entries := [] }

/-! ## polkit-dbus.c: the caller cache of the tracker -/

/-- Modelled from the spec: `polkit_session_get_ck_objref (session, out_ck_objref)` of
polkit-session.c, absent from the embedded sources: `none` is the result `FALSE` (for a
`NULL` session), otherwise the pointer stored in the output location. -/
def polkit_session_get_ck_objref (session : Option PolKitSession) : Option (Option String) :=
  match session with
  | none => none
  | some s => some s.ck_objref

/-- Modelled from the spec: `polkit_session_set_ck_is_active (session, is_active)` of
polkit-session.c, absent from the embedded sources. -/
def polkit_session_set_ck_is_active (session : PolKitSession) (is_active : Bool) :
    PolKitSession :=
  { session with is_active := is_active }

/-- Modelled from the spec: a `KitHash` whose values are callers (kit-hash.c is absent):
the entries in the order in which the table is traversed. -/
abbrev CallerHash (κ : Type) := List (κ × PolKitCaller)

/-- Modelled from the spec: `kit_hash_lookup` on a table of callers (kit-hash.c is
absent): the value stored under the key, `none` for `NULL`. -/
def kit_hash_lookup_caller {κ : Type} [DecidableEq κ] (hash : CallerHash κ) (key : κ) :
    Option PolKitCaller :=
  match hash with
  | [] => none
  | (k, v) :: rest => if k = key then some v else kit_hash_lookup_caller rest key

/-- Modelled from the spec: `kit_hash_insert` on a table of callers (kit-hash.c is
absent): the value of an existing key is replaced, a new key gets a new entry. -/
def kit_hash_insert_caller {κ : Type} [DecidableEq κ] (hash : CallerHash κ) (key : κ)
    (value : PolKitCaller) : CallerHash κ :=
  match hash with
  | [] => [(key, value)]
  | (k, v) :: rest =>
    if k = key then (k, value) :: rest else (k, v) :: kit_hash_insert_caller rest key value

/-- Modelled from the spec: `kit_hash_foreach (hash, cb, user_data)` of kit-hash.c, absent
from the embedded sources: the callback is called on each entry until it returns `TRUE`;
the result is whether it did, and the table with the values as the callback leaves them.
A fault in the callback is `none`. -/
def kit_hash_foreach {κ : Type} (cb : κ → PolKitCaller → Option (Bool × PolKitCaller)) :
    CallerHash κ → Option (Bool × CallerHash κ)
  | [] => some (false, [])
  | (k, v) :: rest =>
    match cb k v with
    | none => none
    | some (true, v) => some (true, (k, v) :: rest)
    | some (false, v) =>
      match kit_hash_foreach cb rest with
      | none => none
      | some (r, rest) => some (r, (k, v) :: rest)

/-- Modelled from the spec: `kit_hash_foreach_remove (hash, cb, user_data)` of kit-hash.c,
absent from the embedded sources: the entries on which the callback returns `TRUE` are
removed. A fault in the callback is `none`. -/
def kit_hash_foreach_remove {κ : Type} (cb : κ → PolKitCaller → Option Bool) :
    CallerHash κ → Option (CallerHash κ)
  | [] => some []
  | (k, v) :: rest =>
    match cb k v, kit_hash_foreach_remove cb rest with
    | some true, some rest => some rest
    | some false, some rest => some ((k, v) :: rest)
    | _, _ => none

/-- The C struct `_PolKitTracker` (without the reference count); the key of the second
table is a `_PidStartTimePair`. -/
structure PolKitTracker where
  con : Option DBusConnection
  dbus_name_to_caller : CallerHash String
  pid_start_time_to_caller : CallerHash (Int × Nat)

/-- Function `_set_session_inactive_iter`: the caller as the function leaves it; `none`
is `strcmp` on a `NULL` object path. -/
def _set_session_inactive_iter (caller : PolKitCaller) (session_objpath : String) :
    Option PolKitCaller :=
  match polkit_caller_get_ck_session (some caller) (some none) with
  | (true, some session) =>
    match polkit_session_get_ck_objref session with
    | none => some caller
    | some none => none
    | some (some objpath) =>
      if objpath ≠ session_objpath then some caller
      else
        let session := session.map (fun s => polkit_session_set_ck_is_active s false)
        some { caller with session := session }
  | _ => some caller

/-- Function `_set_session_active_iter`. -/
def _set_session_active_iter (caller : PolKitCaller) (session_objpath : String) :
    Option PolKitCaller :=
  match polkit_caller_get_ck_session (some caller) (some none) with
  | (true, some session) =>
    match polkit_session_get_ck_objref session with
    | none => some caller
    | some none => none
    | some (some objpath) =>
      if objpath ≠ session_objpath then some caller
      else
        let session := session.map (fun s => polkit_session_set_ck_is_active s true)
        some { caller with session := session }
  | _ => some caller

/-- Function `_update_session_is_active`. The two callbacks return `void` and are called
through a cast to `KitHashForeachFunc`; the value `kit_hash_foreach` reads as their result
is not defined by C and is the parameter `void_result`. -/
def _update_session_is_active (void_result : PolKitCaller → Bool)
    (pk_tracker : PolKitTracker) (session_objpath : String) (is_active : Bool) :
    Option PolKitTracker :=
  let iter := if is_active then _set_session_active_iter else _set_session_inactive_iter
  match kit_hash_foreach
      (fun _ caller => (iter caller session_objpath).map (fun c => (void_result caller, c)))
      pk_tracker.dbus_name_to_caller with
  | none => none
  | some (_, hash) => some { pk_tracker with dbus_name_to_caller := hash }

/-- Function `_remove_caller_by_session_iter`; `none` is `strcmp` on a `NULL` object
path. -/
def _remove_caller_by_session_iter (caller : PolKitCaller) (session_objpath : String) :
    Option Bool :=
  match polkit_caller_get_ck_session (some caller) (some none) with
  | (true, some session) =>
    match polkit_session_get_ck_objref session with
    | none => some false
    | some none => none
    | some (some objpath) => if objpath ≠ session_objpath then some false else some true
  | _ => some false

/-- Function `_remove_caller_by_session`. -/
def _remove_caller_by_session (pk_tracker : PolKitTracker) (session_objpath : String) :
    Option PolKitTracker :=
  match kit_hash_foreach_remove
      (fun _ caller => _remove_caller_by_session_iter caller session_objpath)
      pk_tracker.dbus_name_to_caller with
  | none => none
  | some hash => some { pk_tracker with dbus_name_to_caller := hash }

/-- Function `_remove_caller_by_dbus_name_iter`; `none` is `strcmp` on a `NULL` name. -/
def _remove_caller_by_dbus_name_iter (caller : PolKitCaller) (dbus_name : String) :
    Option Bool :=
  match polkit_caller_get_dbus_name (some caller) (some none) with
  | (true, some (some name)) => if name ≠ dbus_name then some false else some true
  | (true, _) => none
  | _ => some false

/-- Function `_remove_caller_by_dbus_name`. -/
def _remove_caller_by_dbus_name (pk_tracker : PolKitTracker) (dbus_name : String) :
    Option PolKitTracker :=
  match kit_hash_foreach_remove
      (fun _ caller => _remove_caller_by_dbus_name_iter caller dbus_name)
      pk_tracker.dbus_name_to_caller with
  | none => none
  | some hash => some { pk_tracker with dbus_name_to_caller := hash }

/-- The messages `polkit_tracker_dbus_func` tells apart: the signal, the object path it is
sent from, and its arguments as `dbus_message_get_args` reads them (`none` when the
signature is wrong). -/
inductive DBusMessage where
  | NameOwnerChanged (args : Option (String × String × String))
  | ActiveChanged (session_objpath : String) (args : Option Bool)
  | SessionAdded (seat_objpath : String) (args : Option String)
  | SessionRemoved (seat_objpath : String) (args : Option String)
  | other

/-- Function `polkit_tracker_dbus_func (pk_tracker, message)`: the returned boolean and
the tracker afterwards; `none` is a fault in one of the callbacks. -/
def polkit_tracker_dbus_func (void_result : PolKitCaller → Bool) (pk_tracker : PolKitTracker)
    (message : DBusMessage) : Option (Bool × PolKitTracker) :=
  match message with
  | .NameOwnerChanged none => some (false, pk_tracker)
  | .NameOwnerChanged (some (name, _old_service_name, new_service_name)) =>
    if new_service_name.length = 0 then
      (_remove_caller_by_dbus_name pk_tracker name).map (fun t => (false, t))
    else some (false, pk_tracker)
  | .ActiveChanged session_objpath none =>
    (_remove_caller_by_session pk_tracker session_objpath).map (fun t => (true, t))
  | .ActiveChanged session_objpath (some is_active) =>
    (_update_session_is_active void_result pk_tracker session_objpath is_active).map
      (fun t => (true, t))
  | .SessionAdded _ _ => some (true, pk_tracker)
  | .SessionRemoved _ none => some (true, pk_tracker)
  | .SessionRemoved _ (some session_objpath) =>
    (_remove_caller_by_session pk_tracker session_objpath).map (fun t => (true, t))
  | .other => some (false, pk_tracker)

/-- The functions of the surroundings the cache lookups call on a miss: the start time of
a process (`0` when it cannot be found) and the two constructors of polkit-dbus.c that ask
the bus and ConsoleKit (`none` for `NULL`, with the error set). -/
structure TrackerEnv where
  polkit_sysdeps_get_start_time_for_pid : Int → Nat
  polkit_caller_new_from_dbus_name : DBusConnection → String → Option PolKitCaller
  polkit_caller_new_from_pid : DBusConnection → Int → Option PolKitCaller

/-- Function `polkit_tracker_get_caller_from_dbus_name (pk_tracker, dbus_name, error)`,
called with an error location: the returned caller, the tracker and the error
afterwards. -/
def polkit_tracker_get_caller_from_dbus_name (env : TrackerEnv)
    (pk_tracker : Option PolKitTracker) (dbus_name : String) (error : DBusError) :
    Option PolKitCaller × Option PolKitTracker × DBusError :=
  match pk_tracker with
  | none => (none, pk_tracker, error)
  | some t =>
    match t.con with
    | none => (none, pk_tracker, error)
    | some con =>
      if error.is_set then (none, pk_tracker, error)
      else
        match kit_hash_lookup_caller t.dbus_name_to_caller dbus_name with
        | some caller => (some caller, pk_tracker, error)
        | none =>
          match env.polkit_caller_new_from_dbus_name con dbus_name with
          | none => (none, pk_tracker, { is_set := true })
          | some caller =>
            let hash := kit_hash_insert_caller t.dbus_name_to_caller dbus_name caller
            (some caller, some { t with dbus_name_to_caller := hash }, error)

/-- Function `polkit_tracker_get_caller_from_pid (pk_tracker, pid, error)`, called with an
error location: the returned caller, the tracker and the error afterwards. -/
def polkit_tracker_get_caller_from_pid (env : TrackerEnv)
    (pk_tracker : Option PolKitTracker) (pid : Int) (error : DBusError) :
    Option PolKitCaller × Option PolKitTracker × DBusError :=
  match pk_tracker with
  | none => (none, pk_tracker, error)
  | some t =>
    match t.con with
    | none => (none, pk_tracker, error)
    | some con =>
      if error.is_set then (none, pk_tracker, error)
      else
        let start_time := env.polkit_sysdeps_get_start_time_for_pid pid
        if start_time = 0 then (none, pk_tracker, { is_set := true })
        else
          match kit_hash_lookup_caller t.pid_start_time_to_caller (pid, start_time) with
          | some caller => (some caller, pk_tracker, error)
          | none =>
            match env.polkit_caller_new_from_pid con pid with
            | none => (none, pk_tracker, { is_set := true })
            | some caller =>
              let hash :=
                kit_hash_insert_caller t.pid_start_time_to_caller (pid, start_time) caller
              (some caller, some { t with pid_start_time_to_caller := hash }, error)

/-- The object path of the session of a caller and its `is_active` flag. -/
def caller_session_state (caller : PolKitCaller) : Option (Option String × Bool) :=
  caller.session.map (fun s => (s.ck_objref, s.is_active))

/-- An environment in which nothing can be looked up anew: every process has start time
1000 and both constructors fail, so a caller that is returned comes from the cache. -/
def tracker_env_example : TrackerEnv where
  polkit_sysdeps_get_start_time_for_pid := fun _ => 1000
  polkit_caller_new_from_dbus_name := fun _ _ => none
  polkit_caller_new_from_pid := fun _ _ => none

/-- A tracker that has cached the caller `:1.7` by bus name and the process 4242 by pid,
both in the active session `Session1`. -/
def tracker_example : PolKitTracker where
  con := some { GetSessionsForUnixUser := fun _ => .failed }
  dbus_name_to_caller :=
    [(":1.7", { dbus_name := some ":1.7", uid := 500, pid := 4100, selinux_context := none,
                session := some session_example })]
  pid_start_time_to_caller :=
    [((4242, 1000), { caller_example with session := some session_example })]

/-! ## polkit-error.c: the getters -/

/-- Function `polkit_error_get_error_name (error)`: `none` is `NULL`. -/
def polkit_error_get_error_name (error : Option PolKitError) : Option String :=
  match error with
  | none => none
  | some e =>
    if e.error_code ≥ 0 ∧ e.error_code < POLKIT_ERROR_NUM_ERROR_CODES then
      error_names.get? e.error_code.toNat
    else none

/-- Function `polkit_error_get_error_code (error)`. -/
def polkit_error_get_error_code (error : Option PolKitError) : Int :=
  match error with
  | none => -1
  | some e => e.error_code

/-- Function `polkit_error_get_error_message (error)`: `none` is `NULL`. -/
def polkit_error_get_error_message (error : Option PolKitError) : Option String :=
  match error with
  | none => none
  | some e => some e.error_message

/-! ## Constraint lists compared position by position -/

/-- Two constraint sequences have the same length and are pairwise equal, position by
position, under `polkit_authorization_constraint_equal`. -/
def constraint_lists_equal :
    List PolKitAuthorizationConstraint → List PolKitAuthorizationConstraint → Bool
  | [], [] => true
  | a :: as, c :: cs => polkit_authorization_constraint_equal a c && constraint_lists_equal as cs
  | _, _ => false

/-- A request for `org.foo.bar` with the constraints `active`, `local`, in this order. -/
def cd_active_local : CheckDataGrant :=
  { action_id := "org.foo.bar", _check_constraint_num := 0,
    constraints := some [.REQUIRE_ACTIVE, .REQUIRE_LOCAL],
    is_authorized := false, is_negative_authorized := false }

/-- A stored explicit grant of `org.foo.bar` with the given constraints. -/
def auth_with_constraints (cs : List PolKitAuthorizationConstraint) : PolKitAuthorization :=
  { uid := 501, action_id := "org.foo.bar", scope := .POLKIT_AUTHORIZATION_SCOPE_ALWAYS,
    when := 1200000001, origin := .explicitly 0 false, constraints := cs }

/-! ## polkit-policy-file.c: where `_start` writes the state stack -/

/-- The indices `pd->stack_depth` at which `_start` stores into `state_stack` while the
handlers run over the events, in order: one for each call of `_start` that gets past its
switch. -/
def start_write_indices (polkit_action_validate_id : String → Bool) :
    ParserData → List XmlEvent → List Int
  | _, [] => []
  | pd, ev :: rest =>
    (match ev with
     | .start el attr =>
       match _start_switch polkit_action_validate_id pd el attr with
       | some _ => [pd.stack_depth]
       | none => []
     | _ => []) ++
    (match xml_handle polkit_action_validate_id pd ev with
     | .ok pd' => start_write_indices polkit_action_validate_id pd' rest
     | _ => [])

/-! ## polkit-authorization-db-write.c: the capacity handed to the encoder -/

/-- The argument `buf_size - m > 0 ? buf_size - m : 0` of `kit_string_percent_encode`:
`buf_size` is a `size_t`, the `unsigned int` counter `m` is converted to `size_t`, and the
subtraction is taken modulo `2^64`. -/
def encode_capacity (buf_size m : Nat) : Nat :=
  if (buf_size + 2 ^ 64 - m % 2 ^ 32) % 2 ^ 64 > 0 then
    (buf_size + 2 ^ 64 - m % 2 ^ 32) % 2 ^ 64
  else 0

/-- The loop of `_write_constraints` from the counter value `m` on, noting each call of
`kit_string_percent_encode`: the returned `int`, and for each call the offset `m` of its
destination `buf + m` and the capacity it is given. -/
def _write_constraints_trace (codec : ConstraintCodec) (buf_size : Nat) :
    List PolKitAuthorizationConstraint → Nat → Int × List (Nat × Nat)
  | [], m => (unsigned_as_int m, [])
  | c :: rest, m =>
    let value := codec.polkit_authorization_constraint_to_string c
    if value.length ≥ 1024 then (-1, [])
    else
      let key := codec.kit_string_percent_encode "constraint"
      let enc := codec.kit_string_percent_encode value
      let m1 := (m + 1) % 2 ^ 32
      let m2 := (m1 + key.length) % 2 ^ 32
      let m3 := (m2 + 1) % 2 ^ 32
      let m4 := (m3 + enc.length) % 2 ^ 32
      let r := _write_constraints_trace codec buf_size rest m4
      (r.1, (m1, encode_capacity buf_size m1) :: (m3, encode_capacity buf_size m3) :: r.2)

/-! ## The number of constraints of a grant -/

/-- An `int` converted to `size_t`. -/
def int_as_size_t (i : Int) : Nat :=
  (i % 2 ^ 64).toNat

/-- Function `_add_caller_constraints (buf, buf_size, caller)`. The function
`polkit_authorization_constraint_get_from_caller (caller, constraints, 64)` of
polkit-authorization-constraint.c is absent from the embedded sources and taken as a
parameter: it gives the returned count and the constraints it stores in the array before
the `NULL`. -/
def _add_caller_constraints (codec : ConstraintCodec)
    (polkit_authorization_constraint_get_from_caller :
      PolKitCaller → Nat → Int × List PolKitAuthorizationConstraint)
    (buf_size : Nat) (caller : PolKitCaller) : Bool :=
  let got := polkit_authorization_constraint_get_from_caller caller 64
  let num_constraints := got.1
  if num_constraints = -1 then false
  else if num_constraints ≥ 64 then false
  else
    let num_written := (_write_constraints codec (some got.2)).1
    if num_written = -1 then false
    else if int_as_size_t num_written ≥ buf_size then false
    else true

/-- The macro `MAX_CONSTRAINTS` of polkit-auth.c. -/
def MAX_CONSTRAINTS : Nat := 64

/-- The branch for `--constraint` in the option loop of `main` (polkit-auth.c), run over
the arguments of the `--constraint` options still to come, with the constraints stored
so far (`num_constraints` is their number); `none` is `goto out`. The function
`polkit_authorization_constraint_from_string` is absent and taken as a parameter. -/
def main_constraint_options
    (polkit_authorization_constraint_from_string :
      String → Option PolKitAuthorizationConstraint) :
    List String → List PolKitAuthorizationConstraint →
      Option (List PolKitAuthorizationConstraint)
  | [], constraints => some constraints
  | optarg :: rest, constraints =>
    match polkit_authorization_constraint_from_string optarg with
    | none => none
    | some c =>
      if constraints.length ≥ MAX_CONSTRAINTS - 1 then none
      else
        main_constraint_options polkit_authorization_constraint_from_string rest
          (constraints ++ [c])

/-- A caller that yields `n` times the constraint `local`; the array of `array_size`
slots takes the first `array_size - 1` of them. -/
def get_from_caller_example (n : Nat) (_caller : PolKitCaller) (array_size : Nat) :
    Int × List PolKitAuthorizationConstraint :=
  (n, List.replicate (min n (array_size - 1)) .REQUIRE_LOCAL)

/-- A reader of the constraint tokens `local` and `active`. -/
def constraint_from_string_example (s : String) : Option PolKitAuthorizationConstraint :=
  if s = "local" then some .REQUIRE_LOCAL
  else if s = "active" then some .REQUIRE_ACTIVE
  else none

/-! ## polkit-auth.c: the text conversation about the kind of grant -/

/-- How a call of `conversation_override_grant_type` goes on: it returns a value, it calls
`exit`, or it is still reading the standard input when the replies given are used up. -/
inductive OverrideEnd where
  | returned (overridden_auth_type : PolKitResult)
  | exit (status : Int)
  | reading
  deriving DecidableEq

/-- Function `g_str_has_prefix (str, start)` of GLib: whether `str` begins with `start`. -/
def g_str_has_prefix (str start : String) : Bool :=
  start.data.isPrefixOf str.data

/-- The loop at the label `again`: the value of `keep_session` when a valid reply comes,
`none` when the replies are used up first. -/
def override_again : List String → Option Bool
  | [] => none
  | lineptr :: rest =>
    if g_str_has_prefix lineptr "no" then some false
    else if g_str_has_prefix lineptr "session" then some true
    else override_again rest

/-- The loop at the label `again2`: the values of `keep_session` and `keep_always` when a
valid reply comes. -/
def override_again2 : List String → Option (Bool × Bool)
  | [] => none
  | lineptr :: rest =>
    if g_str_has_prefix lineptr "no" then some (false, false)
    else if g_str_has_prefix lineptr "session" then some (true, false)
    else if g_str_has_prefix lineptr "always" then some (false, true)
    else override_again2 rest

/-- The first `switch` of `conversation_override_grant_type`: the flags `keep_session`
and `keep_always` after it, or how the call ends in it. -/
def override_ask (auth_type : PolKitResult) (replies : List String) :
    Except OverrideEnd (Bool × Bool) :=
  if auth_type = POLKIT_RESULT_ONLY_VIA_ADMIN_AUTH_ONE_SHOT ∨
      auth_type = POLKIT_RESULT_ONLY_VIA_SELF_AUTH_ONE_SHOT ∨
      auth_type = POLKIT_RESULT_ONLY_VIA_ADMIN_AUTH ∨
      auth_type = POLKIT_RESULT_ONLY_VIA_SELF_AUTH then .ok (false, false)
  else if auth_type = POLKIT_RESULT_ONLY_VIA_ADMIN_AUTH_KEEP_SESSION ∨
      auth_type = POLKIT_RESULT_ONLY_VIA_SELF_AUTH_KEEP_SESSION then
    match override_again replies with
    | none => .error .reading
    | some keep_session => .ok (keep_session, false)
  else if auth_type = POLKIT_RESULT_ONLY_VIA_ADMIN_AUTH_KEEP_ALWAYS ∨
      auth_type = POLKIT_RESULT_ONLY_VIA_SELF_AUTH_KEEP_ALWAYS then
    match override_again2 replies with
    | none => .error .reading
    | some flags => .ok flags
  else .error (.exit 1)

/-- Function `conversation_override_grant_type (polkit_grant, auth_type, user_data)`;
`replies` are the lines `getline` reads from the standard input. -/
def conversation_override_grant_type (auth_type : PolKitResult) (replies : List String) :
    OverrideEnd :=
  match override_ask auth_type replies with
  | .error e => e
  | .ok (keep_session, keep_always) =>
    if auth_type = POLKIT_RESULT_ONLY_VIA_ADMIN_AUTH_ONE_SHOT ∨
        auth_type = POLKIT_RESULT_ONLY_VIA_ADMIN_AUTH ∨
        auth_type = POLKIT_RESULT_ONLY_VIA_ADMIN_AUTH_KEEP_SESSION ∨
        auth_type = POLKIT_RESULT_ONLY_VIA_ADMIN_AUTH_KEEP_ALWAYS then
      if keep_session then .returned POLKIT_RESULT_ONLY_VIA_ADMIN_AUTH_KEEP_SESSION
      else if keep_always then .returned POLKIT_RESULT_ONLY_VIA_ADMIN_AUTH_KEEP_ALWAYS
      else .returned POLKIT_RESULT_ONLY_VIA_ADMIN_AUTH
    else if auth_type = POLKIT_RESULT_ONLY_VIA_SELF_AUTH_ONE_SHOT ∨
        auth_type = POLKIT_RESULT_ONLY_VIA_SELF_AUTH ∨
        auth_type = POLKIT_RESULT_ONLY_VIA_SELF_AUTH_KEEP_SESSION ∨
        auth_type = POLKIT_RESULT_ONLY_VIA_SELF_AUTH_KEEP_ALWAYS then
      if keep_session then .returned POLKIT_RESULT_ONLY_VIA_SELF_AUTH_KEEP_SESSION
      else if keep_always then .returned POLKIT_RESULT_ONLY_VIA_SELF_AUTH_KEEP_ALWAYS
      else .returned POLKIT_RESULT_ONLY_VIA_SELF_AUTH
    else .exit 1

/-- The retention of an auth type in the order one-shot < process (plain auth) <
keep-session < keep-always. -/
def auth_retention (r : PolKitResult) : Option Nat :=
  if r = POLKIT_RESULT_ONLY_VIA_ADMIN_AUTH_ONE_SHOT ∨
      r = POLKIT_RESULT_ONLY_VIA_SELF_AUTH_ONE_SHOT then some 0
  else if r = POLKIT_RESULT_ONLY_VIA_ADMIN_AUTH ∨ r = POLKIT_RESULT_ONLY_VIA_SELF_AUTH then
    some 1
  else if r = POLKIT_RESULT_ONLY_VIA_ADMIN_AUTH_KEEP_SESSION ∨
      r = POLKIT_RESULT_ONLY_VIA_SELF_AUTH_KEEP_SESSION then some 2
  else if r = POLKIT_RESULT_ONLY_VIA_ADMIN_AUTH_KEEP_ALWAYS ∨
      r = POLKIT_RESULT_ONLY_VIA_SELF_AUTH_KEEP_ALWAYS then some 3
  else none

/-- Whether an auth type asks for authentication as administrator (`some true`) or as
the user (`some false`). -/
def auth_is_admin (r : PolKitResult) : Option Bool :=
  if r = POLKIT_RESULT_ONLY_VIA_ADMIN_AUTH_ONE_SHOT ∨ r = POLKIT_RESULT_ONLY_VIA_ADMIN_AUTH ∨
      r = POLKIT_RESULT_ONLY_VIA_ADMIN_AUTH_KEEP_SESSION ∨
      r = POLKIT_RESULT_ONLY_VIA_ADMIN_AUTH_KEEP_ALWAYS then some true
  else if r = POLKIT_RESULT_ONLY_VIA_SELF_AUTH_ONE_SHOT ∨ r = POLKIT_RESULT_ONLY_VIA_SELF_AUTH ∨
      r = POLKIT_RESULT_ONLY_VIA_SELF_AUTH_KEEP_SESSION ∨
      r = POLKIT_RESULT_ONLY_VIA_SELF_AUTH_KEEP_ALWAYS then some false
  else none

/-- What the override is to respect: a returned type is of the same family as the offered
one and its retention is not longer. -/
def override_respects (auth_type : PolKitResult) : OverrideEnd → Bool
  | .returned r =>
    auth_is_admin r == auth_is_admin auth_type &&
      (match auth_retention r, auth_retention auth_type with
       | some a, some b => decide (a ≤ b)
       | _, _ => false)
  | _ => true

/-! ## polkit-config.c: loading the configuration file

The parser of polkit-config.c has its own `ParserData`, `_start` and `_end`; they are in
the namespace `ConfigFile`. The `ConfigNode` objects the parser allocates are kept in a
heap, a pointer being the index of the object, because `_start` links a node to its
parent before the children of the node are known. -/

namespace ConfigFile

/-- The anonymous enum of parser states of polkit-config.c. -/
inductive ParserState where
  | STATE_NONE
  | STATE_UNKNOWN_TAG
  | STATE_IN_CONFIG
  | STATE_IN_MATCH
  | STATE_IN_RETURN
  | STATE_IN_DEFINE_ADMIN_AUTH
  deriving DecidableEq

/-- The macro `PARSER_MAX_DEPTH` of polkit-config.c. -/
def PARSER_MAX_DEPTH : Int := 32

/-- A `ConfigNode` object in the heap: its type and payload, and the pointers in its
list `children`. -/
structure NodeCell where
  data : NodeData
  children : List Nat
  deriving DecidableEq

/-- The C struct `ParserData` of polkit-config.c (without the expat handle and the path);
`top_config_node` is `pd->pk_config->top_config_node` and `heap` holds the nodes allocated
so far. -/
structure ParserData where
  state : ParserState
  top_config_node : Option Nat
  heap : List NodeCell
  state_stack : List ParserState
  node_stack : List (Option Nat)
  stack_depth : Int
  deriving DecidableEq

/-- What a handler leaves: it returns normally, it has called `XML_StopParser`, or it has
gone through a `NULL` pointer. -/
inductive Handled where
  | ok (pd : ParserData)
  | stopped (pd : ParserData)
  | fault
  deriving DecidableEq

/-- The `switch (pd->state)` of `_start`: `none` is `goto error`, otherwise the value of
`state`, the type and payload given to the new node, and whether the node was stored as
`top_config_node`. The parameter `regcomp` says whether
`regcomp (.., REG_NOSUB|REG_EXTENDED)` accepts an expression. -/
def _start_switch (regcomp : String → Bool) (pd : ParserData) (el : String)
    (attr : List String) : Option (ParserState × NodeData × Bool) :=
  match pd.state with
  | .STATE_NONE =>
    if el = "config" then
      if pd.top_config_node ≠ none then none
      else some (.STATE_IN_CONFIG, .NODE_TYPE_TOP, true)
    else some (.STATE_NONE, .NODE_TYPE_NOP, false)
  | .STATE_IN_CONFIG | .STATE_IN_MATCH =>
    match attr with
    | [name, value] =>
      if el = "match" then
        if name = "action" then
          if ¬ regcomp value then none
          else some (.STATE_IN_MATCH, .NODE_TYPE_MATCH .MATCH_TYPE_ACTION value, false)
        else if name = "user" then
          if ¬ regcomp value then none
          else some (.STATE_IN_MATCH, .NODE_TYPE_MATCH .MATCH_TYPE_USER value, false)
        else none
      else if el = "return" then
        if name = "result" then
          match polkit_result_from_string_representation value with
          | none => none
          | some r => some (.STATE_IN_RETURN, .NODE_TYPE_RETURN r, false)
        else none
      else if el = "define_admin_auth" then
        if name = "user" then
          some (.STATE_IN_DEFINE_ADMIN_AUTH,
            .NODE_TYPE_DEFINE_ADMIN_AUTH .POLKIT_CONFIG_ADMIN_AUTH_TYPE_USER value, false)
        else if name = "group" then
          some (.STATE_IN_DEFINE_ADMIN_AUTH,
            .NODE_TYPE_DEFINE_ADMIN_AUTH .POLKIT_CONFIG_ADMIN_AUTH_TYPE_GROUP value, false)
        else none
      else some (.STATE_NONE, .NODE_TYPE_NOP, false)
    | _ => some (.STATE_NONE, .NODE_TYPE_NOP, false)
  | _ => some (.STATE_NONE, .NODE_TYPE_NOP, false)

/-- The heap after `parent->children = kit_list_append (parent->children, node)`. -/
def heap_append_child (heap : List NodeCell) (parent node : Nat) : List NodeCell :=
  match heap.get? parent with
  | none => heap
  | some cell => heap.set parent { cell with children := cell.children ++ [node] }

/-- Function `_start (data, el, attr)` of polkit-config.c; `attr` is the array of
attribute names and values without its `NULL` terminator. -/
def _start (regcomp : String → Bool) (pd : ParserData) (el : String) (attr : List String) :
    Handled :=
  match _start_switch regcomp pd el attr with
  | none => .stopped pd
  | some (state, data, is_top) =>
    let node := pd.heap.length
    let heap := pd.heap ++ [{ data := data, children := [] }]
    let top_config_node := if is_top then some node else pd.top_config_node
    let state := if state = .STATE_NONE then .STATE_UNKNOWN_TAG else state
    if pd.stack_depth < 0 ∨ pd.stack_depth ≥ PARSER_MAX_DEPTH then
      .stopped { pd with top_config_node := top_config_node }
    else
      let linked : Option (List NodeCell) :=
        if pd.stack_depth > 0 then
          match pd.node_stack.getD (pd.stack_depth - 1).toNat none with
          | none => none
          | some parent => some (heap_append_child heap parent node)
        else some heap
      match linked with
      | none => .fault
      | some heap =>
        .ok { state := state, top_config_node := top_config_node, heap := heap,
              state_stack := pd.state_stack.set pd.stack_depth.toNat state,
              node_stack := pd.node_stack.set pd.stack_depth.toNat (some node),
              stack_depth := pd.stack_depth + 1 }

/-- Function `_end (data, el)` of polkit-config.c. -/
def _end (pd : ParserData) (_el : String) : Handled :=
  let pd := { pd with stack_depth := pd.stack_depth - 1 }
  if pd.stack_depth < 0 ∨ pd.stack_depth ≥ PARSER_MAX_DEPTH then .stopped pd
  else if pd.stack_depth > 0 then
    .ok { pd with state := pd.state_stack.getD (pd.stack_depth - 1).toNat .STATE_NONE }
  else .ok { pd with state := .STATE_NONE }

/-- The handler expat calls for an event; `_cdata` of polkit-config.c does nothing. -/
def xml_handle (regcomp : String → Bool) (pd : ParserData) : XmlEvent → Handled
  | .start el attr => _start regcomp pd el attr
  | .cdata _ => .ok pd
  | .«end» el => _end pd el

/-- The handlers run over the events of a document in order, up to the first one that
stops the parser or faults. -/
def xml_run (regcomp : String → Bool) : ParserData → List XmlEvent → Handled
  | pd, [] => .ok pd
  | pd, ev :: rest =>
    match xml_handle regcomp pd ev with
    | .ok pd => xml_run regcomp pd rest
    | .stopped pd => .stopped pd
    | .fault => .fault

/-- The parser data as `polkit_config_new` sets it up; the two stacks are not
initialised by the C code and are read only where they have been written. -/
def parser_data_init : ParserData :=
  { state := .STATE_NONE, top_config_node := none, heap := [],
    state_stack := List.replicate 32 .STATE_NONE,
    node_stack := List.replicate 32 none,
    stack_depth := 0 }

/-- The tree below a pointer of the heap; `fuel` bounds the depth followed. -/
def config_node_of (heap : List NodeCell) : Nat → Nat → ConfigNode
  | 0, _ => .mk .NODE_TYPE_NOP []
  | fuel + 1, p =>
    match heap.get? p with
    | none => .mk .NODE_TYPE_NOP []
    | some cell => .mk cell.data (cell.children.map (config_node_of heap fuel))

/-- The parser state once the handlers have accepted the events `pre`, with the depth of
the stack. -/
def xml_state_after (regcomp : String → Bool) (pre : List XmlEvent) :
    Option (ParserState × Int) :=
  match xml_run regcomp parser_data_init pre with
  | .ok pd => some (pd.state, pd.stack_depth)
  | _ => none

end ConfigFile

/-- The surroundings of `polkit_config_new`: `regcomp`, the files and the allocations of
the error object. -/
structure ConfigFileEnv where
  regcomp : String → Bool
  kit_file_get_contents : String → FileContents
  mem : ErrorAlloc

/-- Function `polkit_config_new (path, error)`: the returned object (`none` for `NULL`)
and the error location afterwards; the outer `none` is a fault in a handler. The
allocations of expat and of the object are taken to succeed and the text of the errors
is shortened. -/
def polkit_config_new (env : ConfigFileEnv) (path : String)
    (error : Option (Option PolKitError)) :
    Option (Option PolKitConfig × Option (Option PolKitError)) :=
  match env.kit_file_get_contents path with
  | .enomem =>
    some (none, (polkit_error_set_error env.mem error POLKIT_ERROR_POLICY_FILE_INVALID
      (some ("Cannot load PolicyKit policy file at " ++ path))).2)
  | .unreadable =>
    some (none, (polkit_error_set_error env.mem error POLKIT_ERROR_POLICY_FILE_INVALID
      (some ("Cannot load PolicyKit policy file at " ++ path))).2)
  | .contents doc =>
    match ConfigFile.xml_run env.regcomp ConfigFile.parser_data_init doc.events with
    | .fault => none
    | .stopped _ =>
      some (none, (polkit_error_set_error env.mem error POLKIT_ERROR_POLICY_FILE_INVALID
        (some (path ++ ": parse error"))).2)
    | .ok pd =>
      if ¬ doc.well_formed then
        some (none, (polkit_error_set_error env.mem error POLKIT_ERROR_POLICY_FILE_INVALID
          (some (path ++ ": parse error"))).2)
      else
        let top := pd.top_config_node.map
          (ConfigFile.config_node_of pd.heap (pd.heap.length + 1))
        some (some { top_config_node := top }, error)

/-- The listed ways in which an element fails validation in a parser state: a `match`
with an attribute other than `action` and `user`, a `match` whose expression `regcomp`
refuses, a `return` whose `result` is not a canonical result name, and any element that
would be pushed at depth 32 or more. -/
def config_element_invalid (regcomp : String → Bool) (state : ConfigFile.ParserState)
    (stack_depth : Int) (el : String) (attr : List String) : Bool :=
  ((state = .STATE_IN_CONFIG ∨ state = .STATE_IN_MATCH) &&
    (match attr with
     | [name, value] =>
       (el == "match" && name != "action" && name != "user") ||
       (el == "match" && (name == "action" || name == "user") && !regcomp value) ||
       (el == "return" && name == "result" &&
         (polkit_result_from_string_representation value).isNone)
     | _ => false)) ||
  decide (stack_depth ≥ ConfigFile.PARSER_MAX_DEPTH)

/-- The events of `<config><match action="org.foo.bar"><return result="no"/></match>
<return result="yes"/></config>`. -/
def config_events_example : List XmlEvent :=
  [ .start "config" [],
    .start "match" ["action", "org.foo.bar"],
    .start "return" ["result", "no"], .«end» "return",
    .«end» "match",
    .start "return" ["result", "yes"], .«end» "return",
    .«end» "config" ]

/-- The events of a `config` element that holds the given element, left empty. -/
def config_events_with (el : String) (attr : List String) : List XmlEvent :=
  [ .start "config" [], .start el attr, .«end» el, .«end» "config" ]

/-- An environment for the examples: every expression but `(` compiles; the file
`PolicyKit.conf` holds `config_events_example`, `attr.conf` a `match` on `group`,
`word.conf` a `return` of `maybe`, `regex.conf` a `match` on the expression `(`,
`deep.conf` 33 nested elements and `broken.conf` a document that is not well-formed;
other files cannot be read. -/
def config_env_example : ConfigFileEnv where
  regcomp := fun s => s != "("
  kit_file_get_contents := fun path =>
    if path = "PolicyKit.conf" then .contents ⟨config_events_example, true⟩
    else if path = "attr.conf" then
      .contents ⟨config_events_with "match" ["group", "wheel"], true⟩
    else if path = "word.conf" then
      .contents ⟨config_events_with "return" ["result", "maybe"], true⟩
    else if path = "regex.conf" then
      .contents ⟨config_events_with "match" ["action", "("], true⟩
    else if path = "deep.conf" then .contents ⟨nested_events 33, true⟩
    else if path = "broken.conf" then .contents ⟨[.start "config" []], false⟩
    else .unreadable
  mem := { kit_new0_ok := true, kit_strdup_vprintf_ok := true }

/-- The tree of `config_events_example`. -/
def config_tree_example : ConfigNode :=
  .mk .NODE_TYPE_TOP
    [ .mk (.NODE_TYPE_MATCH .MATCH_TYPE_ACTION "org.foo.bar")
        [ .mk (.NODE_TYPE_RETURN POLKIT_RESULT_NO) [] ],
      .mk (.NODE_TYPE_RETURN POLKIT_RESULT_YES) [] ]

/-! ## kit-spawn.c

`kit_spawn_sync` forks; the model follows both processes. The system calls are taken from
the surroundings: each gives `none` when it succeeds and `some e` when it fails with
`errno` set to `e`. -/

/-- Modelled from the spec: the flags of `KitSpawnFlags` (kit-spawn.h is absent), each
as a boolean. -/
structure KitSpawnFlags where
  KIT_SPAWN_CHILD_INHERITS_STDIN : Bool
  KIT_SPAWN_STDOUT_TO_DEV_NULL : Bool
  KIT_SPAWN_STDERR_TO_DEV_NULL : Bool
  deriving DecidableEq

/-- The value of `EINTR` on Linux. -/
def EINTR : Int := 4

/-- The system calls of the child: `open ("/dev/null")`, `chdir`, the three calls of
`_sane_dup2` (which repeats `dup2` while it fails with `EINTR`) and `execve`/`execv`. -/
structure ChildCalls where
  open_dev_null : Option Int
  chdir : Option Int
  dup2_stdin : Option Int
  dup2_stdout : Option Int
  dup2_stderr : Option Int
  exec : Option Int
  deriving DecidableEq

/-- How a process ends: it exits with the value passed to `exit`, or a signal ends it. -/
inductive ChildEnd where
  | exited (code : Int)
  | signaled (sig : Nat)
  deriving DecidableEq

/-- The status `waitpid` stores for a process: the low 8 bits of the exit value in bits
8 to 15, or the number of the signal in the low bits. -/
def wait_status : ChildEnd → Nat
  | .exited code => (code % 256).toNat * 256
  | .signaled sig => sig % 128

/-- The child branch (`pid == 0`) of `kit_spawn_sync`: `some n` when the child calls
`exit (n)`, `none` when the program is executed. The booleans say whether `stdinp`,
`stdoutp` and `stderrp` are given. -/
def kit_spawn_sync_child (calls : ChildCalls) (working_directory : Option String)
    (flags : KitSpawnFlags) (stdinp stdoutp stderrp : Bool) : Option Int :=
  let fd_null : Option Int :=
    if !flags.KIT_SPAWN_CHILD_INHERITS_STDIN || flags.KIT_SPAWN_STDOUT_TO_DEV_NULL ||
        flags.KIT_SPAWN_STDERR_TO_DEV_NULL then calls.open_dev_null
    else none
  match fd_null with
  | some errno => some (128 + errno)
  | none =>
    match (if working_directory.isSome then calls.chdir else none) with
    | some errno => some (128 + errno)
    | none =>
      match (if stdinp then calls.dup2_stdin
             else if !flags.KIT_SPAWN_CHILD_INHERITS_STDIN then calls.dup2_stdin
             else none) with
      | some errno => some (128 + errno)
      | none =>
        match (if stdoutp then calls.dup2_stdout
               else if flags.KIT_SPAWN_STDOUT_TO_DEV_NULL then calls.dup2_stdout
               else none) with
        | some errno => some (128 + errno)
        | none =>
          match (if stderrp then calls.dup2_stderr
                 else if flags.KIT_SPAWN_STDERR_TO_DEV_NULL then calls.dup2_stderr
                 else none) with
          | some errno => some (128 + errno)
          | none =>
            match calls.exec with
            | some errno => some (128 + errno)
            | none => none

/-- The result of `_write_to` or `_read_from`: `-1` with `errno` set, or what was
transferred. -/
inductive IoResult (α : Type) where
  | error (errno : Int)
  | done (value : α)
  deriving DecidableEq

/-- One turn of the loop of the parent: the result of `select`, of `_write_to` (the number
of bytes written) and of the two calls of `_read_from` (the bytes read, none at end of
file); a result is looked at only when the call is made. -/
structure SpawnRound where
  select : Option Int
  write_stdin : IoResult Nat
  read_stdout : IoResult String
  read_stderr : IoResult String
  deriving DecidableEq

/-- How the loop of the parent ends: all pipes are closed, a call fails (`goto out`), or
the turns given are used up with a pipe still open. -/
inductive SpawnLoopEnd where
  | finished (stdout stderr : Option String)
  | failed (errno : Int)
  | unfinished
  deriving DecidableEq

/-- The text after `kit_str_append (*out_string, buf)`. -/
def kit_str_append (s : Option String) (buf : String) : Option String :=
  some (s.getD "" ++ buf)

/-- The `while (stdin_pipe[1] != -1 || stdout_pipe[0] != -1 || stderr_pipe[0] != -1)`
loop of the parent: which pipes are open, the text `wp` still to write and the texts
read so far. -/
def kit_spawn_sync_loop :
    List SpawnRound → Bool → String → Bool → Option String → Bool → Option String →
      SpawnLoopEnd
  | [], stdin_open, _, stdout_open, out, stderr_open, err =>
    if stdin_open || stdout_open || stderr_open then .unfinished else .finished out err
  | r :: rest, stdin_open, wp, stdout_open, out, stderr_open, err =>
    if !(stdin_open || stdout_open || stderr_open) then .finished out err
    else
      match (match r.select with
             | some errno => if errno ≠ EINTR then some errno else none
             | none => none) with
      | some errno => .failed errno
      | none =>
        let after_write : IoResult (Bool × String) :=
          if stdin_open then
            match r.write_stdin with
            | .error errno => .error errno
            | .done num_written =>
              let wp := String.mk (wp.data.drop num_written)
              .done (!wp.data.isEmpty, wp)
          else .done (stdin_open, wp)
        match after_write with
        | .error errno => .failed errno
        | .done (stdin_open, wp) =>
          let after_out : IoResult (Bool × Option String) :=
            if stdout_open then
              match r.read_stdout with
              | .error errno => .error errno
              | .done buf =>
                if buf.data.isEmpty then .done (false, out)
                else .done (true, kit_str_append out buf)
            else .done (stdout_open, out)
          match after_out with
          | .error errno => .failed errno
          | .done (stdout_open, out) =>
            let after_err : IoResult (Bool × Option String) :=
              if stderr_open then
                match r.read_stderr with
                | .error errno => .error errno
                | .done buf =>
                  if buf.data.isEmpty then .done (false, err)
                  else .done (true, kit_str_append err buf)
              else .done (stderr_open, err)
            match after_err with
            | .error errno => .failed errno
            | .done (stderr_open, err) =>
              kit_spawn_sync_loop rest stdin_open wp stdout_open out stderr_open err

/-- The surroundings of a call of `kit_spawn_sync`: the calls of the parent (`pipe` three
times, `fork`, the turns of the loop, `waitpid`), the calls of the child, how the
executed program ends, and the status the `waitpid` after `kill` stores. -/
structure SpawnSys where
  pipe_stdin : Option Int
  pipe_stdout : Option Int
  pipe_stderr : Option Int
  fork : Option Int
  rounds : List SpawnRound
  waitpid : Option Int
  child : ChildCalls
  program : ChildEnd
  killed_status : Nat

/-- What a call of `kit_spawn_sync` leaves: the returned boolean, `errno`, the texts in
`*stdoutp` and `*stderrp`, and `*out_exit_status` (`none` when it was not written). -/
structure KitSpawnOut where
  ret : Bool
  errno : Int
  stdout : Option String
  stderr : Option String
  exit_status : Option Nat
  deriving DecidableEq

/-- Function `kit_spawn_sync`, seen from the parent, called with `errno` holding
`errno0`; `argv` is `none` for `NULL`, and the booleans `stdoutp`, `stderrp` and
`out_exit_status` say whether the location is given. The outer `none` is a call whose
loop is still running when the turns given are used up. -/
def kit_spawn_sync (sys : SpawnSys) (errno0 : Int) (working_directory : Option String)
    (flags : KitSpawnFlags) (argv : Option (List String)) (stdinp : Option String)
    (stdoutp stderrp out_exit_status : Bool) : Option KitSpawnOut :=
  let fail_early : KitSpawnOut :=
    { ret := false, errno := errno0, stdout := none, stderr := none, exit_status := none }
  if argv.isNone then some fail_early
  else if !out_exit_status then some fail_early
  else if flags.KIT_SPAWN_CHILD_INHERITS_STDIN && stdinp.isSome then some fail_early
  else if flags.KIT_SPAWN_STDOUT_TO_DEV_NULL && stdoutp then some fail_early
  else if flags.KIT_SPAWN_STDERR_TO_DEV_NULL && stderrp then some fail_early
  else
    let before_fork : Option Int :=
      match (if stdinp.isSome then sys.pipe_stdin else none) with
      | some errno => some errno
      | none =>
        match (if stdoutp then sys.pipe_stdout else none) with
        | some errno => some errno
        | none =>
          match (if stderrp then sys.pipe_stderr else none) with
          | some errno => some errno
          | none => sys.fork
    match before_fork with
    | some errno => some { fail_early with errno := errno }
    | none =>
      let child_end : ChildEnd :=
        match kit_spawn_sync_child sys.child working_directory flags stdinp.isSome
            stdoutp stderrp with
        | some n => .exited n
        | none => sys.program
      let killed : Int → KitSpawnOut := fun errno =>
        { ret := false, errno := errno, stdout := none, stderr := none,
          exit_status := some sys.killed_status }
      match kit_spawn_sync_loop sys.rounds stdinp.isSome (stdinp.getD "") stdoutp none
          stderrp none with
      | .unfinished => none
      | .failed errno => some (killed errno)
      | .finished out err =>
        match sys.waitpid with
        | some errno => some (killed errno)
        | none =>
          let status := wait_status child_end
          if WEXITSTATUS status < 128 then
            some { ret := true, errno := errno0, stdout := out, stderr := err,
                   exit_status := some status }
          else
            some { ret := false, errno := (WEXITSTATUS status : Int) - 128, stdout := none,
                   stderr := none, exit_status := some status }

/-- The setup calls the child makes, in order, each with its outcome, ending with the
call that executes the program. -/
def child_setup_calls (calls : ChildCalls) (working_directory : Option String)
    (flags : KitSpawnFlags) (stdinp stdoutp stderrp : Bool) : List (Option Int) :=
  (if !flags.KIT_SPAWN_CHILD_INHERITS_STDIN || flags.KIT_SPAWN_STDOUT_TO_DEV_NULL ||
      flags.KIT_SPAWN_STDERR_TO_DEV_NULL then [calls.open_dev_null] else []) ++
  (if working_directory.isSome then [calls.chdir] else []) ++
  (if stdinp || !flags.KIT_SPAWN_CHILD_INHERITS_STDIN then [calls.dup2_stdin] else []) ++
  (if stdoutp || flags.KIT_SPAWN_STDOUT_TO_DEV_NULL then [calls.dup2_stdout] else []) ++
  (if stderrp || flags.KIT_SPAWN_STDERR_TO_DEV_NULL then [calls.dup2_stderr] else []) ++
  [calls.exec]

/-- The `errno` of the first call of a sequence that fails. -/
def first_failure : List (Option Int) → Option Int
  | [] => none
  | some errno :: _ => some errno
  | none :: rest => first_failure rest

/-- The parent gets as far as looking at the exit status: the guards at the start hold,
the pipes asked for and `fork` succeed, the loop closes all pipes without a failing call,
and `waitpid` succeeds. -/
def parent_reaches_exit_status (sys : SpawnSys) (flags : KitSpawnFlags)
    (argv : Option (List String)) (stdinp : Option String)
    (stdoutp stderrp out_exit_status : Bool) : Bool :=
  argv.isSome && out_exit_status &&
  !(flags.KIT_SPAWN_CHILD_INHERITS_STDIN && stdinp.isSome) &&
  !(flags.KIT_SPAWN_STDOUT_TO_DEV_NULL && stdoutp) &&
  !(flags.KIT_SPAWN_STDERR_TO_DEV_NULL && stderrp) &&
  (!stdinp.isSome || sys.pipe_stdin.isNone) &&
  (!stdoutp || sys.pipe_stdout.isNone) &&
  (!stderrp || sys.pipe_stderr.isNone) &&
  sys.fork.isNone &&
  (match kit_spawn_sync_loop sys.rounds stdinp.isSome (stdinp.getD "") stdoutp none
      stderrp none with
   | .finished _ _ => true
   | _ => false) &&
  sys.waitpid.isNone

/-- Surroundings for the examples: every call succeeds except `chdir`, which fails with
the given `errno` if one is given; the program exits with `code`; no pipe is used. -/
def spawn_sys_example (chdir : Option Int) (code : Int) : SpawnSys where
  pipe_stdin := none
  pipe_stdout := none
  pipe_stderr := none
  fork := none
  rounds := []
  waitpid := none
  child := { open_dev_null := none, chdir := chdir, dup2_stdin := none,
             dup2_stdout := none, dup2_stderr := none, exec := none }
  program := .exited code
  killed_status := 9

/-- No flag set. -/
def spawn_flags_none : KitSpawnFlags :=
  { KIT_SPAWN_CHILD_INHERITS_STDIN := false, KIT_SPAWN_STDOUT_TO_DEV_NULL := false,
    KIT_SPAWN_STDERR_TO_DEV_NULL := false }

/-- Surroundings for the first script of the unit test: both output pipes are read in
one turn each and are at end of file in the second turn; the program exits with 42. -/
def spawn_sys_script1 : SpawnSys where
  pipe_stdin := none
  pipe_stdout := none
  pipe_stderr := none
  fork := none
  rounds :=
    [ { select := none, write_stdin := .done 0, read_stdout := .done "Hello World\n",
        read_stderr := .done "Goodbye World\n" },
      { select := some EINTR, write_stdin := .done 0, read_stdout := .done "",
        read_stderr := .done "" } ]
  waitpid := none
  child := { open_dev_null := none, chdir := none, dup2_stdin := none,
             dup2_stdout := none, dup2_stderr := none, exec := none }
  program := .exited 42
  killed_status := 9

/-! ## Inputs at which a lookup finds no entry, or a request carries no constraint array -/

/-- An environment in which the expression matches exactly the text equal to its pattern
and `getpwuid_r` returns 0 without finding an entry, for every uid. -/
def env_no_entry : ConfigEnv where
  regexec := fun pattern str => pattern == str
  getpwuid_r := fun _ => .noEntry

/-- The tree of `<config><match user="joe"></match></config>`: it holds no return
node. -/
def config_user_match_only : ConfigNode :=
  .mk .NODE_TYPE_TOP [ .mk (.NODE_TYPE_MATCH .MATCH_TYPE_USER "joe") [] ]

/-- The tree of `<config><match user="joe"></match><define_admin_auth group="wheel"/>
</config>`. -/
def config_user_match_then_define : ConfigNode :=
  .mk .NODE_TYPE_TOP
    [ .mk (.NODE_TYPE_MATCH .MATCH_TYPE_USER "joe") [],
      .mk (.NODE_TYPE_DEFINE_ADMIN_AUTH .POLKIT_CONFIG_ADMIN_AUTH_TYPE_GROUP "wheel") [] ]

/-- The store of uid 502: one explicit negative grant for `org.foo.bar` without
constraints. -/
def auths_negative_plain : List PolKitAuthorization :=
  [ { uid := 502, action_id := "org.foo.bar", scope := .POLKIT_AUTHORIZATION_SCOPE_ALWAYS,
      when := 1200000003, origin := .explicitly 0 true, constraints := [] } ]

def authdb_negative_plain : PolKitAuthorizationDB where
  store := fun uid => if uid = 502 then .entries auths_negative_plain else .entries []

/-! ### Lemmas on the result table -/

theorem from_string_loop_mem (string : String) (tbl : List (PolKitResult × String))
    (r : PolKitResult) (h : polkit_result_from_string_loop string tbl = some r) :
    (r, string) ∈ tbl := by
  induction tbl with
  | nil => simp [polkit_result_from_string_loop] at h
  | cons row rest ih =>
    unfold polkit_result_from_string_loop at h
    by_cases hrow : row.2 = string
    · rw [if_pos hrow] at h
      have h1 : row.1 = r := Option.some.inj h
      have : row = (r, string) := Prod.ext h1 hrow
      rw [this]
      exact List.mem_cons_self _ _
    · rw [if_neg hrow] at h
      exact List.mem_cons_of_mem _ (ih h)

theorem valid_result_cases (r : Int) (h0 : 0 ≤ r) (h1 : r < POLKIT_RESULT_N_RESULTS) :
    r = 0 ∨ r = 1 ∨ r = 2 ∨ r = 3 ∨ r = 4 ∨ r = 5 ∨ r = 6 ∨ r = 7 ∨ r = 8 ∨ r = 9 ∨ r = 10 := by
  unfold POLKIT_RESULT_N_RESULTS at h1
  omega

/-! ## Theorems: result codes -/

/-- C4: for every result code `r` with `0 <= r < POLKIT_RESULT_N_RESULTS`,
`polkit_result_from_string_representation` applied to the string that
`polkit_result_to_string_representation` gives for `r` succeeds and yields `r`. -/
theorem result_string_round_trip (r : PolKitResult)
    (h0 : 0 ≤ r) (h1 : r < POLKIT_RESULT_N_RESULTS) :
    (polkit_result_to_string_representation r).bind
      polkit_result_from_string_representation = some r := by
  rcases valid_result_cases r h0 h1 with h | h | h | h | h | h | h | h | h | h | h <;>
    subst h <;> decide

theorem result_string_round_trip_witness :
    (polkit_result_to_string_representation POLKIT_RESULT_YES).bind
      polkit_result_from_string_representation = some POLKIT_RESULT_YES :=
  result_string_round_trip POLKIT_RESULT_YES (by decide) (by decide)

/-- C5: the mapping between result codes and canonical names is a bijection:
`polkit_result_to_string_representation` is injective on the valid codes, and whenever
`polkit_result_from_string_representation` succeeds on a string `s` with code `r`,
`polkit_result_to_string_representation r` is `s`. -/
theorem result_mapping_bijection :
    (∀ r₁ r₂ : PolKitResult, 0 ≤ r₁ → r₁ < POLKIT_RESULT_N_RESULTS →
        0 ≤ r₂ → r₂ < POLKIT_RESULT_N_RESULTS →
        polkit_result_to_string_representation r₁ = polkit_result_to_string_representation r₂ →
        r₁ = r₂) ∧
    (∀ (s : String) (r : PolKitResult),
        polkit_result_from_string_representation s = some r →
        polkit_result_to_string_representation r = some s) := by
  constructor
  · intro r₁ r₂ a0 a1 b0 b1 h
    rcases valid_result_cases r₁ a0 a1 with h₁ | h₁ | h₁ | h₁ | h₁ | h₁ | h₁ | h₁ | h₁ | h₁ | h₁ <;>
      rcases valid_result_cases r₂ b0 b1 with
        h₂ | h₂ | h₂ | h₂ | h₂ | h₂ | h₂ | h₂ | h₂ | h₂ | h₂ <;>
      subst h₁ <;> subst h₂ <;> first | rfl | (exact absurd h (by decide))
  · intro s r h
    have hmem := from_string_loop_mem s mapping r h
    simp only [mapping, List.mem_cons, Prod.mk.injEq, List.mem_nil_iff, or_false] at hmem
    rcases hmem with h | h | h | h | h | h | h | h | h | h | h <;>
      obtain ⟨hr, hs⟩ := h <;> subst hr <;> subst hs <;> decide

theorem result_mapping_bijection_witness :
    polkit_result_from_string_representation "auth_self_one_shot"
        = some POLKIT_RESULT_ONLY_VIA_SELF_AUTH_ONE_SHOT ∧
    polkit_result_to_string_representation POLKIT_RESULT_ONLY_VIA_SELF_AUTH_ONE_SHOT
        = some "auth_self_one_shot" ∧
    POLKIT_RESULT_NO = POLKIT_RESULT_NO :=
  ⟨by decide,
   result_mapping_bijection.2 "auth_self_one_shot" POLKIT_RESULT_ONLY_VIA_SELF_AUTH_ONE_SHOT
     (by decide),
   result_mapping_bijection.1 POLKIT_RESULT_NO POLKIT_RESULT_NO (by decide) (by decide)
     (by decide) (by decide) rfl⟩


/-! ### Lemmas on the configuration walk -/

theorem config_node_match_defined (env : ConfigEnv) (match_type : MatchType) (data : String)
    (action : PolKitAction) (caller : Option PolKitCaller) (session : Option PolKitSession)
    (h : lookup_defined env caller session = true) :
    ∃ m, config_node_match env match_type data action caller session = some m := by
  unfold config_node_match
  unfold lookup_defined at h
  cases match_type with
  | MATCH_TYPE_ACTION =>
    cases action.action_id with
    | none => exact ⟨false, rfl⟩
    | some str => exact ⟨_, rfl⟩
  | MATCH_TYPE_USER =>
    cases hu : subject_uid caller session with
    | none => simp
    | some uid =>
      rw [hu] at h
      cases hp : env.getpwuid_r uid with
      | error => simp [hp]
      | noEntry => simp [hp] at h
      | entry pw_name => simp [hp]

mutual
theorem config_node_test_trace_fst (env : ConfigEnv) (action : PolKitAction)
    (caller : Option PolKitCaller) (session : Option PolKitSession) :
    ∀ node : ConfigNode,
      (config_node_test_trace env action caller session node).1
        = config_node_test env action caller session node
  | .mk data children => by
    unfold config_node_test_trace config_node_test
    cases hsw : config_node_test_switch env data action caller session with
    | none => rfl
    | some p =>
      obtain ⟨recurse, result⟩ := p
      cases recurse with
      | false => simp
      | true =>
        simp
        exact config_node_test_loop_trace_fst env action caller session children
theorem config_node_test_loop_trace_fst (env : ConfigEnv) (action : PolKitAction)
    (caller : Option PolKitCaller) (session : Option PolKitSession) :
    ∀ nodes : List ConfigNode,
      (config_node_test_loop_trace env action caller session nodes).1
        = config_node_test_loop env action caller session nodes
  | [] => by simp [config_node_test_loop_trace, config_node_test_loop]
  | child :: rest => by
    unfold config_node_test_loop_trace config_node_test_loop
    have h1 := config_node_test_trace_fst env action caller session child
    have h2 := config_node_test_loop_trace_fst env action caller session rest
    simp only []
    rw [h1]
    cases config_node_test env action caller session child with
    | none => rfl
    | some result =>
      by_cases hr : result ≠ POLKIT_RESULT_UNKNOWN
      · simp [hr]
      · simp [hr, h2]
end


theorem first_definite_result_cons (n : ConfigNode) (l : List ConfigNode) :
    first_definite_result (n :: l)
      = if is_definite_return n then (return_result n).getD POLKIT_RESULT_UNKNOWN
        else first_definite_result l := by
  unfold is_definite_return
  rw [first_definite_result]
  cases return_result n with
  | none => simp
  | some r =>
    by_cases hr : r = POLKIT_RESULT_UNKNOWN
    · simp [hr]
    · simp [hr]

theorem definite_return_result_ne (n : ConfigNode) (h : is_definite_return n = true) :
    (return_result n).getD POLKIT_RESULT_UNKNOWN ≠ POLKIT_RESULT_UNKNOWN := by
  unfold is_definite_return at h
  cases hn : return_result n with
  | none => rw [hn] at h; simp at h
  | some r => rw [hn] at h; simpa using h

theorem upto_first_definite_of_unknown (l : List ConfigNode)
    (h : first_definite_result l = POLKIT_RESULT_UNKNOWN) : upto_first_definite l = l := by
  induction l with
  | nil => rfl
  | cons n rest ih =>
    rw [first_definite_result_cons] at h
    by_cases hn : is_definite_return n = true
    · rw [if_pos hn] at h
      exact absurd h (definite_return_result_ne n hn)
    · rw [if_neg hn] at h
      simp [upto_first_definite, hn, ih h]

theorem walk_append_definite (l₁ l₂ : List ConfigNode)
    (h : first_definite_result l₁ ≠ POLKIT_RESULT_UNKNOWN) :
    first_definite_result (l₁ ++ l₂) = first_definite_result l₁ ∧
      upto_first_definite (l₁ ++ l₂) = upto_first_definite l₁ := by
  induction l₁ with
  | nil => exact absurd rfl h
  | cons n rest ih =>
    rw [List.cons_append, first_definite_result_cons, first_definite_result_cons]
    rw [first_definite_result_cons] at h
    by_cases hn : is_definite_return n = true
    · simp [upto_first_definite, hn]
    · rw [if_neg hn] at h
      simp [upto_first_definite, hn, ih h]

theorem walk_append_unknown (l₁ l₂ : List ConfigNode)
    (h : first_definite_result l₁ = POLKIT_RESULT_UNKNOWN) :
    first_definite_result (l₁ ++ l₂) = first_definite_result l₂ ∧
      upto_first_definite (l₁ ++ l₂) = l₁ ++ upto_first_definite l₂ := by
  induction l₁ with
  | nil => exact ⟨rfl, rfl⟩
  | cons n rest ih =>
    rw [List.cons_append, first_definite_result_cons]
    rw [first_definite_result_cons] at h
    by_cases hn : is_definite_return n = true
    · rw [if_pos hn] at h
      exact absurd h (definite_return_result_ne n hn)
    · rw [if_neg hn] at h
      simp [upto_first_definite, hn, ih h]

mutual
theorem config_node_test_trace_eq (env : ConfigEnv) (action : PolKitAction)
    (caller : Option PolKitCaller) (session : Option PolKitSession)
    (hdef : lookup_defined env caller session = true) :
    ∀ node : ConfigNode,
      config_node_test_trace env action caller session node
        = (some (first_definite_result (walk_order env action caller session node)),
           upto_first_definite (walk_order env action caller session node))
  | .mk data children => by
    have ih := config_node_test_loop_trace_eq env action caller session hdef children
    unfold config_node_test_trace walk_order
    cases data with
    | NODE_TYPE_NOP =>
      simp [config_node_test_switch, descends, first_definite_result, upto_first_definite,
        return_result, is_definite_return]
    | NODE_TYPE_TOP =>
      simp [config_node_test_switch, descends, first_definite_result, upto_first_definite,
        return_result, is_definite_return, ih]
    | NODE_TYPE_MATCH match_type pattern =>
      obtain ⟨m, hm⟩ := config_node_match_defined env match_type pattern action caller
        session hdef
      cases m with
      | false =>
        simp [config_node_test_switch, descends, first_definite_result, upto_first_definite,
          return_result, is_definite_return, hm]
      | true =>
        simp [config_node_test_switch, descends, first_definite_result, upto_first_definite,
          return_result, is_definite_return, hm, ih]
    | NODE_TYPE_RETURN result =>
      by_cases hr : result = POLKIT_RESULT_UNKNOWN
      · simp [config_node_test_switch, descends, first_definite_result, upto_first_definite,
          return_result, is_definite_return, hr]
      · simp [config_node_test_switch, descends, first_definite_result, upto_first_definite,
          return_result, is_definite_return, hr]
    | NODE_TYPE_DEFINE_ADMIN_AUTH admin_type d =>
      simp [config_node_test_switch, descends, first_definite_result, upto_first_definite,
        return_result, is_definite_return]
theorem config_node_test_loop_trace_eq (env : ConfigEnv) (action : PolKitAction)
    (caller : Option PolKitCaller) (session : Option PolKitSession)
    (hdef : lookup_defined env caller session = true) :
    ∀ nodes : List ConfigNode,
      config_node_test_loop_trace env action caller session nodes
        = (some (first_definite_result (walk_order_list env action caller session nodes)),
           upto_first_definite (walk_order_list env action caller session nodes))
  | [] => by
    simp [config_node_test_loop_trace, walk_order_list, first_definite_result,
      upto_first_definite]
  | child :: rest => by
    have h1 := config_node_test_trace_eq env action caller session hdef child
    have h2 := config_node_test_loop_trace_eq env action caller session hdef rest
    unfold config_node_test_loop_trace walk_order_list
    simp only [h1, h2]
    by_cases hr : first_definite_result (walk_order env action caller session child)
        = POLKIT_RESULT_UNKNOWN
    · obtain ⟨e1, e2⟩ := walk_append_unknown _
        (walk_order_list env action caller session rest) hr
      simp [hr, e1, e2, upto_first_definite_of_unknown _ hr]
    · obtain ⟨e1, e2⟩ := walk_append_definite _
        (walk_order_list env action caller session rest) hr
      simp [hr, e1, e2]
end


theorem first_definite_result_of_no_return (l : List ConfigNode)
    (h : ∀ n ∈ l, return_result n = none) :
    first_definite_result l = POLKIT_RESULT_UNKNOWN := by
  induction l with
  | nil => rfl
  | cons n rest ih =>
    have hn : return_result n = none := h n (List.mem_cons_self _ _)
    have hrest : ∀ m ∈ rest, return_result m = none :=
      fun m hm => h m (List.mem_cons_of_mem _ hm)
    simp [first_definite_result, hn, ih hrest]

/-! ## Theorems: configuration walk -/

/-- C1 (as stated, refuted): on the configuration
`<config><return result="unknown"/><return result="yes"/></config>` the result of
`polkit_config_can_caller_do_action` is not the result attribute of the first return
node reached in depth-first left-to-right order: that attribute is `unknown`, the walk
goes on and returns `yes`. -/
theorem config_first_return_counterexample :
    polkit_config_can_caller_do_action env_example ⟨some config_unknown_then_yes⟩
        ⟨some "org.foo.bar"⟩ (some caller_example)
      ≠ first_return (config_walk_order env_example ⟨some config_unknown_then_yes⟩
          ⟨some "org.foo.bar"⟩ (some caller_example) none) ∧
    polkit_config_can_caller_do_action env_example ⟨some config_unknown_then_yes⟩
        ⟨some "org.foo.bar"⟩ (some caller_example) = some POLKIT_RESULT_YES ∧
    first_return (config_walk_order env_example ⟨some config_unknown_then_yes⟩
        ⟨some "org.foo.bar"⟩ (some caller_example) none) = some POLKIT_RESULT_UNKNOWN := by
  decide

/-- C1 (amended): the configuration walk visits nodes depth-first and left to right,
descending only into the top node and into match nodes that match the action/subject;
for every configuration tree and every subject whose password lookup fails or yields an
entry (`getpwuid_r` does not return 0 without an entry), the result of
`polkit_config_can_caller_do_action` and of `polkit_config_can_session_do_action` is the
result attribute of the first return node reached in that order whose result is not
`unknown` (and `unknown` when there is none), and the nodes evaluated are exactly the
nodes of that order up to and including that return node. -/
theorem config_walk_first_definite_return (env : ConfigEnv) (action : PolKitAction)
    (caller : Option PolKitCaller) (session : Option PolKitSession) (top : ConfigNode)
    (hc : lookup_defined env caller none = true)
    (hs : lookup_defined env none session = true) :
    (polkit_config_can_caller_do_action env ⟨some top⟩ action caller
        = some (first_definite_result (walk_order env action caller none top)) ∧
      (config_node_test_trace env action caller none top).2
        = upto_first_definite (walk_order env action caller none top)) ∧
    (polkit_config_can_session_do_action env ⟨some top⟩ action session
        = some (first_definite_result (walk_order env action none session top)) ∧
      (config_node_test_trace env action none session top).2
        = upto_first_definite (walk_order env action none session top)) := by
  have e1 := config_node_test_trace_eq env action caller none hc top
  have e2 := config_node_test_trace_eq env action none session hs top
  have f1 := config_node_test_trace_fst env action caller none top
  have f2 := config_node_test_trace_fst env action none session top
  rw [e1] at f1
  rw [e2] at f2
  refine ⟨⟨?_, ?_⟩, ⟨?_, ?_⟩⟩
  · exact f1.symm
  · rw [e1]
  · exact f2.symm
  · rw [e2]

theorem config_walk_first_definite_return_witness :
    (polkit_config_can_caller_do_action env_example ⟨some config_unknown_then_yes⟩
        ⟨some "org.foo.bar"⟩ (some caller_example)
        = some (first_definite_result (walk_order env_example ⟨some "org.foo.bar"⟩
            (some caller_example) none config_unknown_then_yes)) ∧
      (config_node_test_trace env_example ⟨some "org.foo.bar"⟩ (some caller_example) none
          config_unknown_then_yes).2
        = upto_first_definite (walk_order env_example ⟨some "org.foo.bar"⟩
            (some caller_example) none config_unknown_then_yes)) ∧
    (polkit_config_can_session_do_action env_example ⟨some config_unknown_then_yes⟩
        ⟨some "org.foo.bar"⟩ (some session_example)
        = some (first_definite_result (walk_order env_example ⟨some "org.foo.bar"⟩
            none (some session_example) config_unknown_then_yes)) ∧
      (config_node_test_trace env_example ⟨some "org.foo.bar"⟩ none (some session_example)
          config_unknown_then_yes).2
        = upto_first_definite (walk_order env_example ⟨some "org.foo.bar"⟩
            none (some session_example) config_unknown_then_yes)) :=
  config_walk_first_definite_return env_example ⟨some "org.foo.bar"⟩ (some caller_example)
    (some session_example) config_unknown_then_yes (by decide) (by decide)

/-- When the password lookup of the subject fails or yields an entry: for every
configuration and action, if no return node is reached by the walk (the configuration has
no top node, or every return node lies below some match node that does not match),
`polkit_config_can_caller_do_action` and `polkit_config_can_session_do_action` return
`POLKIT_RESULT_UNKNOWN`. -/
theorem config_no_return_reached_unknown (env : ConfigEnv) (pk_config : PolKitConfig)
    (action : PolKitAction) (caller : Option PolKitCaller) (session : Option PolKitSession)
    (hc : lookup_defined env caller none = true)
    (hs : lookup_defined env none session = true) :
    ((∀ n ∈ config_walk_order env pk_config action caller none, return_result n = none) →
      polkit_config_can_caller_do_action env pk_config action caller
        = some POLKIT_RESULT_UNKNOWN) ∧
    ((∀ n ∈ config_walk_order env pk_config action none session, return_result n = none) →
      polkit_config_can_session_do_action env pk_config action session
        = some POLKIT_RESULT_UNKNOWN) := by
  unfold config_walk_order polkit_config_can_caller_do_action
    polkit_config_can_session_do_action
  cases pk_config.top_config_node with
  | none => exact ⟨fun _ => rfl, fun _ => rfl⟩
  | some top =>
    have e1 := config_node_test_trace_eq env action caller none hc top
    have e2 := config_node_test_trace_eq env action none session hs top
    have f1 := config_node_test_trace_fst env action caller none top
    have f2 := config_node_test_trace_fst env action none session top
    rw [e1] at f1
    rw [e2] at f2
    constructor
    · intro h
      simp only [] at h ⊢
      rw [← f1, first_definite_result_of_no_return _ h]
    · intro h
      simp only [] at h ⊢
      rw [← f2, first_definite_result_of_no_return _ h]

/-- An instance of `config_no_return_reached_unknown`: a return node below a match node
that does not match, and a configuration without top node. -/
theorem config_no_return_reached_unknown_witness :
    polkit_config_can_caller_do_action env_example ⟨some config_guarded_return⟩
        ⟨some "org.example.other"⟩ (some caller_example) = some POLKIT_RESULT_UNKNOWN ∧
    polkit_config_can_session_do_action env_example ⟨none⟩
        ⟨some "org.example.other"⟩ (some session_example) = some POLKIT_RESULT_UNKNOWN :=
  ⟨(config_no_return_reached_unknown env_example ⟨some config_guarded_return⟩
      ⟨some "org.example.other"⟩ (some caller_example) (some session_example)
      (by decide) (by decide)).1 (by decide),
   (config_no_return_reached_unknown env_example ⟨none⟩
      ⟨some "org.example.other"⟩ (some caller_example) (some session_example)
      (by decide) (by decide)).2 (by decide)⟩


/-! ### Lemmas on localisation -/

theorem lang_cut_encoding_eq (l : List Char) :
    lang_cut_encoding l = l.takeWhile (fun c => c ≠ '.') := by
  induction l with
  | nil => rfl
  | cons c rest ih =>
    by_cases hc : c = '.'
    · simp [lang_cut_encoding, hc]
    · simp [lang_cut_encoding, hc, ih]

theorem c_str_of_no_nul (l : List Char) (h : '\x00' ∉ l) : c_str l = l := by
  induction l with
  | nil => rfl
  | cons c rest ih =>
    have hc : c ≠ '\x00' := fun e => h (e ▸ List.mem_cons_self _ _)
    have hrest : '\x00' ∉ rest := fun m => h (List.mem_cons_of_mem _ m)
    have := ih hrest
    unfold c_str at this ⊢
    rw [List.takeWhile_cons, if_pos (by simpa using hc), this]

theorem strncpy_of_short (l : List Char) (n : Nat) (h : '\x00' ∉ l) (hlen : l.length < n) :
    strncpy l n = l ++ List.replicate (n - l.length) '\x00' := by
  unfold strncpy
  rw [c_str_of_no_nul l h, List.take_of_length_le (Nat.le_of_lt hlen)]

theorem _localize_cut_padded (l : List Char) (k : Nat) (h : '\x00' ∉ l) (hk : 0 < k) :
    ∃ buf, _localize_cut (l ++ List.replicate k '\x00') = some buf ∧
      c_str buf = l.takeWhile (fun c => c ≠ '_') := by
  induction l with
  | nil =>
    obtain ⟨k', rfl⟩ : ∃ k', k = k' + 1 := ⟨k - 1, by omega⟩
    refine ⟨'\x00' :: List.replicate k' '\x00', ?_, ?_⟩
    · simp [List.replicate_succ, _localize_cut]
    · simp [c_str]
  | cons c rest ih =>
    have hc : c ≠ '\x00' := fun e => h (e ▸ List.mem_cons_self _ _)
    have hrest : '\x00' ∉ rest := fun m => h (List.mem_cons_of_mem _ m)
    obtain ⟨buf, hbuf, hstr⟩ := ih hrest
    by_cases hu : c = '_'
    · refine ⟨'\x00' :: (rest ++ List.replicate k '\x00'), ?_, ?_⟩
      · simp [_localize_cut, hu]
      · simp [c_str, hu]
    · refine ⟨c :: buf, ?_, ?_⟩
      · simp [_localize_cut, hc, hu, hbuf]
      · unfold c_str at hstr ⊢
        rw [List.takeWhile_cons, if_pos (by simpa using hc), hstr,
          List.takeWhile_cons, if_pos (by simpa using hu)]

theorem not_mem_takeWhile_of_not_mem (l : List Char) (p : Char → Bool) (x : Char)
    (h : x ∉ l) : x ∉ l.takeWhile p :=
  fun m => h ((List.takeWhile_sublist p).subset m)


/-! ## Theorems: localisation -/

/-- C6: for every translation map, untagged value and value of `$LANG` (a C string whose
language tag, `$LANG` with everything from the first `'.'` removed, is shorter than 256
bytes), the text `_localize` chooses is the translation stored under the tag if there is
one, otherwise the translation stored under the tag truncated before its first `'_'` if
there is one, otherwise the untagged value; with no language set it is the untagged
value. -/
theorem localize_resolution (translations : KitHash) (untranslated : Option String)
    (LANG : Option String)
    (hnul : ∀ l, LANG = some l → '\x00' ∉ l.data)
    (hlen : ∀ l, LANG = some l → (lang_tag_spec l).data.length < 256) :
    _localize translations untranslated (policy_file_lang LANG)
      = some (localize_spec translations untranslated (LANG.map lang_tag_spec)) := by
  cases LANG with
  | none => rfl
  | some l =>
    have hn := hnul l rfl
    have hl := hlen l rfl
    have htag : String.mk (lang_cut_encoding l.data) = lang_tag_spec l := by
      unfold lang_tag_spec
      rw [lang_cut_encoding_eq]
    have hn' : '\x00' ∉ (lang_tag_spec l).data :=
      not_mem_takeWhile_of_not_mem l.data _ _ hn
    simp only [policy_file_lang, htag, Option.map_some', _localize, localize_spec]
    cases translations (lang_tag_spec l) with
    | some t => rfl
    | none =>
      rw [strncpy_of_short _ 256 hn' hl]
      obtain ⟨buf, hbuf, hstr⟩ := _localize_cut_padded (lang_tag_spec l).data
        (256 - (lang_tag_spec l).data.length) hn' (by omega)
      simp only [hbuf, hstr]
      cases translations (String.mk ((lang_tag_spec l).data.takeWhile (fun c => c ≠ '_'))) with
      | some t => rfl
      | none => rfl

theorem localize_resolution_witness :
    _localize translations_example (some "example") (policy_file_lang (some "da_DK.UTF8"))
        = some (some "example (danish)") ∧
    _localize translations_example (some "example") (policy_file_lang (some "da_DK"))
        = some (some "example (danish)") ∧
    _localize translations_example (some "example") (policy_file_lang (some "da"))
        = some (some "example (danish)") ∧
    _localize translations_example (some "example") (policy_file_lang (some "en_CA"))
        = some (some "example") ∧
    _localize translations_example (some "example") (policy_file_lang (some "fr"))
        = some (some "example") ∧
    _localize translations_example (some "example") (policy_file_lang none)
        = some (some "example") :=
  ⟨(localize_resolution translations_example (some "example") (some "da_DK.UTF8")
      (by intro l h; cases h; decide) (by intro l h; cases h; decide)).trans (by decide),
   (localize_resolution translations_example (some "example") (some "da_DK")
      (by intro l h; cases h; decide) (by intro l h; cases h; decide)).trans (by decide),
   (localize_resolution translations_example (some "example") (some "da")
      (by intro l h; cases h; decide) (by intro l h; cases h; decide)).trans (by decide),
   (localize_resolution translations_example (some "example") (some "en_CA")
      (by intro l h; cases h; decide) (by intro l h; cases h; decide)).trans (by decide),
   (localize_resolution translations_example (some "example") (some "fr")
      (by intro l h; cases h; decide) (by intro l h; cases h; decide)).trans (by decide),
   (localize_resolution translations_example (some "example") none
      (by intro l h; cases h) (by intro l h; cases h)).trans (by decide)⟩

/-! ### Lemmas on the session list -/

theorem _get_list_of_sessions_loop_well_typed (elems : List DBusArg) (ret : List String)
    (h : elems.all (fun a => a != .OTHER_TYPE) = true) :
    _get_list_of_sessions_loop ret elems = .list (ret ++ object_paths elems) := by
  induction elems generalizing ret with
  | nil => simp [_get_list_of_sessions_loop, object_paths]
  | cons a rest ih =>
    cases a with
    | DBUS_TYPE_OBJECT_PATH value =>
      have hrest : rest.all (fun a => a != .OTHER_TYPE) = true := by
        simpa using h
      simp [_get_list_of_sessions_loop, object_paths, ih _ hrest]
    | OTHER_TYPE => simp at h

theorem _get_list_of_sessions_well_typed (con : DBusConnection) (uid : Nat) (err : DBusError)
    (h : reply_well_typed (con.GetSessionsForUnixUser uid) = true) :
    (_get_list_of_sessions con uid err).1 = .list (known_sessions con uid) := by
  unfold _get_list_of_sessions known_sessions
  unfold reply_well_typed at h
  cases hr : con.GetSessionsForUnixUser uid with
  | failed => rfl
  | not_an_array => rfl
  | array elems =>
    rw [hr] at h
    simp [_get_list_of_sessions_loop_well_typed elems [] h]

/-! ## Theorems: relevance of an authorization -/

/-- C7: `polkit_is_authorization_relevant` (called with a connection, an authorization and
an unset error) returns TRUE exactly when the scope of the authorization is process or
process-one-shot and the current start time of its pid equals the recorded start time, or
its scope is session and its session object path is among the sessions currently known
for the uid of the authorization, or its scope is always; in every other case it returns
FALSE. (ConsoleKit's reply is assumed well-typed.) -/
theorem authorization_relevant_iff (start_time_for_pid : Int → Nat) (con : DBusConnection)
    (auth : PolKitAuthorization)
    (hreply : reply_well_typed (con.GetSessionsForUnixUser auth.uid) = true) :
    ∃ ret error_after,
      polkit_is_authorization_relevant start_time_for_pid (some con) (some auth)
          (some { is_set := false }) = some (ret, error_after) ∧
      (ret = true ↔ relevant_spec start_time_for_pid con auth) := by
  obtain ⟨uid, action_id, scope, granted_at, origin, constraints⟩ := auth
  unfold polkit_is_authorization_relevant _polkit_is_authorization_relevant_internal
    relevant_spec
  cases scope with
  | POLKIT_AUTHORIZATION_SCOPE_PROCESS_ONE_SHOT pid pid_start_time =>
    exact ⟨_, _, rfl, by simp; exact eq_comm⟩
  | POLKIT_AUTHORIZATION_SCOPE_PROCESS pid pid_start_time =>
    exact ⟨_, _, rfl, by simp; exact eq_comm⟩
  | POLKIT_AUTHORIZATION_SCOPE_SESSION ck_objref =>
    have hl := _get_list_of_sessions_well_typed con uid { is_set := false } hreply
    simp only [Bool.false_eq_true, if_false, if_true, hl]
    refine ⟨_, _, rfl, ?_⟩
    simp
  | POLKIT_AUTHORIZATION_SCOPE_ALWAYS =>
    exact ⟨true, _, rfl, by simp⟩

theorem authorization_relevant_iff_witness :
    ∃ ret error_after,
      polkit_is_authorization_relevant start_time_example (some con_example)
          (some auth_session_example) (some { is_set := false })
        = some (ret, error_after) ∧
      (ret = true ↔ relevant_spec start_time_example con_example auth_session_example) :=
  authorization_relevant_iff start_time_example con_example auth_session_example
    (by decide)

/-! ### Lemmas on the scan for an existing grant -/

theorem get?_append_at_length {α : Type} (pre rem : List α) :
    (pre ++ rem).get? pre.length = rem.head? := by
  induction pre with
  | nil => cases rem <;> rfl
  | cons x xs ih => simpa using ih

theorem constraints_foreach_for_grant (acs pre rem : List PolKitAuthorizationConstraint)
    (cd : CheckDataGrant) (hcs : cd.constraints = some (pre ++ rem))
    (hk : cd._check_constraint_num = pre.length) :
    ((∃ tail, rem = acs ++ tail) ∧
      polkit_authorization_constraints_foreach _check_constraints_for_grant acs cd
        = some (false, { cd with _check_constraint_num := pre.length + acs.length })) ∨
    ((¬ ∃ tail, rem = acs ++ tail) ∧
      ∃ cd', polkit_authorization_constraints_foreach _check_constraints_for_grant acs cd
          = some (true, cd') ∧
        cd'.constraints = cd.constraints ∧ cd'.action_id = cd.action_id ∧
        cd'.is_authorized = cd.is_authorized ∧
        cd'.is_negative_authorized = cd.is_negative_authorized) := by
  induction acs generalizing pre rem cd with
  | nil =>
    left
    refine ⟨⟨rem, rfl⟩, ?_⟩
    simp [polkit_authorization_constraints_foreach, ← hk]
  | cons a rest ih =>
    have hat : constraints_at cd.constraints cd._check_constraint_num = some rem.head? := by
      simp only [constraints_at, hcs, hk, List.length_append, Nat.le_add_right, if_true,
        get?_append_at_length]
    cases rem with
    | nil =>
      right
      refine ⟨by simp, cd, ?_, rfl, rfl, rfl, rfl⟩
      simp [polkit_authorization_constraints_foreach, _check_constraints_for_grant, hat]
    | cons c tl =>
      by_cases hac : a = c
      · subst hac
        have hstep : _check_constraints_for_grant a cd
            = some (false, { cd with _check_constraint_num := cd._check_constraint_num + 1 }) := by
          simp [_check_constraints_for_grant, hat, polkit_authorization_constraint_equal]
        have hcs' : ({ cd with _check_constraint_num := cd._check_constraint_num + 1 }
            : CheckDataGrant).constraints = some ((pre ++ [a]) ++ tl) := by
          simp [hcs]
        have hk' : ({ cd with _check_constraint_num := cd._check_constraint_num + 1 }
            : CheckDataGrant)._check_constraint_num = (pre ++ [a]).length := by
          simp [hk]
        rcases ih (pre ++ [a]) tl _ hcs' hk' with ⟨⟨tail, ht⟩, hrun⟩ | ⟨hno, cd', hrun, h1, h2, h3, h4⟩
        · left
          refine ⟨⟨tail, by simp [ht]⟩, ?_⟩
          simp only [polkit_authorization_constraints_foreach, hstep, hrun]
          simp [Nat.add_assoc, Nat.add_comm 1]
        · right
          refine ⟨?_, cd', ?_, h1, h2, h3, h4⟩
          · rintro ⟨tail, ht⟩
            exact hno ⟨tail, by simpa using ht⟩
          · simp only [polkit_authorization_constraints_foreach, hstep, hrun]
      · right
        refine ⟨?_, cd, ?_, rfl, rfl, rfl, rfl⟩
        · rintro ⟨tail, ht⟩
          simp at ht
          exact hac ht.1.symm
        · simp [polkit_authorization_constraints_foreach, _check_constraints_for_grant, hat,
            polkit_authorization_constraint_equal, hac]

theorem is_matching_grant_iff (action_id : String) (cs : List PolKitAuthorizationConstraint)
    (negative : Bool) (auth : PolKitAuthorization) :
    is_matching_grant action_id cs negative auth = true ↔
      auth.action_id = action_id ∧
        (∃ by_whom, polkit_authorization_was_granted_explicitly auth = some (by_whom, negative)) ∧
        auth.constraints = cs := by
  unfold is_matching_grant polkit_authorization_was_granted_explicitly
  cases auth.origin with
  | via_defaults auth_as => simp
  | explicitly granted_by is_negative => simp [and_assoc]

theorem check_auth_for_grant_spec (auth : PolKitAuthorization) (cd : CheckDataGrant)
    (cs : List PolKitAuthorizationConstraint) (hcs : cd.constraints = some cs) :
    ∃ stop cd', _check_auth_for_grant auth cd = some (stop, cd') ∧
      cd'.constraints = some cs ∧ cd'.action_id = cd.action_id ∧
      (is_matching_grant cd.action_id cs true auth = true →
        stop = true ∧ cd'.is_authorized = false ∧ cd'.is_negative_authorized = true) ∧
      (is_matching_grant cd.action_id cs false auth = true →
        stop = false ∧ cd'.is_authorized = true ∧ cd'.is_negative_authorized = false) ∧
      (is_matching_grant cd.action_id cs true auth = false →
        is_matching_grant cd.action_id cs false auth = false →
        stop = false ∧ cd'.is_authorized = cd.is_authorized ∧
          cd'.is_negative_authorized = cd.is_negative_authorized) := by
  unfold _check_auth_for_grant
  by_cases hact : auth.action_id = cd.action_id
  · cases hexp : polkit_authorization_was_granted_explicitly auth with
    | none =>
      refine ⟨false, cd, by simp [hact], hcs, rfl, ?_, ?_, ?_⟩
      · intro h; rw [is_matching_grant_iff] at h; simp [hexp] at h
      · intro h; rw [is_matching_grant_iff] at h; simp [hexp] at h
      · intro _ _; exact ⟨rfl, rfl, rfl⟩
    | some pr =>
      obtain ⟨by_whom, is_negative⟩ := pr
      have hA := constraints_foreach_for_grant auth.constraints [] cs
        { cd with _check_constraint_num := 0 } (by simpa using hcs) rfl
      rcases hA with ⟨⟨tail, ht⟩, hrun⟩ | ⟨hno, cd1, hrun, h1, h2, h3, h4⟩
      · simp only [List.length_nil, Nat.zero_add, hcs] at hrun
        have hat : constraints_at (some cs) (auth.constraints.length) = some tail.head? := by
          simp only [constraints_at, ht, List.length_append, Nat.le_add_right, if_true,
            get?_append_at_length]
        cases tail with
        | nil =>
          have hceq : auth.constraints = cs := by simp [ht]
          cases is_negative with
          | true =>
            let n := auth.constraints.length
            refine ⟨true,
              { cd with _check_constraint_num := n, is_authorized := false, is_negative_authorized := true },
              ?_, ?_, ?_, ?_, ?_, ?_⟩
            · simp [hact, hrun, hcs, hat]
            · simp [hcs]
            · rfl
            · intro _; exact ⟨rfl, rfl, rfl⟩
            · intro h; rw [is_matching_grant_iff] at h; simp [hexp] at h
            · intro h; rw [← Bool.not_eq_true, is_matching_grant_iff] at h
              exact absurd ⟨hact, ⟨by_whom, hexp⟩, hceq⟩ h
          | false =>
            let n := auth.constraints.length
            refine ⟨false,
              { cd with _check_constraint_num := n, is_authorized := true, is_negative_authorized := false },
              ?_, ?_, ?_, ?_, ?_, ?_⟩
            · simp [hact, hrun, hcs, hat]
            · simp [hcs]
            · rfl
            · intro h; rw [is_matching_grant_iff] at h; simp [hexp] at h
            · intro _; exact ⟨rfl, rfl, rfl⟩
            · intro _ h; rw [← Bool.not_eq_true, is_matching_grant_iff] at h
              exact absurd ⟨hact, ⟨by_whom, hexp⟩, hceq⟩ h
        | cons c tl =>
          have hne : auth.constraints ≠ cs := by
            intro e
            have := congrArg List.length ht
            rw [← e] at this
            simp at this
          refine ⟨false, { cd with _check_constraint_num := auth.constraints.length },
            ?_, ?_, ?_, ?_, ?_, ?_⟩
          · simp [hact, hrun, hcs, hat]
          · simp [hcs]
          · rfl
          · intro h; rw [is_matching_grant_iff] at h; exact absurd h.2.2 hne
          · intro h; rw [is_matching_grant_iff] at h; exact absurd h.2.2 hne
          · intro _ _; exact ⟨rfl, rfl, rfl⟩
      · have hne : auth.constraints ≠ cs := by
          intro e
          exact hno ⟨[], by simp [e]⟩
        simp only [hcs] at hrun
        refine ⟨false, cd1, ?_, ?_, ?_, ?_, ?_, ?_⟩
        · simp [hact, hrun, hcs]
        · rw [h1]; simpa using hcs
        · rw [h2]
        · intro h; rw [is_matching_grant_iff] at h; exact absurd h.2.2 hne
        · intro h; rw [is_matching_grant_iff] at h; exact absurd h.2.2 hne
        · intro _ _; exact ⟨rfl, by rw [h3], by rw [h4]⟩
  · refine ⟨false, cd, by simp [hact], hcs, rfl, ?_, ?_, ?_⟩
    · intro h; rw [is_matching_grant_iff] at h; exact absurd h.1 hact
    · intro h; rw [is_matching_grant_iff] at h; exact absurd h.1 hact
    · intro _ _; exact ⟨rfl, rfl, rfl⟩

theorem grant_scan_negative (auths : List PolKitAuthorization) (cd : CheckDataGrant)
    (cs : List PolKitAuthorizationConstraint) (hcs : cd.constraints = some cs)
    (h : ∃ a ∈ auths, is_matching_grant cd.action_id cs true a = true) :
    ∃ cd', grant_scan auths cd = some (true, cd') ∧
      cd'.is_authorized = false ∧ cd'.is_negative_authorized = true := by
  induction auths generalizing cd with
  | nil =>
    obtain ⟨a, ha, _⟩ := h
    exact absurd ha (List.not_mem_nil a)
  | cons a rest ih =>
    obtain ⟨stop, cd1, hrun, hc1, ha1, hneg, hpos, hnone⟩ := check_auth_for_grant_spec a cd cs hcs
    unfold grant_scan foreach_for_uid_loop
    rw [hrun]
    by_cases hm : is_matching_grant cd.action_id cs true a = true
    · obtain ⟨hstop, hf1, hf2⟩ := hneg hm
      subst hstop
      exact ⟨cd1, rfl, hf1, hf2⟩
    · have hm' : is_matching_grant cd.action_id cs true a = false := by simpa using hm
      have hstop : stop = false := by
        by_cases hp : is_matching_grant cd.action_id cs false a = true
        · exact (hpos hp).1
        · exact (hnone hm' (by simpa using hp)).1
      subst hstop
      have hrest : ∃ b ∈ rest, is_matching_grant cd1.action_id cs true b = true := by
        obtain ⟨b, hb, hbm⟩ := h
        rcases List.mem_cons.mp hb with e | hb'
        · subst e; exact absurd hbm hm
        · exact ⟨b, hb', by rw [ha1]; exact hbm⟩
      exact ih cd1 hc1 hrest

theorem grant_scan_no_negative (auths : List PolKitAuthorization) (cd : CheckDataGrant)
    (cs : List PolKitAuthorizationConstraint) (hcs : cd.constraints = some cs)
    (hno : ∀ a ∈ auths, is_matching_grant cd.action_id cs true a = false) :
    ∃ cd', grant_scan auths cd = some (false, cd') ∧ cd'.action_id = cd.action_id ∧
      (cd'.is_authorized = true ↔
        (cd.is_authorized = true ∨
          ∃ a ∈ auths, is_matching_grant cd.action_id cs false a = true)) := by
  induction auths generalizing cd with
  | nil => exact ⟨cd, rfl, rfl, by simp⟩
  | cons a rest ih =>
    obtain ⟨stop, cd1, hrun, hc1, ha1, hneg, hpos, hnone⟩ := check_auth_for_grant_spec a cd cs hcs
    have hm' : is_matching_grant cd.action_id cs true a = false :=
      hno a (List.mem_cons_self _ _)
    have hrest : ∀ b ∈ rest, is_matching_grant cd1.action_id cs true b = false := by
      intro b hb
      rw [ha1]
      exact hno b (List.mem_cons_of_mem _ hb)
    obtain ⟨cd2, hrun2, ha2, hiff⟩ := ih cd1 hc1 hrest
    unfold grant_scan at hrun2
    unfold grant_scan foreach_for_uid_loop
    rw [hrun]
    by_cases hp : is_matching_grant cd.action_id cs false a = true
    · obtain ⟨hstop, hf1, _⟩ := hpos hp
      subst hstop
      refine ⟨cd2, hrun2, by rw [ha2, ha1], ?_⟩
      rw [hiff, hf1]
      simp only [true_or, true_iff]
      exact Or.inr ⟨a, List.mem_cons_self _ _, hp⟩
    · obtain ⟨hstop, hf1, _⟩ := hnone hm' (by simpa using hp)
      subst hstop
      refine ⟨cd2, hrun2, by rw [ha2, ha1], ?_⟩
      rw [hiff, hf1, ha1]
      constructor
      · rintro (h | ⟨b, hb, hbm⟩)
        · exact Or.inl h
        · exact Or.inr ⟨b, List.mem_cons_of_mem _ hb, hbm⟩
      · rintro (h | ⟨b, hb, hbm⟩)
        · exact Or.inl h
        · rcases List.mem_cons.mp hb with e | hb'
          · subst e; exact absurd hbm hp
          · exact Or.inr ⟨b, hb', hbm⟩

theorem _grant_internal_did_exist (env : GrantEnv) (authdb : PolKitAuthorizationDB)
    (uid : Nat) (auths : List PolKitAuthorization) (action_id : String)
    (cs : List PolKitAuthorizationConstraint) (is_negative stop : Bool) (cd' : CheckDataGrant)
    (hstore : authdb.store uid = .entries auths)
    (hfit : 0 ≤ (_write_constraints env.codec (some cs)).1 ∧
      (_write_constraints env.codec (some cs)).1 < 1024)
    (hmem : env.mem.kit_new0_ok = true ∧ env.mem.kit_strdup_vprintf_ok = true)
    (hscan : grant_scan auths
        { action_id := action_id, _check_constraint_num := 0, constraints := some cs,
          is_authorized := false, is_negative_authorized := false } = some (stop, cd'))
    (hflag : (if is_negative then cd'.is_negative_authorized else cd'.is_authorized) = true) :
    ∃ msg, _grant_internal env (some authdb) (some ⟨some action_id⟩) uid (some cs) (some none)
        is_negative
      = some { ret := false, helper_argv := none,
               error := some (some ⟨false, POLKIT_ERROR_AUTHORIZATION_ALREADY_EXISTS, msg⟩) } := by
  unfold grant_scan at hscan
  have h1 : ¬ ((_write_constraints env.codec (some cs)).1 = -1) := by omega
  have h2 : ¬ ((_write_constraints env.codec (some cs)).1 < 0 ∨
      (_write_constraints env.codec (some cs)).1 ≥ 1024) := by omega
  refine ⟨already_exists_message uid cd'.action_id (_write_constraints env.codec (some cs)).2, ?_⟩
  unfold _grant_internal
  simp only [h1, h2, if_false, polkit_authorization_db_foreach_for_uid, hstore, hscan,
    polkit_error_is_set, Option.isSome_none, Bool.false_eq_true, hflag, if_true,
    polkit_error_set_error, hmem.1, hmem.2, not_true_eq_false]
  simp [POLKIT_ERROR_AUTHORIZATION_ALREADY_EXISTS, POLKIT_ERROR_NUM_ERROR_CODES]

/-! ## Theorems: the scan for an existing grant -/

/-- When the request carries a constraint array: in the scan that `_grant_internal` runs
over the stored entries of a user (`_check_auth_for_grant` called on each entry in file
order until it asks to stop), if the store contains at least one explicit negative grant
matching the requested action and constraint list, the scan ends with
`is_negative_authorized = true` and `is_authorized = false`, whatever positive grants for
the same tuple exist and wherever they occur in the file. -/
theorem negative_grant_overrides (mem : ErrorAlloc) (authdb : PolKitAuthorizationDB)
    (uid : Nat) (auths : List PolKitAuthorization) (action_id : String)
    (cs : List PolKitAuthorizationConstraint) (error : Option (Option PolKitError))
    (hstore : authdb.store uid = .entries auths)
    (h : ∃ a ∈ auths, is_matching_grant action_id cs true a = true) :
    ∃ cd', polkit_authorization_db_foreach_for_uid mem authdb uid _check_auth_for_grant
        { action_id := action_id, _check_constraint_num := 0, constraints := some cs,
          is_authorized := false, is_negative_authorized := false } error
        = some (true, cd', error) ∧
      cd'.is_negative_authorized = true ∧ cd'.is_authorized = false := by
  obtain ⟨cd', hrun, h1, h2⟩ := grant_scan_negative auths
    { action_id := action_id, _check_constraint_num := 0, constraints := some cs,
      is_authorized := false, is_negative_authorized := false } cs rfl h
  unfold grant_scan at hrun
  refine ⟨cd', ?_, h2, h1⟩
  unfold polkit_authorization_db_foreach_for_uid
  rw [hstore]
  simp only [hrun]

/-- An instance of `negative_grant_overrides`: the store of uid 500 and the request for
`org.foo.bar` with the constraint `local`. -/
theorem negative_grant_overrides_witness :
    ∃ cd', polkit_authorization_db_foreach_for_uid grant_env_example.mem authdb_example 500
        _check_auth_for_grant
        { action_id := "org.foo.bar", _check_constraint_num := 0,
          constraints := some [.REQUIRE_LOCAL],
          is_authorized := false, is_negative_authorized := false } (some none)
        = some (true, cd', some none) ∧
      cd'.is_negative_authorized = true ∧ cd'.is_authorized = false :=
  negative_grant_overrides grant_env_example.mem authdb_example 500 auths_example
    "org.foo.bar" [.REQUIRE_LOCAL] (some none) (by decide) (by decide)

/-- C10 (as stated, refuted): the store of uid 500 holds an explicit positive grant for
`org.foo.bar` with the constraint list `[local]`, and an explicit negative grant for the
same tuple after it; `polkit_authorization_db_grant_to_uid` for that tuple does not fail
with `AuthorizationAlreadyExists`: it runs the helper and returns TRUE. -/
theorem grant_to_uid_duplicate_counterexample :
    (∃ a ∈ auths_example, is_matching_grant "org.foo.bar" [.REQUIRE_LOCAL] false a = true) ∧
    authdb_example.store 500 = .entries auths_example ∧
    polkit_authorization_db_grant_to_uid grant_env_example (some authdb_example)
        (some ⟨some "org.foo.bar"⟩) 500 (some [.REQUIRE_LOCAL]) (some none)
      = some { ret := true, error := some none,
               helper_argv := some [ "/usr/libexec/polkit-explicit-grant-helper",
                 "org.foo.bar", ":constraint=local", "uid", "500" ] } := by
  decide

/-- C10 (amended): with a constraint list that fits the 1024-byte buffer, a readable
store, an unset error location and the error object allocated:
`polkit_authorization_db_grant_negative_to_uid` fails with error
`AuthorizationAlreadyExists`, without running the grant helper, whenever the store of the
target user holds an explicit negative grant for the same action with an identical
constraint list; `polkit_authorization_db_grant_to_uid` does so whenever the store holds
such a positive grant and no such negative grant. -/
theorem grant_already_exists (env : GrantEnv) (authdb : PolKitAuthorizationDB) (uid : Nat)
    (auths : List PolKitAuthorization) (action_id : String)
    (cs : List PolKitAuthorizationConstraint)
    (hstore : authdb.store uid = .entries auths)
    (hfit : 0 ≤ (_write_constraints env.codec (some cs)).1 ∧
      (_write_constraints env.codec (some cs)).1 < 1024)
    (hmem : env.mem.kit_new0_ok = true ∧ env.mem.kit_strdup_vprintf_ok = true) :
    ((∃ a ∈ auths, is_matching_grant action_id cs true a = true) →
      ∃ msg, polkit_authorization_db_grant_negative_to_uid env (some authdb)
          (some ⟨some action_id⟩) uid (some cs) (some none)
        = some { ret := false, helper_argv := none,
                 error := some (some ⟨false, POLKIT_ERROR_AUTHORIZATION_ALREADY_EXISTS, msg⟩) }) ∧
    ((∃ a ∈ auths, is_matching_grant action_id cs false a = true) →
      (∀ a ∈ auths, is_matching_grant action_id cs true a = false) →
      ∃ msg, polkit_authorization_db_grant_to_uid env (some authdb)
          (some ⟨some action_id⟩) uid (some cs) (some none)
        = some { ret := false, helper_argv := none,
                 error := some (some ⟨false, POLKIT_ERROR_AUTHORIZATION_ALREADY_EXISTS, msg⟩) }) := by
  constructor
  · intro hneg
    obtain ⟨cd', hscan, _, hf⟩ := grant_scan_negative auths
      { action_id := action_id, _check_constraint_num := 0, constraints := some cs,
        is_authorized := false, is_negative_authorized := false } cs rfl hneg
    exact _grant_internal_did_exist env authdb uid auths action_id cs true true cd'
      hstore hfit hmem hscan (by simpa using hf)
  · intro hpos hno
    obtain ⟨cd', hscan, _, hiff⟩ := grant_scan_no_negative auths
      { action_id := action_id, _check_constraint_num := 0, constraints := some cs,
        is_authorized := false, is_negative_authorized := false } cs rfl hno
    exact _grant_internal_did_exist env authdb uid auths action_id cs false false cd'
      hstore hfit hmem hscan (by simpa using hiff.mpr (Or.inr hpos))

theorem grant_already_exists_witness :
    (∃ msg, polkit_authorization_db_grant_negative_to_uid grant_env_example
        (some authdb_example) (some ⟨some "org.foo.bar"⟩) 500 (some [.REQUIRE_LOCAL])
        (some none)
      = some { ret := false, helper_argv := none,
               error := some (some ⟨false, POLKIT_ERROR_AUTHORIZATION_ALREADY_EXISTS, msg⟩) }) ∧
    (∃ msg, polkit_authorization_db_grant_to_uid grant_env_example
        (some authdb_positive_example) (some ⟨some "org.foo.bar"⟩) 501
        (some [.REQUIRE_LOCAL]) (some none)
      = some { ret := false, helper_argv := none,
               error := some (some ⟨false, POLKIT_ERROR_AUTHORIZATION_ALREADY_EXISTS, msg⟩) }) :=
  ⟨(grant_already_exists grant_env_example authdb_example 500 auths_example "org.foo.bar"
      [.REQUIRE_LOCAL] (by decide) (by decide) (by decide)).1 (by decide),
   (grant_already_exists grant_env_example authdb_positive_example 501
      auths_positive_example "org.foo.bar" [.REQUIRE_LOCAL] (by decide) (by decide)
      (by decide)).2 (by decide) (by decide)⟩

/-! ### Lemmas on writing the store -/

theorem fs_set_same (fs : FileSystem) (path : String) (file : Option File) :
    fs_set fs path file path = file := by
  simp [fs_set]

theorem fs_set_other (fs : FileSystem) (path p : String) (file : Option File) (h : p ≠ path) :
    fs_set fs path file p = fs p := by
  simp [fs_set, h]

theorem write_at_end (fs : FileSystem) (fd : String) (f : File) (data : List Char)
    (hf : fs fd = some f) :
    write_at fs fd f.contents.length data fd
        = some { f with contents := f.contents ++ data } ∧
      ∀ p, p ≠ fd → write_at fs fd f.contents.length data p = fs p := by
  unfold write_at
  rw [hf]
  constructor
  · simp [fs_set]
  · intro p hp
    simp [fs_set, hp]

theorem _write_to_fd_loop_ok (fd : String) (writes : List WriteOutcome) :
    ∀ (fs : FileSystem) (f : File) (data : List Char) (trace : List Syscall) (st : WriteState),
      fs fd = some f →
      _write_to_fd_loop fd writes fs f.contents.length data trace = some (true, st) →
      st.fs fd = some { f with contents := f.contents ++ data } ∧
        (∀ p, p ≠ fd → st.fs p = fs p) ∧
        st.offset = f.contents.length + data.length ∧
        ∃ ws, st.trace = trace ++ ws ∧ ∀ e ∈ ws, ∃ n, e = Syscall.write fd n := by
  induction writes with
  | nil =>
    intro fs f data trace st hf h
    cases data with
    | nil =>
      simp only [_write_to_fd_loop, Option.some.injEq, Prod.mk.injEq, true_and] at h
      subst h
      exact ⟨by simpa using hf, fun _ _ => rfl, by simp, [], by simp, by simp⟩
    | cons b bs => simp [_write_to_fd_loop] at h
  | cons w writes ih =>
    intro fs f data trace st hf h
    cases data with
    | nil =>
      simp only [_write_to_fd_loop, Option.some.injEq, Prod.mk.injEq, true_and] at h
      subst h
      exact ⟨by simpa using hf, fun _ _ => rfl, by simp, [], by simp, by simp⟩
    | cons b bs =>
      cases w with
      | again =>
        simp only [_write_to_fd_loop] at h
        obtain ⟨h1, h2, h3, ws, h4, h5⟩ := ih fs f (b :: bs) _ st hf h
        refine ⟨h1, h2, h3, Syscall.write fd (b :: bs).length :: ws, ?_, ?_⟩
        · rw [h4]; simp
        · intro e he
          rcases List.mem_cons.mp he with rfl | he'
          · exact ⟨_, rfl⟩
          · exact h5 e he'
      | error => simp [_write_to_fd_loop] at h
      | wrote n =>
        simp only [_write_to_fd_loop] at h
        obtain ⟨hw1, hw2⟩ := write_at_end fs fd f ((b :: bs).take n) hf
        have hlen : ({ f with contents := f.contents ++ (b :: bs).take n } : File).contents.length
            = f.contents.length + ((b :: bs).take n).length := by
          simp
        rw [← hlen] at h
        obtain ⟨h1, h2, h3, ws, h4, h5⟩ := ih _ _ ((b :: bs).drop n) _ st hw1 h
        refine ⟨?_, ?_, ?_, Syscall.write fd (b :: bs).length :: ws, ?_, ?_⟩
        · rw [h1]
          simp only [List.append_assoc, List.take_append_drop]
        · intro p hp
          rw [h2 p hp, hw2 p hp]
        · rw [h3, hlen, Nat.add_assoc, ← List.length_append, List.take_append_drop]
        · rw [h4]; simp
        · intro e he
          rcases List.mem_cons.mp he with rfl | he'
          · exact ⟨_, rfl⟩
          · exact h5 e he'

theorem _write_to_fd_ok (fd : String) (st st' : WriteState) (f : File) (data : List Char)
    (hf : st.fs fd = some f) (hoff : st.offset = f.contents.length)
    (h : _write_to_fd fd st data = some (true, st')) :
    st'.fs fd = some { f with contents := f.contents ++ data } ∧
      (∀ p, p ≠ fd → st'.fs p = st.fs p) ∧
      st'.offset = f.contents.length + data.length ∧
      ∃ ws, st'.trace = st.trace ++ ws ∧ ∀ e ∈ ws, ∃ n, e = Syscall.write fd n := by
  unfold _write_to_fd at h
  rw [hoff] at h
  exact _write_to_fd_loop_ok fd st.writes st.fs f data st.trace st' hf h

theorem auth_file_write_out_ok (env : AuthFileEnv) (path : Option String) (path_tmp : String)
    (contents : List Char) (str_to_add : String) (st : WriteState) (f : File)
    (r : Bool × FileSystem × List Syscall)
    (hf : st.fs path_tmp = some f) (hoff : st.offset = f.contents.length)
    (hne : ∀ target, path = some target → target ≠ path_tmp)
    (h : auth_file_write_out env path path_tmp contents str_to_add st = some r)
    (hret : r.1 = true) :
    ∃ ws, (∀ e ∈ ws, ∃ n, e = Syscall.write path_tmp n) ∧
      r.2.2 = st.trace ++ ws ++
        (match path with
         | some target =>
           [Syscall.close path_tmp, Syscall.rename path_tmp target,
            Syscall.utimes (reload_file env)]
         | none => [Syscall.close path_tmp, Syscall.utimes (reload_file env)]) ∧
      r.2.1 (path.getD path_tmp)
        = some { f with contents :=
            f.contents ++ (contents ++ c_str str_to_add.data ++ ['\n']) } := by
  unfold auth_file_write_out at h
  cases h1 : _write_to_fd path_tmp st contents with
  | none => rw [h1] at h; simp at h
  | some p1 =>
    obtain ⟨b1, st1⟩ := p1
    cases b1 with
    | false =>
      rw [h1] at h
      simp only [Option.some.injEq] at h
      rw [← h] at hret
      simp [auth_file_write_failed] at hret
    | true =>
      rw [h1] at h
      simp only [] at h
      obtain ⟨a1, a2, a3, ws1, a4, a5⟩ := _write_to_fd_ok path_tmp st st1 f contents hf hoff h1
      cases h2 : _write_to_fd path_tmp st1 (c_str str_to_add.data) with
      | none => rw [h2] at h; simp at h
      | some p2 =>
        obtain ⟨b2, st2⟩ := p2
        cases b2 with
        | false =>
          rw [h2] at h
          simp only [Option.some.injEq] at h
          rw [← h] at hret
          simp [auth_file_write_failed] at hret
        | true =>
          rw [h2] at h
          simp only [] at h
          obtain ⟨c1, c2, c3, ws2, c4, c5⟩ := _write_to_fd_ok path_tmp st1 st2 _
            (c_str str_to_add.data) a1 (by rw [a3]; simp) h2
          cases h3 : _write_to_fd path_tmp st2 ['\n'] with
          | none => rw [h3] at h; simp at h
          | some p3 =>
            obtain ⟨b3, st3⟩ := p3
            cases b3 with
            | false =>
              rw [h3] at h
              simp only [Option.some.injEq] at h
              rw [← h] at hret
              simp [auth_file_write_failed] at hret
            | true =>
              rw [h3] at h
              simp only [] at h
              obtain ⟨d1, d2, d3, ws3, d4, d5⟩ := _write_to_fd_ok path_tmp st2 st3 _
                ['\n'] c1 (by rw [c3]; simp [Nat.add_assoc]) h3
              have hws : ∀ e ∈ ws1 ++ ws2 ++ ws3, ∃ n, e = Syscall.write path_tmp n := by
                intro e he
                simp only [List.mem_append] at he
                rcases he with (he | he) | he
                · exact a5 e he
                · exact c5 e he
                · exact d5 e he
              have htr : st3.trace = st.trace ++ (ws1 ++ ws2 ++ ws3) := by
                rw [d4, c4, a4]; simp
              cases path with
              | none =>
                simp only [Option.some.injEq] at h
                subst h
                refine ⟨ws1 ++ ws2 ++ ws3, hws, ?_, ?_⟩
                · simp [htr]
                · simp [d1]
              | some target =>
                have hne' := hne target rfl
                simp only [] at h
                by_cases hren : env.rename_ok = true
                · rw [if_neg (not_not.mpr hren)] at h
                  simp only [Option.some.injEq] at h
                  subst h
                  refine ⟨ws1 ++ ws2 ++ ws3, hws, ?_, ?_⟩
                  · simp [htr]
                  · simp [fs_set, hne', d1]
                · rw [if_pos hren] at h
                  simp only [Option.some.injEq] at h
                  rw [← h] at hret
                  simp at hret

theorem auth_file_add_created (env : AuthFileEnv) (fs : FileSystem) (transient : Bool)
    (uid : Nat) (str_to_add pw_name : String) (r : Bool × FileSystem × List Syscall)
    (hpw : env.getpwuid uid = some pw_name)
    (habsent : fs (auth_file_path env transient pw_name) = none)
    (h : _polkit_authorization_db_auth_file_add env fs transient uid str_to_add = some r)
    (hret : r.1 = true) :
    ∃ ws, (∀ e ∈ ws, ∃ n, e = Syscall.write (auth_file_path env transient pw_name) n) ∧
      r.2.2 = [Syscall.stat (auth_file_path env transient pw_name),
          Syscall.open_rdwr_creat (auth_file_path env transient pw_name) 0o464] ++ ws ++
        [Syscall.close (auth_file_path env transient pw_name),
          Syscall.utimes (reload_file env)] ∧
      file_contents r.2.1 (auth_file_path env transient pw_name)
        = some ((auth_file_blurb transient pw_name).data ++ c_str str_to_add.data ++ ['\n']) := by
  unfold _polkit_authorization_db_auth_file_add at h
  simp only [hpw, habsent] at h
  by_cases hopen : env.open_ok = true
  · rw [if_neg (not_not.mpr hopen)] at h
    obtain ⟨ws, h1, h2, h3⟩ := auth_file_write_out_ok env none
      (auth_file_path env transient pw_name) _ str_to_add _
      { contents := [], mode := 0o464 } r (by simp [fs_set]) rfl
      (by intro t ht; cases ht) h hret
    refine ⟨ws, h1, ?_, ?_⟩
    · simpa using h2
    · simp only [Option.getD_none] at h3
      simp [file_contents, h3]
  · rw [if_pos hopen] at h
    simp only [Option.some.injEq] at h
    rw [← h] at hret
    simp at hret

theorem auth_file_add_replaced (env : AuthFileEnv) (fs : FileSystem) (transient : Bool)
    (uid : Nat) (str_to_add pw_name : String) (file : File)
    (r : Bool × FileSystem × List Syscall)
    (hpw : env.getpwuid uid = some pw_name)
    (hpresent : fs (auth_file_path env transient pw_name) = some file)
    (h : _polkit_authorization_db_auth_file_add env fs transient uid str_to_add = some r)
    (hret : r.1 = true) :
    ∃ suffix ws, env.mkstemp_suffix = some suffix ∧
      fs (auth_file_path env transient pw_name ++ "." ++ suffix) = none ∧
      (∀ e ∈ ws, ∃ n,
        e = Syscall.write (auth_file_path env transient pw_name ++ "." ++ suffix) n) ∧
      r.2.2 = [Syscall.stat (auth_file_path env transient pw_name),
          Syscall.g_file_get_contents (auth_file_path env transient pw_name),
          Syscall.mkstemp (auth_file_path env transient pw_name ++ ".XXXXXX")
            (some (auth_file_path env transient pw_name ++ "." ++ suffix)),
          Syscall.fchmod (auth_file_path env transient pw_name ++ "." ++ suffix) 0o464] ++
        ws ++
        [Syscall.close (auth_file_path env transient pw_name ++ "." ++ suffix),
          Syscall.rename (auth_file_path env transient pw_name ++ "." ++ suffix)
            (auth_file_path env transient pw_name),
          Syscall.utimes (reload_file env)] ∧
      file_contents r.2.1 (auth_file_path env transient pw_name)
        = some (file.contents ++ c_str str_to_add.data ++ ['\n']) := by
  unfold _polkit_authorization_db_auth_file_add at h
  simp only [hpw, hpresent] at h
  by_cases hread : env.g_file_get_contents_ok = true
  · rw [if_neg (not_not.mpr hread)] at h
    cases hsuf : env.mkstemp_suffix with
    | none =>
      simp only [hsuf, Option.some.injEq] at h
      rw [← h] at hret
      simp at hret
    | some suffix =>
      simp only [hsuf] at h
      cases htmp : fs (auth_file_path env transient pw_name ++ "." ++ suffix) with
      | some g =>
        simp only [htmp, Option.some.injEq] at h
        rw [← h] at hret
        simp at hret
      | none =>
        simp only [htmp] at h
        have hne : auth_file_path env transient pw_name
            ≠ auth_file_path env transient pw_name ++ "." ++ suffix := by
          intro e
          rw [← e, hpresent] at htmp
          cases htmp
        by_cases hch : env.fchmod_ok = true
        · rw [if_neg (not_not.mpr hch)] at h
          obtain ⟨ws, h1, h2, h3⟩ := auth_file_write_out_ok env
            (some (auth_file_path env transient pw_name))
            (auth_file_path env transient pw_name ++ "." ++ suffix) _ str_to_add _
            { contents := [], mode := 0o464 } r (by simp [fs_set]) rfl
            (by intro t ht; cases ht; exact hne) h hret
          refine ⟨suffix, ws, rfl, htmp, h1, ?_, ?_⟩
          · simpa using h2
          · simp only [Option.getD_some] at h3
            simp [file_contents, h3]
        · rw [if_pos hch] at h
          simp only [Option.some.injEq] at h
          rw [← h] at hret
          simp at hret
  · rw [if_pos hread] at h
    simp only [Option.some.injEq] at h
    rw [← h] at hret
    simp at hret

theorem auth_file_add_user (env : AuthFileEnv) (fs : FileSystem) (transient : Bool)
    (uid : Nat) (str_to_add : String) (r : Bool × FileSystem × List Syscall)
    (h : _polkit_authorization_db_auth_file_add env fs transient uid str_to_add = some r)
    (hret : r.1 = true) : ∃ pw_name, env.getpwuid uid = some pw_name := by
  unfold _polkit_authorization_db_auth_file_add at h
  cases hpw : env.getpwuid uid with
  | none =>
    simp only [hpw, Option.some.injEq] at h
    rw [← h] at hret
    simp at hret
  | some pw_name => exact ⟨pw_name, rfl⟩

theorem success_result (x : Option (Bool × FileSystem × List Syscall))
    (h : x.map (fun r => r.1) = some true) : ∃ r, x = some r ∧ r.1 = true := by
  cases x with
  | none => simp at h
  | some r => exact ⟨r, rfl, by simpa using h⟩

theorem no_touch_of_writes_elsewhere (target tmp : String) (ws : List Syscall)
    (hne : tmp ≠ target) (hws : ∀ e ∈ ws, ∃ n, e = Syscall.write tmp n) :
    ws.any (touches_for_writing target) = false ∧ ws.any (renames_onto target) = false := by
  constructor
  · rw [List.any_eq_false]
    intro e he
    obtain ⟨n, rfl⟩ := hws e he
    simp [touches_for_writing, hne]
  · rw [List.any_eq_false]
    intro e he
    obtain ⟨n, rfl⟩ := hws e he
    simp [renames_onto]

/-! ## Theorems: appending to the store of a user -/

/-- C8 (as stated, refuted): when the store file of the user does not exist yet, a
successful `_polkit_authorization_db_auth_file_add` creates no temporary file and renames
nothing: it opens the target path itself with `O_RDWR|O_CREAT` and writes the blurb, the
line and the newline directly into it. -/
theorem auth_file_add_in_place_counterexample :
    fs_empty "/var/lib/PolicyKit/user-joe.auths" = none ∧
    (_polkit_authorization_db_auth_file_add auth_file_env_example fs_empty false 500
        "scope=grant:action-id=org.foo.bar:when=2:granted-by=0").map
        (fun r => (r.1, r.2.2))
      = some (true, [.stat "/var/lib/PolicyKit/user-joe.auths",
          .open_rdwr_creat "/var/lib/PolicyKit/user-joe.auths" 0o464,
          .write "/var/lib/PolicyKit/user-joe.auths" 162,
          .write "/var/lib/PolicyKit/user-joe.auths" 152,
          .write "/var/lib/PolicyKit/user-joe.auths" 152,
          .write "/var/lib/PolicyKit/user-joe.auths" 53,
          .write "/var/lib/PolicyKit/user-joe.auths" 1,
          .close "/var/lib/PolicyKit/user-joe.auths",
          .utimes "/var/lib/misc/PolicyKit.reload"]) ∧
    (_polkit_authorization_db_auth_file_add auth_file_env_example fs_empty false 500
        "scope=grant:action-id=org.foo.bar:when=2:granted-by=0").map
        (fun r => replaces_atomically "/var/lib/PolicyKit/user-joe.auths" r.2.2)
      = some false := by
  set_option maxRecDepth 100000 in decide

/-- C8 (amended): every successful `_polkit_authorization_db_auth_file_add` on a store
file that existed before the call replaces it atomically: the new contents are written to
a freshly created sibling temporary file `user-<name>.auths.<suffix>`, which is then
renamed over `user-<name>.auths`, and the target path itself is never opened for writing.
When the store file did not exist before the call, the target path itself is opened with
`O_RDWR|O_CREAT` and written in place, with no temporary file and no rename. -/
theorem auth_file_add_replacement (env : AuthFileEnv) (fs : FileSystem) (transient : Bool)
    (uid : Nat) (str_to_add : String)
    (hret : (_polkit_authorization_db_auth_file_add env fs transient uid str_to_add).map
      (fun r => r.1) = some true) :
    ∃ pw_name r, env.getpwuid uid = some pw_name ∧
      _polkit_authorization_db_auth_file_add env fs transient uid str_to_add = some r ∧
      (fs (auth_file_path env transient pw_name) ≠ none →
        replaces_atomically (auth_file_path env transient pw_name) r.2.2 = true ∧
        ∃ suffix ws, env.mkstemp_suffix = some suffix ∧
          fs (auth_file_path env transient pw_name ++ "." ++ suffix) = none ∧
          (∀ e ∈ ws, ∃ n,
            e = Syscall.write (auth_file_path env transient pw_name ++ "." ++ suffix) n) ∧
          r.2.2 = [Syscall.stat (auth_file_path env transient pw_name),
              Syscall.g_file_get_contents (auth_file_path env transient pw_name),
              Syscall.mkstemp (auth_file_path env transient pw_name ++ ".XXXXXX")
                (some (auth_file_path env transient pw_name ++ "." ++ suffix)),
              Syscall.fchmod (auth_file_path env transient pw_name ++ "." ++ suffix) 0o464] ++
            ws ++
            [Syscall.close (auth_file_path env transient pw_name ++ "." ++ suffix),
              Syscall.rename (auth_file_path env transient pw_name ++ "." ++ suffix)
                (auth_file_path env transient pw_name),
              Syscall.utimes (reload_file env)]) ∧
      (fs (auth_file_path env transient pw_name) = none →
        replaces_atomically (auth_file_path env transient pw_name) r.2.2 = false ∧
        ∃ ws, (∀ e ∈ ws, ∃ n, e = Syscall.write (auth_file_path env transient pw_name) n) ∧
          r.2.2 = [Syscall.stat (auth_file_path env transient pw_name),
              Syscall.open_rdwr_creat (auth_file_path env transient pw_name) 0o464] ++ ws ++
            [Syscall.close (auth_file_path env transient pw_name),
              Syscall.utimes (reload_file env)]) := by
  obtain ⟨r, hr, hr1⟩ := success_result _ hret
  obtain ⟨pw_name, hpw⟩ := auth_file_add_user env fs transient uid str_to_add r hr hr1
  refine ⟨pw_name, r, hpw, hr, ?_, ?_⟩
  · intro hpresent
    cases hfile : fs (auth_file_path env transient pw_name) with
    | none => exact absurd hfile hpresent
    | some file =>
      obtain ⟨suffix, ws, h1, h2, h3, h4, _⟩ :=
        auth_file_add_replaced env fs transient uid str_to_add pw_name file r hpw hfile hr hr1
      have hne : auth_file_path env transient pw_name ++ "." ++ suffix
          ≠ auth_file_path env transient pw_name := by
        intro e
        rw [e, hfile] at h2
        cases h2
      obtain ⟨n1, n2⟩ := no_touch_of_writes_elsewhere _ _ ws hne h3
      refine ⟨?_, suffix, ws, h1, h2, h3, h4⟩
      rw [h4]
      simp [replaces_atomically, List.any_append, n1, n2, touches_for_writing, renames_onto]
  · intro habsent
    obtain ⟨ws, h1, h2, _⟩ :=
      auth_file_add_created env fs transient uid str_to_add pw_name r hpw habsent hr hr1
    refine ⟨?_, ws, h1, h2⟩
    rw [h2]
    simp [replaces_atomically, List.any_append, touches_for_writing, renames_onto]

set_option maxRecDepth 100000 in
theorem auth_file_add_replacement_witness :
    ∃ pw_name r, auth_file_env_example.getpwuid 500 = some pw_name ∧
      _polkit_authorization_db_auth_file_add auth_file_env_example fs_with_store false 500
          "scope=grant:action-id=org.foo.bar:when=2:granted-by=0" = some r ∧
      (fs_with_store (auth_file_path auth_file_env_example false pw_name) ≠ none →
        replaces_atomically (auth_file_path auth_file_env_example false pw_name) r.2.2 = true ∧
        ∃ suffix ws, auth_file_env_example.mkstemp_suffix = some suffix ∧
          fs_with_store (auth_file_path auth_file_env_example false pw_name ++ "." ++ suffix) = none ∧
          (∀ e ∈ ws, ∃ n,
            e = Syscall.write (auth_file_path auth_file_env_example false pw_name ++ "." ++ suffix) n) ∧
          r.2.2 = [Syscall.stat (auth_file_path auth_file_env_example false pw_name),
              Syscall.g_file_get_contents (auth_file_path auth_file_env_example false pw_name),
              Syscall.mkstemp (auth_file_path auth_file_env_example false pw_name ++ ".XXXXXX")
                (some (auth_file_path auth_file_env_example false pw_name ++ "." ++ suffix)),
              Syscall.fchmod (auth_file_path auth_file_env_example false pw_name ++ "." ++ suffix) 0o464] ++
            ws ++
            [Syscall.close (auth_file_path auth_file_env_example false pw_name ++ "." ++ suffix),
              Syscall.rename (auth_file_path auth_file_env_example false pw_name ++ "." ++ suffix)
                (auth_file_path auth_file_env_example false pw_name),
              Syscall.utimes (reload_file auth_file_env_example)]) ∧
      (fs_with_store (auth_file_path auth_file_env_example false pw_name) = none →
        replaces_atomically (auth_file_path auth_file_env_example false pw_name) r.2.2 = false ∧
        ∃ ws, (∀ e ∈ ws, ∃ n, e = Syscall.write (auth_file_path auth_file_env_example false pw_name) n) ∧
          r.2.2 = [Syscall.stat (auth_file_path auth_file_env_example false pw_name),
              Syscall.open_rdwr_creat (auth_file_path auth_file_env_example false pw_name) 0o464] ++ ws ++
            [Syscall.close (auth_file_path auth_file_env_example false pw_name),
              Syscall.utimes (reload_file auth_file_env_example)]) :=
  auth_file_add_replacement auth_file_env_example fs_with_store false 500
    "scope=grant:action-id=org.foo.bar:when=2:granted-by=0" (by decide)

/-- C9: when `_polkit_authorization_db_auth_file_add (transient, uid, line)` succeeds,
the store file of the user equals its previous contents (or, when the file did not
exist, the synthesised comment header) followed by the bytes of `line` and exactly one
newline; every previously stored byte is preserved in order and nothing else is added. -/
theorem auth_file_add_appends (env : AuthFileEnv) (fs : FileSystem) (transient : Bool)
    (uid : Nat) (str_to_add : String)
    (hret : (_polkit_authorization_db_auth_file_add env fs transient uid str_to_add).map
      (fun r => r.1) = some true) :
    ∃ pw_name, env.getpwuid uid = some pw_name ∧
      (_polkit_authorization_db_auth_file_add env fs transient uid str_to_add).bind
          (fun r => file_contents r.2.1 (auth_file_path env transient pw_name))
        = some ((file_contents fs (auth_file_path env transient pw_name)).getD
              (auth_file_blurb transient pw_name).data
            ++ c_str str_to_add.data ++ ['\n']) := by
  obtain ⟨r, hr, hr1⟩ := success_result _ hret
  obtain ⟨pw_name, hpw⟩ := auth_file_add_user env fs transient uid str_to_add r hr hr1
  refine ⟨pw_name, hpw, ?_⟩
  rw [hr]
  simp only [Option.some_bind]
  cases hfile : fs (auth_file_path env transient pw_name) with
  | none =>
    obtain ⟨ws, _, _, h3⟩ :=
      auth_file_add_created env fs transient uid str_to_add pw_name r hpw hfile hr hr1
    rw [h3]
    simp [file_contents, hfile]
  | some file =>
    obtain ⟨suffix, ws, _, _, _, _, h5⟩ :=
      auth_file_add_replaced env fs transient uid str_to_add pw_name file r hpw hfile hr hr1
    rw [h5]
    simp [file_contents, hfile]

set_option maxRecDepth 100000 in
theorem auth_file_add_appends_witness :
    ∃ pw_name, auth_file_env_example.getpwuid 500 = some pw_name ∧
      (_polkit_authorization_db_auth_file_add auth_file_env_example fs_with_store false 500
          "scope=grant:action-id=org.foo.bar:when=2:granted-by=0").bind
          (fun r => file_contents r.2.1 (auth_file_path auth_file_env_example false pw_name))
        = some ((file_contents fs_with_store
                (auth_file_path auth_file_env_example false pw_name)).getD
              (auth_file_blurb false pw_name).data
            ++ c_str "scope=grant:action-id=org.foo.bar:when=2:granted-by=0".data ++ ['\n']) :=
  auth_file_add_appends auth_file_env_example fs_with_store false 500
    "scope=grant:action-id=org.foo.bar:when=2:granted-by=0" (by decide)

/-! ### Lemmas on the administrator definition -/

theorem last_define_admin_auth_append (l₁ l₂ : List ConfigNode) :
    last_define_admin_auth (l₁ ++ l₂)
      = match last_define_admin_auth l₂ with
        | some d => some d
        | none => last_define_admin_auth l₁ := by
  induction l₁ with
  | nil =>
    rw [List.nil_append]
    cases last_define_admin_auth l₂ <;> rfl
  | cons n rest ih =>
    rw [List.cons_append, last_define_admin_auth, ih, last_define_admin_auth]
    cases last_define_admin_auth l₂ <;> rfl

theorem admin_auth_store_store (out : AdminAuthOut) (t₁ t₂ : PolKitConfigAdminAuthType)
    (d₁ d₂ : String) :
    admin_auth_store (admin_auth_store out t₁ d₁) t₂ d₂ = admin_auth_store out t₂ d₂ := by
  unfold admin_auth_store
  cases out.out_admin_auth_type <;> cases out.out_data <;> rfl

theorem determine_admin_auth_spec_append (l₁ l₂ : List ConfigNode) (out : AdminAuthOut) :
    determine_admin_auth_spec (l₁ ++ l₂) out
      = ((determine_admin_auth_spec l₂ (determine_admin_auth_spec l₁ out).2).1
            || (determine_admin_auth_spec l₁ out).1,
         (determine_admin_auth_spec l₂ (determine_admin_auth_spec l₁ out).2).2) := by
  unfold determine_admin_auth_spec
  rw [last_define_admin_auth_append]
  cases h₂ : last_define_admin_auth l₂ with
  | none =>
    cases h₁ : last_define_admin_auth l₁ with
    | none => rfl
    | some d₁ => rfl
  | some d₂ =>
    cases h₁ : last_define_admin_auth l₁ with
    | none => rfl
    | some d₁ => simp [admin_auth_store_store]

mutual
theorem config_node_determine_admin_auth_eq (env : ConfigEnv) (action : PolKitAction)
    (caller : Option PolKitCaller) (hdef : lookup_defined env caller none = true) :
    ∀ (node : ConfigNode) (out : AdminAuthOut),
      config_node_determine_admin_auth env action caller node out
        = some (determine_admin_auth_spec (walk_order env action caller none node) out)
  | .mk data children, out => by
    have ih := config_node_determine_admin_auth_loop_eq env action caller hdef children
    unfold config_node_determine_admin_auth walk_order
    cases data with
    | NODE_TYPE_NOP =>
      simp [descends, determine_admin_auth_spec, last_define_admin_auth,
        define_admin_auth_of]
    | NODE_TYPE_TOP =>
      have h := ih false out
      simp only [descends, if_true, h, Bool.or_false]
      have e := determine_admin_auth_spec_append [ConfigNode.mk NodeData.NODE_TYPE_TOP children]
        (walk_order_list env action caller none children) out
      simp only [List.singleton_append] at e
      rw [e]
      simp [determine_admin_auth_spec, last_define_admin_auth, define_admin_auth_of]
    | NODE_TYPE_MATCH match_type pattern =>
      obtain ⟨m, hm⟩ := config_node_match_defined env match_type pattern action caller
        none hdef
      cases m with
      | false =>
        simp [descends, hm, determine_admin_auth_spec, last_define_admin_auth,
          define_admin_auth_of]
      | true =>
        have h := ih false out
        simp only [descends, hm, beq_self_eq_true, if_true, h, Bool.or_false]
        have e := determine_admin_auth_spec_append
          [ConfigNode.mk (NodeData.NODE_TYPE_MATCH match_type pattern) children]
          (walk_order_list env action caller none children) out
        simp only [List.singleton_append] at e
        rw [e]
        simp [determine_admin_auth_spec, last_define_admin_auth, define_admin_auth_of]
    | NODE_TYPE_RETURN result =>
      simp [descends, determine_admin_auth_spec, last_define_admin_auth,
        define_admin_auth_of]
    | NODE_TYPE_DEFINE_ADMIN_AUTH admin_type d =>
      simp [descends, determine_admin_auth_spec, last_define_admin_auth,
        define_admin_auth_of]
theorem config_node_determine_admin_auth_loop_eq (env : ConfigEnv) (action : PolKitAction)
    (caller : Option PolKitCaller) (hdef : lookup_defined env caller none = true) :
    ∀ (nodes : List ConfigNode) (result_set : Bool) (out : AdminAuthOut),
      config_node_determine_admin_auth_loop env action caller nodes result_set out
        = some ((determine_admin_auth_spec
                  (walk_order_list env action caller none nodes) out).1 || result_set,
                (determine_admin_auth_spec
                  (walk_order_list env action caller none nodes) out).2)
  | [], result_set, out => by
    simp [config_node_determine_admin_auth_loop, walk_order_list, determine_admin_auth_spec,
      last_define_admin_auth]
  | child :: rest, result_set, out => by
    have h1 := config_node_determine_admin_auth_eq env action caller hdef child out
    unfold config_node_determine_admin_auth_loop walk_order_list
    rw [h1]
    simp only []
    rw [config_node_determine_admin_auth_loop_eq env action caller hdef rest,
      determine_admin_auth_spec_append]
    simp [Bool.or_assoc]
end

theorem last_define_admin_auth_eq_none (l : List ConfigNode) :
    last_define_admin_auth l = none ↔ ∀ n ∈ l, define_admin_auth_of n = none := by
  induction l with
  | nil => simp [last_define_admin_auth]
  | cons n rest ih =>
    rw [last_define_admin_auth]
    cases h : last_define_admin_auth rest with
    | some d =>
      simp only [false_iff, reduceCtorEq]
      intro hall
      have : last_define_admin_auth rest = none :=
        ih.mpr (fun m hm => hall m (List.mem_cons_of_mem _ hm))
      rw [h] at this
      cases this
    | none =>
      simp only [List.mem_cons, forall_eq_or_imp]
      exact ⟨fun hn => ⟨hn, ih.mp h⟩, fun hn => hn.1⟩

/-! ## Theorems: user matches and the administrator definition -/

/-- C11 (as stated, refuted): for the subject with uid 500 and the expression `500`, which
matches the decimal string of the uid, a `match user` node does not match when the
password-database lookup fails: `config_node_match` leaves through `goto out` before
any expression is tried. -/
theorem user_match_lookup_failure_counterexample :
    env_lookup_fails.regexec "500" (toString caller_example.uid) = true ∧
    config_node_match env_lookup_fails .MATCH_TYPE_USER "500" ⟨some "org.foo.bar"⟩
      (some caller_example) none = some false := by
  decide

/-- C11 (amended): a `match user` node matches a subject with uid `u` whose user name
can be looked up if and only if the expression of the node matches the text that
`printf ("%d", u)` gives (the decimal string of `u` for `u < 2^31`) or matches the user
name of `u`, either side sufficing; when the lookup fails with an error the node does
not match, whatever the expression matches. -/
theorem user_match_iff (env : ConfigEnv) (pattern : String) (action : PolKitAction)
    (caller : Option PolKitCaller) (session : Option PolKitSession) (uid : Nat)
    (hu : subject_uid caller session = some uid) :
    (∀ pw_name, env.getpwuid_r uid = .entry pw_name →
      config_node_match env .MATCH_TYPE_USER pattern action caller session
        = some (env.regexec pattern (printf_d_uid uid) || env.regexec pattern pw_name)) ∧
    (uid < 2 ^ 31 → printf_d_uid uid = toString uid) ∧
    (env.getpwuid_r uid = .error →
      config_node_match env .MATCH_TYPE_USER pattern action caller session = some false) := by
  refine ⟨?_, ?_, ?_⟩
  · intro pw_name h
    simp [config_node_match, hu, h]
  · intro h
    have h2 : uid % 2 ^ 32 = uid := Nat.mod_eq_of_lt (by omega)
    unfold printf_d_uid
    rw [h2, if_pos h]
  · intro h
    simp [config_node_match, hu, h]

/-- C11, witness: uid 500 with user name `joe` and the expression `joe`, and the failing
lookup with the expression `500`. -/
theorem user_match_iff_witness :
    config_node_match env_example .MATCH_TYPE_USER "joe" ⟨some "org.foo.bar"⟩
        (some caller_example) none
      = some (env_example.regexec "joe" (printf_d_uid 500) || env_example.regexec "joe" "joe") ∧
    printf_d_uid 500 = toString 500 ∧
    config_node_match env_lookup_fails .MATCH_TYPE_USER "500" ⟨some "org.foo.bar"⟩
        none (some session_example) = some false :=
  ⟨(user_match_iff env_example "joe" ⟨some "org.foo.bar"⟩ (some caller_example) none 500
      (by decide)).1 "joe" (by decide),
   (user_match_iff env_example "joe" ⟨some "org.foo.bar"⟩ (some caller_example) none 500
      (by decide)).2.1 (by decide),
   (user_match_iff env_lookup_fails "500" ⟨some "org.foo.bar"⟩ none (some session_example)
      500 (by decide)).2.2 (by decide)⟩

/-- When the password lookup of the caller fails or yields an entry:
`polkit_config_determine_admin_auth_type` reports the type (user or group) and value of
the last `define_admin_auth` node, in depth-first left-to-right order, among the
`define_admin_auth` nodes reachable from the top node through match nodes that match the
action and caller; it returns FALSE and leaves both output locations untouched exactly
when no such node is reachable. -/
theorem determine_admin_auth_last_define (env : ConfigEnv) (pk_config : PolKitConfig)
    (action : PolKitAction) (caller : Option PolKitCaller) (out : AdminAuthOut)
    (hdef : lookup_defined env caller none = true) :
    polkit_config_determine_admin_auth_type env pk_config action caller out
      = some (match last_define_admin_auth
                  (config_walk_order env pk_config action caller none) with
              | some (admin_type, data) => (true, admin_auth_store out admin_type data)
              | none => (false, out)) ∧
    (last_define_admin_auth (config_walk_order env pk_config action caller none) = none ↔
      ∀ n ∈ config_walk_order env pk_config action caller none,
        define_admin_auth_of n = none) := by
  refine ⟨?_, last_define_admin_auth_eq_none _⟩
  unfold polkit_config_determine_admin_auth_type config_walk_order
  cases pk_config.top_config_node with
  | none => rfl
  | some top =>
    simp only []
    rw [config_node_determine_admin_auth_eq env action caller hdef top out]
    rfl

/-- An instance of `determine_admin_auth_last_define`: the example tree with a matching `match action` node and a later
`define_admin_auth` node. -/
theorem determine_admin_auth_last_define_witness :
    polkit_config_determine_admin_auth_type env_example ⟨some config_admin_example⟩
        ⟨some "org.foo.bar"⟩ (some caller_example) ⟨some none, some none⟩
      = some (true, ⟨some (some .POLKIT_CONFIG_ADMIN_AUTH_TYPE_GROUP), some (some "wheel")⟩) :=
  ((determine_admin_auth_last_define env_example ⟨some config_admin_example⟩
      ⟨some "org.foo.bar"⟩ (some caller_example) ⟨some none, some none⟩
      (by decide)).1).trans (by decide)

/-! ## Theorems: caller objects -/

/-- C19: for every caller object, `polkit_caller_validate` returns TRUE if and only if the
pid of the caller is greater than 0, independently of its uid, bus name, security label
and session; in particular a freshly created caller is invalid until a positive pid is
set. -/
theorem caller_validate_iff :
    (∀ caller : PolKitCaller, polkit_caller_validate (some caller) = true ↔ caller.pid > 0) ∧
    (∀ c₁ c₂ : PolKitCaller, c₁.pid = c₂.pid →
      polkit_caller_validate (some c₁) = polkit_caller_validate (some c₂)) ∧
    polkit_caller_validate (polkit_caller_new true) = false ∧
    (∀ pid : Int, pid > 0 →
      polkit_caller_validate (polkit_caller_set_pid (polkit_caller_new true) pid).2 = true) := by
  refine ⟨?_, ?_, ?_, ?_⟩
  · intro caller
    unfold polkit_caller_validate
    by_cases h : caller.pid > 0
    · simp [h]
    · simp [h]
  · intro c₁ c₂ h
    unfold polkit_caller_validate
    simp only [h]
  · decide
  · intro pid h
    simp [polkit_caller_validate, polkit_caller_set_pid, polkit_caller_new, h]

/-- C19, witness: the caller with pid 4242, and a fresh caller once the pid 1 is set. -/
theorem caller_validate_iff_witness :
    polkit_caller_validate (some caller_example) = true ∧
    polkit_caller_validate (polkit_caller_set_pid (polkit_caller_new true) 1).2 = true :=
  ⟨(caller_validate_iff.1 caller_example).mpr (by decide),
   caller_validate_iff.2.2.2 1 (by decide)⟩

/-- C20: `polkit_caller_set_dbus_name` returns TRUE only if the value validated and was
set; for a non-NULL name rejected by the bus-name validator it returns FALSE and the
stored name and every other field of the caller are unchanged; for `NULL` it returns TRUE
and clears the name; after a successful set, `polkit_caller_get_dbus_name` returns
exactly the name last set. -/
theorem caller_set_dbus_name_spec (validate : String → Bool) (kit_strdup_ok : Bool)
    (c : PolKitCaller) (dbus_name : Option String) (out : Option String) :
    ((polkit_caller_set_dbus_name validate kit_strdup_ok (some c) dbus_name).1 = true →
      (∀ name, dbus_name = some name → validate name = true) ∧
      (polkit_caller_set_dbus_name validate kit_strdup_ok (some c) dbus_name).2
        = some { c with dbus_name := dbus_name } ∧
      polkit_caller_get_dbus_name
          (polkit_caller_set_dbus_name validate kit_strdup_ok (some c) dbus_name).2 (some out)
        = (true, some dbus_name)) ∧
    (∀ name, dbus_name = some name → validate name = false →
      polkit_caller_set_dbus_name validate kit_strdup_ok (some c) dbus_name
        = (false, some c)) ∧
    (dbus_name = none →
      polkit_caller_set_dbus_name validate kit_strdup_ok (some c) dbus_name
        = (true, some { c with dbus_name := none })) := by
  refine ⟨?_, ?_, ?_⟩
  · intro h
    cases dbus_name with
    | none =>
      refine ⟨fun name hn => (by cases hn), rfl, rfl⟩
    | some name =>
      unfold polkit_caller_set_dbus_name at h ⊢
      by_cases hv : validate name = true
      · cases kit_strdup_ok with
        | true =>
          refine ⟨?_, ?_, ?_⟩
          · intro n hn
            cases hn
            exact hv
          · simp [hv]
          · simp [hv, polkit_caller_get_dbus_name]
        | false => simp [hv] at h
      · simp [hv] at h
  · intro name hn hv
    subst hn
    simp [polkit_caller_set_dbus_name, hv]
  · intro hn
    subst hn
    rfl

/-- C20, witness: a rejected name and two accepted names read back. -/
theorem caller_set_dbus_name_spec_witness :
    polkit_caller_set_dbus_name unique_bus_name_example true (polkit_caller_new true)
        (some "org.invalid.name") = (false, polkit_caller_new true) ∧
    polkit_caller_get_dbus_name
        (polkit_caller_set_dbus_name unique_bus_name_example true (some caller_example)
          (some ":1.43")).2 (some none) = (true, some (some ":1.43")) ∧
    polkit_caller_get_dbus_name
        (polkit_caller_set_dbus_name unique_bus_name_example true
          (some { caller_example with dbus_name := some ":1.43" }) (some ":1.44")).2
        (some none) = (true, some (some ":1.44")) ∧
    polkit_caller_set_dbus_name unique_bus_name_example true (some caller_example) none
      = (true, some { caller_example with dbus_name := none }) :=
  ⟨(caller_set_dbus_name_spec unique_bus_name_example true
      { dbus_name := none, uid := 0, pid := 0, selinux_context := none, session := none }
      (some "org.invalid.name") none).2.1 "org.invalid.name" rfl (by decide),
   ((caller_set_dbus_name_spec unique_bus_name_example true caller_example
      (some ":1.43") none).1 (by decide)).2.2,
   ((caller_set_dbus_name_spec unique_bus_name_example true
      { caller_example with dbus_name := some ":1.43" } (some ":1.44") none).1
      (by decide)).2.2,
   (caller_set_dbus_name_spec unique_bus_name_example true caller_example none none).2.2 rfl⟩

/-! ### Lemmas on the policy-file parser -/

theorem start_switch_inv (v : String → Bool) (pd : ParserData) (el : String)
    (attr : List String) (state : ParserState) (pd1 : ParserData)
    (h : _start_switch v pd el attr = some (state, pd1)) :
    pd1.is_oom = pd.is_oom ∧ pd1.entries = pd.entries ∧ pd1.stack_depth = pd.stack_depth := by
  unfold _start_switch at h
  repeat' split at h
  all_goals (cases h <;> exact ⟨rfl, rfl, rfl⟩)

theorem start_inv (v : String → Bool) (pd : ParserData) (el : String) (attr : List String) :
    (∀ pd', _start v pd el attr = .ok pd' →
      pd'.is_oom = pd.is_oom ∧ pd'.entries = pd.entries) ∧
    (∀ pd', _start v pd el attr = .stopped pd' → pd'.is_oom = pd.is_oom) := by
  unfold _start
  cases hsw : _start_switch v pd el attr with
  | none =>
    refine ⟨fun pd' h => (by cases h), fun pd' h => ?_⟩
    cases h
    rfl
  | some r =>
    obtain ⟨state, pd1⟩ := r
    obtain ⟨h1, h2, _⟩ := start_switch_inv v pd el attr state pd1 hsw
    refine ⟨fun pd' h => ?_, fun pd' h => ?_⟩
    · simp only at h
      split at h
      · cases h
      · cases h
        exact ⟨h1, h2⟩
    · simp only at h
      split at h <;> cases h

theorem cdata_inv (pd : ParserData) (str : String) :
    (∀ pd', _cdata pd str = .ok pd' →
      pd'.is_oom = pd.is_oom ∧ pd'.entries = pd.entries) ∧
    (∀ pd', _cdata pd str = .stopped pd' → pd'.is_oom = pd.is_oom) := by
  unfold _cdata
  refine ⟨fun pd' h => ?_, fun pd' h => ?_⟩
  · repeat' split at h
    all_goals (cases h <;> exact ⟨rfl, rfl⟩)
  · repeat' split at h
    all_goals (cases h <;> rfl)

theorem end_pop_inv (pd : ParserData) :
    (∀ pd', _end_pop pd = .ok pd' →
      pd'.is_oom = pd.is_oom ∧ pd'.entries = pd.entries) ∧
    (∀ pd', _end_pop pd = .stopped pd' → pd'.is_oom = pd.is_oom) := by
  unfold _end_pop
  refine ⟨fun pd' h => ?_, fun pd' h => ?_⟩
  · simp only at h
    repeat' split at h
    all_goals (cases h <;> exact ⟨rfl, rfl⟩)
  · simp only at h
    repeat' split at h
    all_goals (cases h <;> rfl)

theorem end_body_inv (pd0 : ParserData) :
    (∀ pd', (match pd0.state with
        | .STATE_IN_ACTION =>
          (match _end_action_entry pd0 with
           | none => Handled.fault
           | some pfe =>
             _end_pop { pd0 with annotations := none,
                                 entries := kit_list_prepend pd0.entries pfe })
        | _ => _end_pop pd0) = .ok pd' →
      pd'.is_oom = pd0.is_oom ∧
      pd'.entries = (match pd0.state, _end_action_entry pd0 with
        | .STATE_IN_ACTION, some pfe => [pfe]
        | _, _ => []) ++ pd0.entries) ∧
    (∀ pd', (match pd0.state with
        | .STATE_IN_ACTION =>
          (match _end_action_entry pd0 with
           | none => Handled.fault
           | some pfe =>
             _end_pop { pd0 with annotations := none,
                                 entries := kit_list_prepend pd0.entries pfe })
        | _ => _end_pop pd0) = .stopped pd' →
      pd'.is_oom = pd0.is_oom) := by
  refine ⟨fun pd' h => ?_, fun pd' h => ?_⟩
  · split at h
    · rename_i hs
      split at h
      · cases h
      · rename_i pfe he
        obtain ⟨h1, h2⟩ := (end_pop_inv _).1 pd' h
        refine ⟨h1, ?_⟩
        rw [h2]
        simp only [hs, he]
        rfl
    · rename_i hs
      obtain ⟨h1, h2⟩ := (end_pop_inv _).1 pd' h
      refine ⟨h1, ?_⟩
      rw [h2]
      split
      · rename_i hs1 _
        exact absurd hs1 hs
      · rfl
  · split at h
    · split at h
      · cases h
      · have h1 := (end_pop_inv _).2 pd' h
        exact h1
    · exact (end_pop_inv _).2 pd' h

theorem end_inv (pd : ParserData) (el : String) :
    (∀ pd', _end pd el = .ok pd' →
      pd'.is_oom = pd.is_oom ∧ pd'.entries = declared_at pd (.«end» el) ++ pd.entries) ∧
    (∀ pd', _end pd el = .stopped pd' → pd'.is_oom = pd.is_oom) :=
  end_body_inv { pd with elem_lang := none }

theorem declared_at_reverse (pd : ParserData) (ev : XmlEvent) :
    (declared_at pd ev).reverse = declared_at pd ev := by
  unfold declared_at
  repeat' split
  all_goals rfl

theorem xml_handle_inv (v : String → Bool) (pd : ParserData) (ev : XmlEvent) :
    (∀ pd', xml_handle v pd ev = .ok pd' →
      pd'.is_oom = pd.is_oom ∧ pd'.entries = declared_at pd ev ++ pd.entries) ∧
    (∀ pd', xml_handle v pd ev = .stopped pd' → pd'.is_oom = pd.is_oom) := by
  cases ev with
  | start el attr => exact start_inv v pd el attr
  | cdata s => exact cdata_inv pd s
  | «end» el => exact end_inv pd el

theorem xml_run_inv (v : String → Bool) (evs : List XmlEvent) :
    ∀ pd : ParserData,
    (∀ pd', xml_run v pd evs = .ok pd' →
      pd'.is_oom = pd.is_oom ∧
      pd'.entries = (declared_entries v pd evs).reverse ++ pd.entries) ∧
    (∀ pd', xml_run v pd evs = .stopped pd' → pd'.is_oom = pd.is_oom) := by
  induction evs with
  | nil =>
    intro pd
    refine ⟨fun pd' h => ?_, fun pd' h => (by cases h)⟩
    cases h
    exact ⟨rfl, rfl⟩
  | cons ev rest ih =>
    intro pd
    unfold xml_run declared_entries
    cases hh : xml_handle v pd ev with
    | fault => exact ⟨fun pd' h => (by cases h), fun pd' h => (by cases h)⟩
    | stopped pd1 =>
      refine ⟨fun pd' h => (by cases h), fun pd' h => ?_⟩
      cases h
      exact (xml_handle_inv v pd ev).2 _ hh
    | ok pd1 =>
      obtain ⟨h1, h2⟩ := (xml_handle_inv v pd ev).1 _ hh
      refine ⟨fun pd' h => ?_, fun pd' h => ?_⟩
      · obtain ⟨k1, k2⟩ := (ih pd1).1 pd' h
        refine ⟨k1.trans h1, ?_⟩
        simp only
        rw [k2, h2, List.reverse_append, List.append_assoc, declared_at_reverse]
      · exact ((ih pd1).2 pd' h).trans h1

theorem xml_run_append (v : String → Bool) (pre rest : List XmlEvent) :
    ∀ pd pd1 : ParserData, xml_run v pd pre = .ok pd1 →
      xml_run v pd (pre ++ rest) = xml_run v pd1 rest := by
  induction pre with
  | nil =>
    intro pd pd1 h
    cases h
    rfl
  | cons ev pre ih =>
    intro pd pd1 h
    rw [List.cons_append]
    simp only [xml_run] at h ⊢
    cases hh : xml_handle v pd ev with
    | fault => rw [hh] at h; cases h
    | stopped pd2 => rw [hh] at h; cases h
    | ok pd2 =>
      rw [hh] at h
      exact ih pd2 pd1 h

/-- When the handlers accept the events before an event of the document and the handler
of that event stops the parser, no object is returned and the error is set to
`POLKIT_ERROR_POLICY_FILE_INVALID`. -/
theorem policy_file_new_stopped (env : PolicyFileEnv) (path : String)
    (load_descriptions : Bool) (error : Option (Option PolKitError)) (doc : XmlDocument)
    (pre rest : List XmlEvent) (ev : XmlEvent) (pd pd' : ParserData)
    (hpath : kit_str_has_suffix path ".policy" = true)
    (hfile : env.kit_file_get_contents path = .contents doc)
    (hev : doc.events = pre ++ ev :: rest)
    (hpre : xml_run env.polkit_action_validate_id
      (parser_data_init load_descriptions env.LANG) pre = .ok pd)
    (hstop : xml_handle env.polkit_action_validate_id pd ev = .stopped pd') :
    polkit_policy_file_new env path load_descriptions error =
      some (none, (polkit_error_set_error env.mem error POLKIT_ERROR_POLICY_FILE_INVALID
        (some (path ++ ": parse error"))).2) := by
  have hrun : xml_run env.polkit_action_validate_id
      (parser_data_init load_descriptions env.LANG) doc.events = .stopped pd' := by
    rw [hev, xml_run_append _ _ _ _ _ hpre]
    unfold xml_run
    rw [hstop]
  have hoom : pd'.is_oom = false := by
    have h1 := (xml_run_inv env.polkit_action_validate_id doc.events
      (parser_data_init load_descriptions env.LANG)).2 pd' hrun
    rw [h1]
    rfl
  unfold polkit_policy_file_new
  simp only [hpath, hfile, hrun, hoom, not_true_eq_false, if_false, Bool.false_eq_true]

theorem xml_state_after_ok (v : String → Bool) (pd : ParserData) (pre : List XmlEvent)
    (state : ParserState) (h : xml_state_after v pd pre = some state) :
    ∃ pd1, xml_run v pd pre = .ok pd1 ∧ pd1.state = state := by
  unfold xml_state_after at h
  split at h
  · rename_i pd1 hrun
    cases h
    exact ⟨pd1, hrun, rfl⟩
  · cases h

/-- C13: the general part says when `_start` writes outside `state_stack`: exactly when its
switch does not reject the element and `stack_depth` is not one of the 32 indices. The
rest evaluates the loader: 32 nested elements are pushed within bounds and the file loads,
and on 33 nested elements the 33rd call of `_start` stores `state_stack[32]`, outside the
array, so that `polkit_policy_file_new` does not get as far as reporting
`POLKIT_ERROR_POLICY_FILE_INVALID`. -/
theorem policy_file_depth_33_out_of_bounds :
    (∀ (v : String → Bool) (pd : ParserData) (el : String) (attr : List String),
      _start v pd el attr = .fault ↔
        (_start_switch v pd el attr ≠ none ∧
          (pd.stack_depth < 0 ∨ pd.stack_depth ≥ PARSER_MAX_DEPTH))) ∧
    handled_stack_depth (xml_run (fun _ => true) (parser_data_init false none)
      (List.replicate 32 (.start "x" []))) = some 32 ∧
    handled_is_fault (xml_run (fun _ => true) (parser_data_init false none)
      (List.replicate 33 (.start "x" []))) = true ∧
    (polkit_policy_file_new policy_env_example "deep33.policy" false (some none)).isNone
      = true ∧
    (polkit_policy_file_new policy_env_example "deep32.policy" false (some none)).map
      (fun r => (r.1.map (fun pf => pf.entries.length), r.2)) = some (some 0, some none) := by
  refine ⟨?_, by decide, by decide, by decide, by decide⟩
  intro v pd el attr
  unfold _start
  cases hsw : _start_switch v pd el attr with
  | none => simp
  | some r =>
    obtain ⟨state, pd1⟩ := r
    obtain ⟨_, _, h3⟩ := start_switch_inv v pd el attr state pd1 hsw
    simp only [h3]
    split <;> simp_all

/-- C14, counterexample: the text of an `allow_any` element left empty is not a canonical
result name, yet the file loads: no character data is delivered, the object is returned
with its entry exposed (default `no`) and no error is set. -/
theorem empty_allow_any_loads_counterexample :
    polkit_result_from_string_representation "" = none ∧
    (polkit_policy_file_new policy_env_example "empty.policy" false (some none)).map
      (fun r => (r.1.map (fun pf =>
        pf.entries.map (fun e => (e.action_id, e.defaults_allow_any))), r.2))
      = some (some [(some "org.example.a", POLKIT_RESULT_NO)], some none) := by
  decide

/-- C14, amended: when a piece of character data that is not a canonical result name is
delivered while the parser is inside an `allow_any`, `allow_inactive` or `allow_active`
element of `defaults`, `polkit_policy_file_new` returns no object and sets the error; the
error stored in a given empty location, when the error object can be allocated, has the
code `POLKIT_ERROR_POLICY_FILE_INVALID`. -/
theorem defaults_text_invalid_fails (env : PolicyFileEnv) (path : String)
    (load_descriptions : Bool) (error : Option (Option PolKitError)) (doc : XmlDocument)
    (pre rest : List XmlEvent) (str : String)
    (hpath : kit_str_has_suffix path ".policy" = true)
    (hfile : env.kit_file_get_contents path = .contents doc)
    (hev : doc.events = pre ++ .cdata str :: rest)
    (hstate : xml_state_after env.polkit_action_validate_id
        (parser_data_init load_descriptions env.LANG) pre ∈
      [some ParserState.STATE_IN_DEFAULTS_ALLOW_ANY,
       some ParserState.STATE_IN_DEFAULTS_ALLOW_INACTIVE,
       some ParserState.STATE_IN_DEFAULTS_ALLOW_ACTIVE])
    (hstr : polkit_result_from_string_representation str = none) :
    polkit_policy_file_new env path load_descriptions error =
      some (none, (polkit_error_set_error env.mem error POLKIT_ERROR_POLICY_FILE_INVALID
        (some (path ++ ": parse error"))).2) ∧
    (error = some none → env.mem.kit_new0_ok = true → env.mem.kit_strdup_vprintf_ok = true →
      (polkit_policy_file_new env path load_descriptions error).map
        (fun r => (r.1.isNone, r.2.map (Option.map (fun e => e.error_code))))
        = some (true, some (some POLKIT_ERROR_POLICY_FILE_INVALID))) := by
  have hstate' : ∃ state, xml_state_after env.polkit_action_validate_id
      (parser_data_init load_descriptions env.LANG) pre = some state ∧
      (state = .STATE_IN_DEFAULTS_ALLOW_ANY ∨ state = .STATE_IN_DEFAULTS_ALLOW_INACTIVE ∨
        state = .STATE_IN_DEFAULTS_ALLOW_ACTIVE) := by
    simp only [List.mem_cons, List.mem_singleton, List.mem_nil_iff, or_false] at hstate
    rcases hstate with h | h | h
    · exact ⟨_, h, Or.inl rfl⟩
    · exact ⟨_, h, Or.inr (Or.inl rfl)⟩
    · exact ⟨_, h, Or.inr (Or.inr rfl)⟩
  obtain ⟨state, hst, hcase⟩ := hstate'
  obtain ⟨pd, hpre, hpd⟩ := xml_state_after_ok _ _ _ _ hst
  have hstop : xml_handle env.polkit_action_validate_id pd (.cdata str) = .stopped pd := by
    simp only [xml_handle]
    unfold _cdata
    rcases hcase with h | h | h <;> (rw [hpd, h]; simp only [hstr])
  have hmain := policy_file_new_stopped env path load_descriptions error doc pre rest
    (.cdata str) pd pd hpath hfile hev hpre hstop
  refine ⟨hmain, fun he hn hs => ?_⟩
  rw [hmain, he]
  simp [polkit_error_set_error, hn, hs, POLKIT_ERROR_POLICY_FILE_INVALID,
    POLKIT_ERROR_NUM_ERROR_CODES]

/-- C14, witness: the file `bogus.policy`, whose `allow_any` element holds `maybe`. -/
theorem defaults_text_invalid_fails_witness :
    (polkit_policy_file_new policy_env_example "bogus.policy" false (some none)).map
      (fun r => (r.1.isNone, r.2.map (Option.map (fun e => e.error_code))))
      = some (true, some (some POLKIT_ERROR_POLICY_FILE_INVALID)) :=
  (defaults_text_invalid_fails policy_env_example "bogus.policy" false (some none)
    ⟨bogus_allow_any_events, true⟩
    [ .start "policyconfig" [], .start "action" ["id", "org.example.a"],
      .start "defaults" [], .start "allow_any" [] ]
    [ .«end» "allow_any", .«end» "defaults", .«end» "action", .«end» "policyconfig" ]
    "maybe" (by decide) (by decide) (by decide) (by decide) (by decide)).2 rfl rfl rfl

theorem foreach_loop_note_entry (l : List PolKitPolicyFileEntry) :
    ∀ seen : List PolKitPolicyFileEntry,
      polkit_policy_file_entry_foreach_loop note_entry l seen = (false, seen ++ l) := by
  induction l with
  | nil => intro seen; simp [polkit_policy_file_entry_foreach_loop]
  | cons pfe rest ih =>
    intro seen
    simp [polkit_policy_file_entry_foreach_loop, note_entry, ih]

/-- C16, counterexample: in `two.policy` the action `org.example.a` is declared before
`org.example.b`, and `polkit_policy_file_entry_foreach` calls the callback on
`org.example.b` first. -/
theorem foreach_load_order_counterexample :
    (declared_entries (fun _ => true) (parser_data_init false none)
      two_actions_events).map (fun e => e.action_id)
      = [some "org.example.a", some "org.example.b"] ∧
    (polkit_policy_file_new policy_env_example "two.policy" false none).map
      (fun r => (polkit_policy_file_entry_foreach r.1 (some note_entry) []).2.map
        (fun e => e.action_id))
      = some [some "org.example.b", some "org.example.a"] := by
  decide

/-- C16, amended: for every successfully loaded policy file the entries are held in the
reverse of the order in which their `action` elements are declared, and
`polkit_policy_file_entry_foreach` calls the callback on them in that reverse order:
last declared first. -/
theorem foreach_reverse_declaration_order (env : PolicyFileEnv) (path : String)
    (load_descriptions : Bool) (error error' : Option (Option PolKitError))
    (pf : PolKitPolicyFile)
    (hload : polkit_policy_file_new env path load_descriptions error
      = some (some pf, error')) :
    ∃ doc, env.kit_file_get_contents path = .contents doc ∧
      pf.entries = (declared_entries env.polkit_action_validate_id
        (parser_data_init load_descriptions env.LANG) doc.events).reverse ∧
      polkit_policy_file_entry_foreach (some pf) (some note_entry) []
        = (false, (declared_entries env.polkit_action_validate_id
            (parser_data_init load_descriptions env.LANG) doc.events).reverse) ∧
      (∀ (σ : Type) (cb : PolKitPolicyFileEntry → σ → Bool × σ) (user_data : σ),
        polkit_policy_file_entry_foreach (some pf) (some cb) user_data
          = polkit_policy_file_entry_foreach_loop cb
              (declared_entries env.polkit_action_validate_id
                (parser_data_init load_descriptions env.LANG) doc.events).reverse
              user_data) := by
  unfold polkit_policy_file_new at hload
  split at hload
  · cases hload
  · split at hload
    · cases hload
    · cases hload
    · rename_i doc hfile
      split at hload
      · cases hload
      · split at hload <;> cases hload
      · rename_i pd hrun
        split at hload
        · cases hload
        · cases hload
          have hent := ((xml_run_inv env.polkit_action_validate_id doc.events
            (parser_data_init load_descriptions env.LANG)).1 pd hrun).2
          have hent' : pd.entries = (declared_entries env.polkit_action_validate_id
              (parser_data_init load_descriptions env.LANG) doc.events).reverse := by
            rw [hent]
            simp [parser_data_init]
          refine ⟨doc, hfile, hent', ?_, ?_⟩
          · simp only [polkit_policy_file_entry_foreach, foreach_loop_note_entry, hent',
              List.nil_append]
          · intro σ cb user_data
            simp only [polkit_policy_file_entry_foreach, hent']

/-- C16, witness: the file `two.policy` of the example environment. -/
theorem foreach_reverse_declaration_order_witness :
    ∃ doc, policy_env_example.kit_file_get_contents "two.policy" = .contents doc ∧
      two_actions_policy_file.entries = (declared_entries
        policy_env_example.polkit_action_validate_id
        (parser_data_init false policy_env_example.LANG) doc.events).reverse ∧
      polkit_policy_file_entry_foreach (some two_actions_policy_file) (some note_entry) []
        = (false, (declared_entries policy_env_example.polkit_action_validate_id
            (parser_data_init false policy_env_example.LANG) doc.events).reverse) ∧
      (∀ (σ : Type) (cb : PolKitPolicyFileEntry → σ → Bool × σ) (user_data : σ),
        polkit_policy_file_entry_foreach (some two_actions_policy_file) (some cb) user_data
          = polkit_policy_file_entry_foreach_loop cb
              (declared_entries policy_env_example.polkit_action_validate_id
                (parser_data_init false policy_env_example.LANG) doc.events).reverse
              user_data) :=
  foreach_reverse_declaration_order policy_env_example "two.policy" false none none
    two_actions_policy_file rfl

/-! ### The tracker: session signals and the two indices -/

theorem remove_caller_by_session_pid_index (pk_tracker : PolKitTracker)
    (session_objpath : String) :
    (_remove_caller_by_session pk_tracker session_objpath).map
        (fun t => t.pid_start_time_to_caller)
      = (_remove_caller_by_session pk_tracker session_objpath).map
        (fun _ => pk_tracker.pid_start_time_to_caller) := by
  unfold _remove_caller_by_session
  split <;> rfl

theorem update_session_is_active_pid_index (void_result : PolKitCaller → Bool)
    (pk_tracker : PolKitTracker) (session_objpath : String) (is_active : Bool) :
    (_update_session_is_active void_result pk_tracker session_objpath is_active).map
        (fun t => t.pid_start_time_to_caller)
      = (_update_session_is_active void_result pk_tracker session_objpath is_active).map
        (fun _ => pk_tracker.pid_start_time_to_caller) := by
  unfold _update_session_is_active
  simp only
  split <;> rfl

/-- C17: a well-formed `SessionRemoved` signal never changes the (pid, start-time) index,
whatever the tracker holds. On the example tracker the signal for `Session1` is
processed, the bus-name index loses its caller of that session, and
`polkit_tracker_get_caller_from_pid` still returns the cached process 4242 in
`Session1`. -/
theorem session_removed_keeps_pid_index :
    (∀ (void_result : PolKitCaller → Bool) (pk_tracker : PolKitTracker)
      (seat_objpath session_objpath : String),
      (polkit_tracker_dbus_func void_result pk_tracker
          (.SessionRemoved seat_objpath (some session_objpath))).map
        (fun r => r.2.pid_start_time_to_caller)
      = (polkit_tracker_dbus_func void_result pk_tracker
          (.SessionRemoved seat_objpath (some session_objpath))).map
        (fun _ => pk_tracker.pid_start_time_to_caller)) ∧
    (polkit_tracker_dbus_func (fun _ => false) tracker_example
        (.SessionRemoved "/org/freedesktop/ConsoleKit/Seat1"
          (some "/org/freedesktop/ConsoleKit/Session1"))).map
      (fun r => (r.1, r.2.dbus_name_to_caller.map (fun e => e.1)))
      = some (true, []) ∧
    (polkit_tracker_dbus_func (fun _ => false) tracker_example
        (.SessionRemoved "/org/freedesktop/ConsoleKit/Seat1"
          (some "/org/freedesktop/ConsoleKit/Session1"))).map
      (fun r => ((polkit_tracker_get_caller_from_pid tracker_env_example (some r.2) 4242
          { is_set := false }).1).bind caller_session_state)
      = some (some (some "/org/freedesktop/ConsoleKit/Session1", true)) := by
  refine ⟨?_, by decide, by decide⟩
  intro void_result pk_tracker seat_objpath session_objpath
  simp only [polkit_tracker_dbus_func, Option.map_map]
  exact remove_caller_by_session_pid_index pk_tracker session_objpath

/-- C18: a well-formed `ActiveChanged` signal never changes the (pid, start-time) index,
whatever the tracker holds and whatever is read as the result of the `void` callbacks. On
the example tracker `ActiveChanged (FALSE)` for `Session1` is processed, the caller
cached by bus name reports inactive, and the caller of the same session that
`polkit_tracker_get_caller_from_pid` returns from the cache still reports active. -/
theorem active_changed_keeps_pid_index :
    (∀ (void_result : PolKitCaller → Bool) (pk_tracker : PolKitTracker)
      (session_objpath : String) (is_active : Bool),
      (polkit_tracker_dbus_func void_result pk_tracker
          (.ActiveChanged session_objpath (some is_active))).map
        (fun r => r.2.pid_start_time_to_caller)
      = (polkit_tracker_dbus_func void_result pk_tracker
          (.ActiveChanged session_objpath (some is_active))).map
        (fun _ => pk_tracker.pid_start_time_to_caller)) ∧
    (polkit_tracker_dbus_func (fun _ => false) tracker_example
        (.ActiveChanged "/org/freedesktop/ConsoleKit/Session1" (some false))).map
      (fun r => ((polkit_tracker_get_caller_from_dbus_name tracker_env_example (some r.2)
          ":1.7" { is_set := false }).1).bind caller_session_state)
      = some (some (some "/org/freedesktop/ConsoleKit/Session1", false)) ∧
    (polkit_tracker_dbus_func (fun _ => false) tracker_example
        (.ActiveChanged "/org/freedesktop/ConsoleKit/Session1" (some false))).map
      (fun r => ((polkit_tracker_get_caller_from_pid tracker_env_example (some r.2) 4242
          { is_set := false }).1).bind caller_session_state)
      = some (some (some "/org/freedesktop/ConsoleKit/Session1", true)) := by
  refine ⟨?_, by decide, by decide⟩
  intro void_result pk_tracker session_objpath is_active
  simp only [polkit_tracker_dbus_func, Option.map_map]
  exact update_session_is_active_pid_index void_result pk_tracker session_objpath is_active

/-! ## Theorems: codes out of range, error objects, constraint sequences -/

theorem int_range_excl (r n : Int) (h : r < 0 ∨ r ≥ n) (h0 : 0 ≤ r) (h1 : r < n) : False := by
  omega

theorem int_range_incl (r n : Int) (h : ¬ (r < 0 ∨ r ≥ n)) : 0 ≤ r ∧ r < n := by
  omega

/-- C25: `polkit_result_to_string_representation` returns `NULL` for every code outside
the valid range, `r < 0` or `r >= POLKIT_RESULT_N_RESULTS`, and only for those: for every
code inside the range it returns a string. -/
theorem result_to_string_null_iff_invalid (r : PolKitResult) :
    (polkit_result_to_string_representation r = none ↔
      (r < 0 ∨ r ≥ POLKIT_RESULT_N_RESULTS)) ∧
    ((polkit_result_to_string_representation r).isSome = true ↔
      (0 ≤ r ∧ r < POLKIT_RESULT_N_RESULTS)) := by
  by_cases h : r < 0 ∨ r ≥ POLKIT_RESULT_N_RESULTS
  · have hn : polkit_result_to_string_representation r = none := by
      unfold polkit_result_to_string_representation
      rw [if_pos h]
    refine ⟨⟨fun _ => h, fun _ => hn⟩, ?_⟩
    rw [hn]
    constructor
    · intro hc
      cases hc
    · rintro ⟨h0, h1⟩
      exact (int_range_excl r _ h h0 h1).elim
  · obtain ⟨h0, h1⟩ := int_range_incl r _ h
    have hs : (polkit_result_to_string_representation r).isSome = true := by
      rcases valid_result_cases r h0 h1 with h | h | h | h | h | h | h | h | h | h | h <;>
        subst h <;> decide
    refine ⟨⟨fun hn => ?_, fun hc => absurd hc h⟩, ⟨fun _ => ⟨h0, h1⟩, fun _ => hs⟩⟩
    rw [hn] at hs
    cases hs

theorem valid_error_code_cases (c : Int) (h0 : 0 ≤ c) (h1 : c < POLKIT_ERROR_NUM_ERROR_CODES) :
    c = 0 ∨ c = 1 ∨ c = 2 ∨ c = 3 ∨ c = 4 ∨ c = 5 ∨ c = 6 ∨ c = 7 ∨ c = 8 := by
  unfold POLKIT_ERROR_NUM_ERROR_CODES at h1
  omega

/-- C26: with a format, `polkit_error_set_error` returns FALSE exactly when the code is
outside `0 .. POLKIT_ERROR_NUM_ERROR_CODES - 1`, and then leaves the error location as it
was; for a valid code it returns TRUE, also for a `NULL` location, and when both
allocations succeed the stored error reports that code, the name `error_names` holds for
it and the formatted message. -/
theorem error_set_error_spec (mem : ErrorAlloc) (error : Option (Option PolKitError))
    (error_code : PolKitErrorCode) (message : String) :
    ((polkit_error_set_error mem error error_code (some message)).1 = false ↔
      (error_code < 0 ∨ error_code ≥ POLKIT_ERROR_NUM_ERROR_CODES)) ∧
    ((polkit_error_set_error mem error error_code (some message)).1 = false →
      (polkit_error_set_error mem error error_code (some message)).2 = error) ∧
    (0 ≤ error_code → error_code < POLKIT_ERROR_NUM_ERROR_CODES →
      polkit_error_set_error mem none error_code (some message) = (true, none) ∧
      (mem.kit_new0_ok = true → mem.kit_strdup_vprintf_ok = true →
        ∀ old : Option PolKitError, ∃ e name,
          polkit_error_set_error mem (some old) error_code (some message)
            = (true, some (some e)) ∧
          polkit_error_get_error_code (some e) = error_code ∧
          error_names.get? error_code.toNat = some name ∧
          polkit_error_get_error_name (some e) = some name ∧
          polkit_error_get_error_message (some e) = some message)) := by
  by_cases h : error_code < 0 ∨ error_code ≥ POLKIT_ERROR_NUM_ERROR_CODES
  · have hr : polkit_error_set_error mem error error_code (some message) = (false, error) := by
      simp only [polkit_error_set_error, if_pos h]
    refine ⟨⟨fun _ => h, fun _ => by rw [hr]⟩, fun _ => by rw [hr], ?_⟩
    intro h0 h1
    exact (int_range_excl error_code _ h h0 h1).elim
  · obtain ⟨h0, h1⟩ := int_range_incl error_code _ h
    have hr : (polkit_error_set_error mem error error_code (some message)).1 = true := by
      simp only [polkit_error_set_error, if_neg h]
      cases error with
      | none => rfl
      | some old => simp only []; split <;> (try split) <;> rfl
    refine ⟨⟨fun hf => ?_, fun hc => absurd hc h⟩, fun hf => ?_, fun _ _ => ⟨?_, ?_⟩⟩
    · rw [hr] at hf
      cases hf
    · rw [hr] at hf
      cases hf
    · simp only [polkit_error_set_error, if_neg h]
    · intro hn hs old
      have hname : ∃ name, error_names.get? error_code.toNat = some name := by
        rcases valid_error_code_cases error_code h0 h1 with
          h | h | h | h | h | h | h | h | h <;> subst h <;> exact ⟨_, rfl⟩
      obtain ⟨name, hname⟩ := hname
      refine ⟨{ is_static := false, error_code := error_code, error_message := message },
        name, ?_, rfl, hname, ?_, rfl⟩
      · simp [polkit_error_set_error, if_neg h, hn, hs]
      · simp only [polkit_error_get_error_name]
        rw [if_pos ⟨h0, h1⟩, hname]

/-- C26, witness: the code of `AuthorizationAlreadyExists` set into an empty location. -/
theorem error_set_error_spec_witness :
    ∃ e name,
      polkit_error_set_error ⟨true, true⟩ (some none)
          POLKIT_ERROR_AUTHORIZATION_ALREADY_EXISTS (some "Testing error code 6")
        = (true, some (some e)) ∧
      polkit_error_get_error_code (some e) = POLKIT_ERROR_AUTHORIZATION_ALREADY_EXISTS ∧
      error_names.get? POLKIT_ERROR_AUTHORIZATION_ALREADY_EXISTS.toNat = some name ∧
      polkit_error_get_error_name (some e) = some name ∧
      polkit_error_get_error_message (some e) = some "Testing error code 6" :=
  ((error_set_error_spec ⟨true, true⟩ (some none) POLKIT_ERROR_AUTHORIZATION_ALREADY_EXISTS
      "Testing error code 6").2.2 (by decide) (by decide)).2 rfl rfl none

theorem constraint_lists_equal_iff (as cs : List PolKitAuthorizationConstraint) :
    constraint_lists_equal as cs = true ↔ as = cs := by
  induction as generalizing cs with
  | nil => cases cs <;> simp [constraint_lists_equal]
  | cons a rest ih =>
    cases cs with
    | nil => simp [constraint_lists_equal]
    | cons c tl =>
      simp [constraint_lists_equal, polkit_authorization_constraint_equal, ih]

/-- C27: `_check_auth_for_grant` (with `_check_constraints_for_grant`) treats a stored
explicit grant for the requested action as matching, setting one of the two result
flags, if and only if the stored and the requested constraint sequences have the same
length and are pairwise equal position by position; the order counts and a proper prefix
matches in neither direction. -/
theorem grant_match_position_by_position (auth : PolKitAuthorization) (cd : CheckDataGrant)
    (cs : List PolKitAuthorizationConstraint)
    (hcs : cd.constraints = some cs) (hact : auth.action_id = cd.action_id)
    (hexp : (polkit_authorization_was_granted_explicitly auth).isSome = true)
    (h0 : cd.is_authorized = false) (h1 : cd.is_negative_authorized = false) :
    (_check_auth_for_grant auth cd).map
        (fun r => r.2.is_authorized || r.2.is_negative_authorized)
      = some (constraint_lists_equal auth.constraints cs) ∧
    (constraint_lists_equal auth.constraints cs = true ↔
      (auth.constraints.length = cs.length ∧
        ∀ i, auth.constraints.get? i = cs.get? i)) ∧
    (∀ tail : List PolKitAuthorizationConstraint, tail ≠ [] →
      constraint_lists_equal cs (cs ++ tail) = false ∧
      constraint_lists_equal (cs ++ tail) cs = false) := by
  refine ⟨?_, ?_, ?_⟩
  · obtain ⟨stop, cd', hrun, _, _, hneg, hpos, hnone⟩ :=
      check_auth_for_grant_spec auth cd cs hcs
    rw [hrun]
    simp only [Option.map_some', Option.some.injEq]
    cases hex : polkit_authorization_was_granted_explicitly auth with
    | none => rw [hex] at hexp; cases hexp
    | some pr =>
      obtain ⟨by_whom, is_negative⟩ := pr
      by_cases hc : auth.constraints = cs
      · rw [(constraint_lists_equal_iff _ _).mpr hc]
        cases is_negative with
        | true =>
          have hm : is_matching_grant cd.action_id cs true auth = true :=
            (is_matching_grant_iff _ _ _ _).mpr ⟨hact, ⟨by_whom, hex⟩, hc⟩
          obtain ⟨_, _, h3⟩ := hneg hm
          simp [h3]
        | false =>
          have hm : is_matching_grant cd.action_id cs false auth = true :=
            (is_matching_grant_iff _ _ _ _).mpr ⟨hact, ⟨by_whom, hex⟩, hc⟩
          obtain ⟨_, h2, _⟩ := hpos hm
          simp [h2]
      · have hf : constraint_lists_equal auth.constraints cs = false := by
          cases hv : constraint_lists_equal auth.constraints cs with
          | false => rfl
          | true => exact absurd ((constraint_lists_equal_iff _ _).mp hv) hc
        rw [hf]
        have hm1 : is_matching_grant cd.action_id cs true auth = false := by
          cases hv : is_matching_grant cd.action_id cs true auth with
          | false => rfl
          | true => exact absurd ((is_matching_grant_iff _ _ _ _).mp hv).2.2 hc
        have hm2 : is_matching_grant cd.action_id cs false auth = false := by
          cases hv : is_matching_grant cd.action_id cs false auth with
          | false => rfl
          | true => exact absurd ((is_matching_grant_iff _ _ _ _).mp hv).2.2 hc
        obtain ⟨_, h2, h3⟩ := hnone hm1 hm2
        simp [h2, h3, h0, h1]
  · rw [constraint_lists_equal_iff]
    constructor
    · intro h
      rw [h]
      exact ⟨rfl, fun _ => rfl⟩
    · rintro ⟨_, h⟩
      exact List.ext_get? h
  · intro tail ht
    constructor
    · cases hv : constraint_lists_equal cs (cs ++ tail) with
      | false => rfl
      | true =>
        have h := (constraint_lists_equal_iff _ _).mp hv
        have h2 : tail = [] := by
          have := congrArg List.length h
          simp at this
          exact this
        exact absurd h2 ht
    · cases hv : constraint_lists_equal (cs ++ tail) cs with
      | false => rfl
      | true =>
        have h := (constraint_lists_equal_iff _ _).mp hv
        have h2 : tail = [] := by
          have := congrArg List.length h
          simp at this
          exact this
        exact absurd h2 ht

/-- C27, witness: for the request `active, local` a stored grant with `local, active`
does not match, neither does the proper prefix `active`, and `active, local` does. -/
theorem grant_match_position_by_position_witness :
    (_check_auth_for_grant (auth_with_constraints [.REQUIRE_LOCAL, .REQUIRE_ACTIVE])
        cd_active_local).map (fun r => r.2.is_authorized || r.2.is_negative_authorized)
      = some false ∧
    (_check_auth_for_grant (auth_with_constraints [.REQUIRE_ACTIVE])
        cd_active_local).map (fun r => r.2.is_authorized || r.2.is_negative_authorized)
      = some false ∧
    (_check_auth_for_grant (auth_with_constraints [.REQUIRE_ACTIVE, .REQUIRE_LOCAL])
        cd_active_local).map (fun r => r.2.is_authorized || r.2.is_negative_authorized)
      = some true :=
  ⟨(grant_match_position_by_position (auth_with_constraints [.REQUIRE_LOCAL, .REQUIRE_ACTIVE])
      cd_active_local [.REQUIRE_ACTIVE, .REQUIRE_LOCAL] rfl rfl rfl rfl rfl).1.trans
        (by decide),
   (grant_match_position_by_position (auth_with_constraints [.REQUIRE_ACTIVE])
      cd_active_local [.REQUIRE_ACTIVE, .REQUIRE_LOCAL] rfl rfl rfl rfl rfl).1.trans
        (by decide),
   (grant_match_position_by_position (auth_with_constraints [.REQUIRE_ACTIVE, .REQUIRE_LOCAL])
      cd_active_local [.REQUIRE_ACTIVE, .REQUIRE_LOCAL] rfl rfl rfl rfl rfl).1.trans
        (by decide)⟩

/-! ## Theorems: bounds in the writers -/

/-- C28: on a document of 33 nested elements `_start` stores into `state_stack` at the
indices 0, 1, ..., 32 in turn; the last one, 32, is `PARSER_MAX_DEPTH`, one past the 32
slots. -/
theorem start_write_index_reaches_32 :
    start_write_indices (fun _ => true) (parser_data_init false none) (nested_events 33)
      = (List.range 33).map (fun i => (i : Int)) ∧
    PARSER_MAX_DEPTH ∈
      start_write_indices (fun _ => true) (parser_data_init false none) (nested_events 33) ∧
    (∀ i ∈ start_write_indices (fun _ => true) (parser_data_init false none)
        (nested_events 32), 0 ≤ i ∧ i < PARSER_MAX_DEPTH) := by
  decide

theorem counter_steps_mod (m a b : Nat) :
    ((((m + 1) % 2 ^ 32 + a) % 2 ^ 32 + 1) % 2 ^ 32 + b) % 2 ^ 32
      = (m + 1 + a + 1 + b) % 2 ^ 32 := by
  omega

theorem write_constraints_trace_fst (codec : ConstraintCodec) (buf_size : Nat)
    (cs : List PolKitAuthorizationConstraint) :
    ∀ (m : Nat) (text : String),
      (_write_constraints_trace codec buf_size cs m).1
        = (_write_constraints_loop codec cs m text).1 := by
  induction cs with
  | nil => intro m text; rfl
  | cons c rest ih =>
    intro m text
    simp only [_write_constraints_trace, _write_constraints_loop]
    split
    · rfl
    · rw [counter_steps_mod]
      exact ih _ _

/-- C29: for a buffer of 4 bytes and the single constraint `local`, the first call of the
encoder is at offset 1 with capacity 3, and the second at offset 12, past the end of the
buffer, with capacity `2^64 - 8`: `buf_size - m` has wrapped around and the test `> 0`
lets it through, so the capacity is not bounded by the space left (0). -/
theorem write_constraints_capacity_wraps :
    _write_constraints_trace codec_example 4 [.REQUIRE_LOCAL] 0
      = (17, [(1, 3), (12, 18446744073709551608)]) ∧
    (_write_constraints codec_example (some [.REQUIRE_LOCAL])).1 = 17 ∧
    (∀ call ∈ (_write_constraints_trace codec_example 4 [.REQUIRE_LOCAL] 0).2,
      call.2 ≤ 4 - call.1) = False := by
  refine ⟨by decide, by decide, ?_⟩
  simp only [eq_iff_iff, iff_false]
  intro h
  exact absurd (h (12, 18446744073709551608) (by decide)) (by decide)

theorem main_constraint_options_isSome
    (from_string : String → Option PolKitAuthorizationConstraint) (optargs : List String) :
    ∀ constraints : List PolKitAuthorizationConstraint,
      (∀ o ∈ optargs, (from_string o).isSome = true) →
      ((main_constraint_options from_string optargs constraints).isSome = true ↔
        (optargs = [] ∨ constraints.length + optargs.length ≤ 63)) := by
  induction optargs with
  | nil => intro constraints _; simp [main_constraint_options]
  | cons o rest ih =>
    intro constraints hall
    have ho := hall o (List.mem_cons_self _ _)
    have hrest : ∀ o' ∈ rest, (from_string o').isSome = true :=
      fun o' h => hall o' (List.mem_cons_of_mem _ h)
    cases hf : from_string o with
    | none => rw [hf] at ho; cases ho
    | some c =>
      simp only [main_constraint_options, hf, MAX_CONSTRAINTS]
      by_cases hlen : constraints.length ≥ 64 - 1
      · rw [if_pos hlen]
        simp only [Option.isSome_none, Bool.false_eq_true, false_iff, List.length_cons]
        rintro (h | h)
        · cases h
        · omega
      · rw [if_neg hlen, ih (constraints ++ [c]) hrest]
        simp only [List.length_append, List.length_singleton, List.length_cons,
          List.length_nil]
        constructor
        · rintro (h | h)
          · subst h
            right
            simp only [List.length_nil]
            omega
          · right
            omega
        · rintro (h | h)
          · cases h
          · right
            omega

set_option maxRecDepth 100000 in
/-- C21, counterexample: with 64 constraints both writers refuse. A caller that yields 64
constraints makes `_add_caller_constraints` fail whatever the buffer size, and the 64th
`--constraint` option makes `main` leave through `goto out`. -/
theorem sixty_four_constraints_rejected_counterexample :
    _add_caller_constraints codec_example (get_from_caller_example 64) 65536 caller_example
      = false ∧
    (main_constraint_options constraint_from_string_example
      (List.replicate 64 "local") []).isSome = false := by
  decide

/-- C21, amended: a grant may carry up to 63 constraints. When the caller yields `n`
constraints, `_add_caller_constraints` fails for every `n >= 64`, and for `n <= 63` it
succeeds exactly when the text fits the buffer (the count is no obstacle); polkit-auth
accepts a sequence of recognised `--constraint` options exactly when there are at most
63 of them. -/
theorem writers_accept_up_to_63_constraints (codec : ConstraintCodec)
    (get_from_caller : PolKitCaller → Nat → Int × List PolKitAuthorizationConstraint)
    (buf_size : Nat) (caller : PolKitCaller)
    (from_string : String → Option PolKitAuthorizationConstraint) (optargs : List String)
    (hn : 0 ≤ (get_from_caller caller 64).1)
    (hopt : ∀ o ∈ optargs, (from_string o).isSome = true) :
    ((get_from_caller caller 64).1 ≥ 64 →
      _add_caller_constraints codec get_from_caller buf_size caller = false) ∧
    ((get_from_caller caller 64).1 ≤ 63 →
      (_add_caller_constraints codec get_from_caller buf_size caller = true ↔
        ((_write_constraints codec (some (get_from_caller caller 64).2)).1 ≠ -1 ∧
          int_as_size_t (_write_constraints codec (some (get_from_caller caller 64).2)).1
            < buf_size))) ∧
    ((main_constraint_options from_string optargs []).isSome = true ↔
      optargs.length ≤ 63) := by
  refine ⟨fun h => ?_, fun h => ?_, ?_⟩
  · have h1 : ¬ (get_from_caller caller 64).1 = -1 := by omega
    simp only [_add_caller_constraints, if_neg h1, if_pos h]
  · have h1 : ¬ (get_from_caller caller 64).1 = -1 := by omega
    have h2 : ¬ (get_from_caller caller 64).1 ≥ 64 := by omega
    simp only [_add_caller_constraints, if_neg h1, if_neg h2]
    by_cases h3 : (_write_constraints codec (some (get_from_caller caller 64).2)).1 = -1
    · simp [h3]
    · by_cases h4 : int_as_size_t
          (_write_constraints codec (some (get_from_caller caller 64).2)).1 ≥ buf_size
      · simp [h3, h4]
      · simp only [if_neg h3, if_neg h4, true_iff]
        exact ⟨h3, by omega⟩
  · rw [main_constraint_options_isSome from_string optargs [] hopt]
    simp only [List.length_nil, Nat.zero_add]
    constructor
    · rintro (h | h)
      · subst h
        simp
      · exact h
    · intro h
      exact Or.inr h

set_option maxRecDepth 100000 in
/-- C21, witness: 63 times `local` is accepted by both writers (the text takes 1071
bytes), 64 times is not. -/
theorem writers_accept_up_to_63_constraints_witness :
    _add_caller_constraints codec_example (get_from_caller_example 63) 2048 caller_example
      = true ∧
    (main_constraint_options constraint_from_string_example
      (List.replicate 63 "local") []).isSome = true :=
  ⟨((writers_accept_up_to_63_constraints codec_example (get_from_caller_example 63) 2048
      caller_example constraint_from_string_example (List.replicate 63 "local")
      (by decide) (by decide)).2.1 (by decide)).mpr (by decide),
   (writers_accept_up_to_63_constraints codec_example (get_from_caller_example 63) 2048
      caller_example constraint_from_string_example (List.replicate 63 "local")
      (by decide) (by decide)).2.2.mpr (by decide)⟩

/-! ## Theorems: the override of the kind of grant -/

theorem override_again_cases (replies : List String) :
    override_again replies = none ∨ override_again replies = some false ∨
      override_again replies = some true := by
  induction replies with
  | nil => exact Or.inl rfl
  | cons l rest ih =>
    unfold override_again
    split
    · exact Or.inr (Or.inl rfl)
    · split
      · exact Or.inr (Or.inr rfl)
      · exact ih

theorem override_again2_cases (replies : List String) :
    override_again2 replies = none ∨ override_again2 replies = some (false, false) ∨
      override_again2 replies = some (true, false) ∨
      override_again2 replies = some (false, true) := by
  induction replies with
  | nil => exact Or.inl rfl
  | cons l rest ih =>
    unfold override_again2
    split
    · exact Or.inr (Or.inl rfl)
    · split
      · exact Or.inr (Or.inr (Or.inl rfl))
      · split
        · exact Or.inr (Or.inr (Or.inr rfl))
        · exact ih

/-- C30: offered a one-shot type, `conversation_override_grant_type` asks nothing and
returns the plain auth type of the family, whose retention (process) is longer than
one-shot. For every other auth type and every sequence of replies a returned type is of
the same family and its retention is not longer than the offered one. -/
theorem override_one_shot_lengthened :
    conversation_override_grant_type POLKIT_RESULT_ONLY_VIA_ADMIN_AUTH_ONE_SHOT []
      = .returned POLKIT_RESULT_ONLY_VIA_ADMIN_AUTH ∧
    conversation_override_grant_type POLKIT_RESULT_ONLY_VIA_SELF_AUTH_ONE_SHOT []
      = .returned POLKIT_RESULT_ONLY_VIA_SELF_AUTH ∧
    auth_retention POLKIT_RESULT_ONLY_VIA_ADMIN_AUTH_ONE_SHOT = some 0 ∧
    auth_retention POLKIT_RESULT_ONLY_VIA_ADMIN_AUTH = some 1 ∧
    (∀ replies : List String,
      override_respects POLKIT_RESULT_ONLY_VIA_ADMIN_AUTH_ONE_SHOT
        (conversation_override_grant_type POLKIT_RESULT_ONLY_VIA_ADMIN_AUTH_ONE_SHOT replies)
        = false ∧
      override_respects POLKIT_RESULT_ONLY_VIA_SELF_AUTH_ONE_SHOT
        (conversation_override_grant_type POLKIT_RESULT_ONLY_VIA_SELF_AUTH_ONE_SHOT replies)
        = false) ∧
    (∀ (auth_type : PolKitResult) (replies : List String),
      (auth_type = POLKIT_RESULT_ONLY_VIA_ADMIN_AUTH_ONE_SHOT ∨
        auth_type = POLKIT_RESULT_ONLY_VIA_SELF_AUTH_ONE_SHOT) ∨
      override_respects auth_type (conversation_override_grant_type auth_type replies)
        = true) := by
  refine ⟨by decide, by decide, by decide, by decide, fun replies => ⟨rfl, rfl⟩, ?_⟩
  intro auth_type replies
  by_cases h9 : auth_type = POLKIT_RESULT_ONLY_VIA_ADMIN_AUTH_ONE_SHOT
  · exact Or.inl (Or.inl h9)
  by_cases h10 : auth_type = POLKIT_RESULT_ONLY_VIA_SELF_AUTH_ONE_SHOT
  · exact Or.inl (Or.inr h10)
  right
  by_cases h2 : auth_type = POLKIT_RESULT_ONLY_VIA_ADMIN_AUTH
  · subst h2; rfl
  by_cases h5 : auth_type = POLKIT_RESULT_ONLY_VIA_SELF_AUTH
  · subst h5; rfl
  by_cases h3 : auth_type = POLKIT_RESULT_ONLY_VIA_ADMIN_AUTH_KEEP_SESSION
  · subst h3
    have hask : override_ask POLKIT_RESULT_ONLY_VIA_ADMIN_AUTH_KEEP_SESSION replies
        = match override_again replies with
          | none => .error .reading
          | some keep_session => .ok (keep_session, false) := rfl
    unfold conversation_override_grant_type
    rw [hask]
    rcases override_again_cases replies with h | h | h <;> rw [h] <;> decide
  by_cases h6 : auth_type = POLKIT_RESULT_ONLY_VIA_SELF_AUTH_KEEP_SESSION
  · subst h6
    have hask : override_ask POLKIT_RESULT_ONLY_VIA_SELF_AUTH_KEEP_SESSION replies
        = match override_again replies with
          | none => .error .reading
          | some keep_session => .ok (keep_session, false) := rfl
    unfold conversation_override_grant_type
    rw [hask]
    rcases override_again_cases replies with h | h | h <;> rw [h] <;> decide
  by_cases h4 : auth_type = POLKIT_RESULT_ONLY_VIA_ADMIN_AUTH_KEEP_ALWAYS
  · subst h4
    have hask : override_ask POLKIT_RESULT_ONLY_VIA_ADMIN_AUTH_KEEP_ALWAYS replies
        = match override_again2 replies with
          | none => .error .reading
          | some flags => .ok flags := rfl
    unfold conversation_override_grant_type
    rw [hask]
    rcases override_again2_cases replies with h | h | h | h <;> rw [h] <;> decide
  by_cases h7 : auth_type = POLKIT_RESULT_ONLY_VIA_SELF_AUTH_KEEP_ALWAYS
  · subst h7
    have hask : override_ask POLKIT_RESULT_ONLY_VIA_SELF_AUTH_KEEP_ALWAYS replies
        = match override_again2 replies with
          | none => .error .reading
          | some flags => .ok flags := rfl
    unfold conversation_override_grant_type
    rw [hask]
    rcases override_again2_cases replies with h | h | h | h <;> rw [h] <;> decide
  have hask : override_ask auth_type replies = .error (.exit 1) := by
    unfold override_ask
    simp [h9, h10, h2, h5, h3, h6, h4, h7]
  unfold conversation_override_grant_type
  rw [hask]
  rfl

/-! ## Theorems: loading the configuration file -/

theorem config_xml_run_append (regcomp : String → Bool) (pre rest : List XmlEvent) :
    ∀ pd pd1 : ConfigFile.ParserData, ConfigFile.xml_run regcomp pd pre = .ok pd1 →
      ConfigFile.xml_run regcomp pd (pre ++ rest) = ConfigFile.xml_run regcomp pd1 rest := by
  induction pre with
  | nil =>
    intro pd pd1 h
    cases h
    rfl
  | cons ev pre ih =>
    intro pd pd1 h
    rw [List.cons_append]
    simp only [ConfigFile.xml_run] at h ⊢
    cases hh : ConfigFile.xml_handle regcomp pd ev with
    | fault => rw [hh] at h; cases h
    | stopped pd2 => rw [hh] at h; cases h
    | ok pd2 =>
      rw [hh] at h
      exact ih pd2 pd1 h

theorem config_start_invalid_stops (regcomp : String → Bool) (pd : ConfigFile.ParserData)
    (el : String) (attr : List String)
    (h : config_element_invalid regcomp pd.state pd.stack_depth el attr = true) :
    ∃ pd', ConfigFile._start regcomp pd el attr = .stopped pd' := by
  unfold ConfigFile._start
  cases hsw : ConfigFile._start_switch regcomp pd el attr with
  | none => exact ⟨pd, rfl⟩
  | some r =>
    obtain ⟨state, data, is_top⟩ := r
    by_cases hd : pd.stack_depth < 0 ∨ pd.stack_depth ≥ ConfigFile.PARSER_MAX_DEPTH
    · simp only [if_pos hd]
      exact ⟨_, rfl⟩
    · exfalso
      have hd2 : ¬ pd.stack_depth ≥ ConfigFile.PARSER_MAX_DEPTH := fun h => hd (Or.inr h)
      simp only [config_element_invalid, hd2, decide_False, Bool.or_false,
        Bool.and_eq_true, decide_eq_true_eq] at h
      obtain ⟨hst, hel⟩ := h
      unfold ConfigFile._start_switch at hsw
      rcases hst with hst | hst <;> rw [hst] at hsw <;> simp only at hsw <;>
        (split at hel
         · rename_i name value
           simp only [Bool.or_eq_true, Bool.and_eq_true, beq_iff_eq, bne_iff_ne, ne_eq,
             Bool.not_eq_true', Option.isNone_iff_eq_none] at hel
           rcases hel with (⟨⟨h1, h2⟩, h3⟩ | ⟨⟨h1, h2⟩, h3⟩) | ⟨⟨h1, h2⟩, h3⟩
           · simp [h1, h2, h3] at hsw
           · rcases h2 with h2 | h2
             · simp [h1, h2, h3] at hsw
             · by_cases ha : name = "action"
               · simp [h1, ha, h3] at hsw
               · simp [h1, ha, h2, h3] at hsw
           · have hr : ¬ ("return" = "match") := by decide
             simp [h1, h2, h3, hr] at hsw
         · cases hel)

/-- C22, counterexample: for a file that cannot be read `polkit_config_new` returns no
object and the error set has the kind `PolicyFileInvalid`; the table `error_names` holds
no kind `ConfigFileInvalid`. -/
theorem config_new_error_kind_counterexample :
    (polkit_config_new config_env_example "missing.conf" (some none)).map
      (fun r => (r.1.isNone, r.2.map polkit_error_get_error_name))
      = some (true, some (some "PolicyFileInvalid")) ∧
    ("ConfigFileInvalid" ∈ error_names) = False := by
  refine ⟨by decide, ?_⟩
  simp only [eq_iff_iff, iff_false]
  decide

/-- C22, amended: when the configuration file cannot be read, or is not well-formed, or
holds an element that fails validation (a `match` on an attribute other than `action`
and `user`, a `return` with an unknown result word, a `match` with an expression that
`regcomp` refuses, an element nested 33 deep), `polkit_config_new` returns no object and
sets the error with the code `POLKIT_ERROR_POLICY_FILE_INVALID`, whose kind is
`PolicyFileInvalid`. -/
theorem config_new_invalid_fails (env : ConfigFileEnv) (path : String)
    (error : Option (Option PolKitError)) (msg : String)
    (hbad :
      ((env.kit_file_get_contents path = .unreadable ∨
          env.kit_file_get_contents path = .enomem) ∧
        msg = "Cannot load PolicyKit policy file at " ++ path) ∨
      (∃ doc, env.kit_file_get_contents path = .contents doc ∧
        msg = path ++ ": parse error" ∧
        ((doc.well_formed = false ∧
            (ConfigFile.xml_state_after env.regcomp doc.events).isSome = true) ∨
          ∃ pre el attr rest state stack_depth,
            doc.events = pre ++ .start el attr :: rest ∧
            ConfigFile.xml_state_after env.regcomp pre = some (state, stack_depth) ∧
            config_element_invalid env.regcomp state stack_depth el attr = true))) :
    polkit_config_new env path error =
      some (none, (polkit_error_set_error env.mem error POLKIT_ERROR_POLICY_FILE_INVALID
        (some msg)).2) ∧
    (error = some none → env.mem.kit_new0_ok = true → env.mem.kit_strdup_vprintf_ok = true →
      (polkit_config_new env path error).map
        (fun r => (r.1.isNone, r.2.map polkit_error_get_error_name))
        = some (true, some (some "PolicyFileInvalid"))) := by
  have hmain : polkit_config_new env path error =
      some (none, (polkit_error_set_error env.mem error POLKIT_ERROR_POLICY_FILE_INVALID
        (some msg)).2) := by
    rcases hbad with ⟨hf | hf, hm⟩ | ⟨doc, hf, hm, hdoc⟩
    · simp only [polkit_config_new, hf, hm]
    · simp only [polkit_config_new, hf, hm]
    · rcases hdoc with ⟨hwf, hrun⟩ | ⟨pre, el, attr, rest, state, stack_depth, hev, hst, hinv⟩
      · unfold ConfigFile.xml_state_after at hrun
        cases hr : ConfigFile.xml_run env.regcomp ConfigFile.parser_data_init doc.events with
        | fault => rw [hr] at hrun; cases hrun
        | stopped pd => simp only [polkit_config_new, hf, hr, hm]
        | ok pd => simp [polkit_config_new, hf, hr, hm, hwf]
      · unfold ConfigFile.xml_state_after at hst
        cases hr : ConfigFile.xml_run env.regcomp ConfigFile.parser_data_init pre with
        | fault => rw [hr] at hst; cases hst
        | stopped pd => rw [hr] at hst; cases hst
        | ok pd =>
          rw [hr] at hst
          simp only [Option.some.injEq, Prod.mk.injEq] at hst
          obtain ⟨hs1, hs2⟩ := hst
          rw [← hs1, ← hs2] at hinv
          obtain ⟨pd', hstop⟩ := config_start_invalid_stops env.regcomp pd el attr hinv
          have hrun : ConfigFile.xml_run env.regcomp ConfigFile.parser_data_init doc.events
              = .stopped pd' := by
            rw [hev, config_xml_run_append _ _ _ _ _ hr]
            simp only [ConfigFile.xml_run, ConfigFile.xml_handle, hstop]
          simp only [polkit_config_new, hf, hrun, hm]
  refine ⟨hmain, fun he hn hs => ?_⟩
  rw [hmain, he]
  simp [polkit_error_set_error, hn, hs, POLKIT_ERROR_POLICY_FILE_INVALID,
    POLKIT_ERROR_NUM_ERROR_CODES, polkit_error_get_error_name, error_names]

set_option maxRecDepth 100000 in
/-- C22, witness: a missing file, a document that is not well-formed, a `match` on
`group`, a `return` of `maybe`, a `match` on the expression `(`, and 33 nested elements:
each gives no object and an error of kind `PolicyFileInvalid`. -/
theorem config_new_invalid_fails_witness :
    (polkit_config_new config_env_example "missing.conf" (some none)).map
        (fun r => (r.1.isNone, r.2.map polkit_error_get_error_name))
      = some (true, some (some "PolicyFileInvalid")) ∧
    (polkit_config_new config_env_example "broken.conf" (some none)).map
        (fun r => (r.1.isNone, r.2.map polkit_error_get_error_name))
      = some (true, some (some "PolicyFileInvalid")) ∧
    (polkit_config_new config_env_example "attr.conf" (some none)).map
        (fun r => (r.1.isNone, r.2.map polkit_error_get_error_name))
      = some (true, some (some "PolicyFileInvalid")) ∧
    (polkit_config_new config_env_example "word.conf" (some none)).map
        (fun r => (r.1.isNone, r.2.map polkit_error_get_error_name))
      = some (true, some (some "PolicyFileInvalid")) ∧
    (polkit_config_new config_env_example "regex.conf" (some none)).map
        (fun r => (r.1.isNone, r.2.map polkit_error_get_error_name))
      = some (true, some (some "PolicyFileInvalid")) ∧
    (polkit_config_new config_env_example "deep.conf" (some none)).map
        (fun r => (r.1.isNone, r.2.map polkit_error_get_error_name))
      = some (true, some (some "PolicyFileInvalid")) :=
  ⟨(config_new_invalid_fails config_env_example "missing.conf" (some none) _
      (Or.inl ⟨Or.inl (by decide), rfl⟩)).2 rfl rfl rfl,
   (config_new_invalid_fails config_env_example "broken.conf" (some none) _
      (Or.inr ⟨⟨[.start "config" []], false⟩, by decide, rfl,
        Or.inl ⟨rfl, by decide⟩⟩)).2 rfl rfl rfl,
   (config_new_invalid_fails config_env_example "attr.conf" (some none) _
      (Or.inr ⟨⟨config_events_with "match" ["group", "wheel"], true⟩, by decide, rfl,
        Or.inr ⟨[.start "config" []], "match", ["group", "wheel"],
          [.«end» "match", .«end» "config"], .STATE_IN_CONFIG, 1,
          by decide, by decide, by decide⟩⟩)).2 rfl rfl rfl,
   (config_new_invalid_fails config_env_example "word.conf" (some none) _
      (Or.inr ⟨⟨config_events_with "return" ["result", "maybe"], true⟩, by decide, rfl,
        Or.inr ⟨[.start "config" []], "return", ["result", "maybe"],
          [.«end» "return", .«end» "config"], .STATE_IN_CONFIG, 1,
          by decide, by decide, by decide⟩⟩)).2 rfl rfl rfl,
   (config_new_invalid_fails config_env_example "regex.conf" (some none) _
      (Or.inr ⟨⟨config_events_with "match" ["action", "("], true⟩, by decide, rfl,
        Or.inr ⟨[.start "config" []], "match", ["action", "("],
          [.«end» "match", .«end» "config"], .STATE_IN_CONFIG, 1,
          by decide, by decide, by decide⟩⟩)).2 rfl rfl rfl,
   (config_new_invalid_fails config_env_example "deep.conf" (some none) _
      (Or.inr ⟨⟨nested_events 33, true⟩, by decide, rfl,
        Or.inr ⟨List.replicate 32 (.start "x" []), "x", [],
          List.replicate 33 (.«end» "x"), .STATE_UNKNOWN_TAG, 32,
          by decide, by decide, by decide⟩⟩)).2 rfl rfl rfl⟩

/-- The example file loads into the tree of its elements: the top node with a `match`
node that holds a `return` node, followed by a `return` node. -/
theorem config_new_loads_example :
    polkit_config_new config_env_example "PolicyKit.conf" (some none)
      = some (some { top_config_node := some config_tree_example }, some none) := by
  rfl

/-! ## Theorems: the exit byte of a spawned child -/

theorem first_failure_if_append (c : Bool) (x : Option Int) (l : List (Option Int)) :
    first_failure ((if c = true then [x] else []) ++ l)
      = match (if c = true then x else none) with
        | some errno => some errno
        | none => first_failure l := by
  cases c
  · simp
  · cases x <;> simp [first_failure]

theorem if_or_bool (a b : Bool) (x : Option Int) :
    (if a = true then x else if b = true then x else none)
      = (if (a || b) = true then x else none) := by
  cases a <;> cases b <;> rfl

theorem exit_on_failure_step (c k k' : Option Int) (h : k = k'.map (fun errno => 128 + errno)) :
    (match c with
     | some errno => some (128 + errno)
     | none => k)
      = (match c with
         | some errno => some errno
         | none => k').map (fun errno => 128 + errno) := by
  cases c
  · exact h
  · rfl

theorem child_exit_first_failure (calls : ChildCalls) (working_directory : Option String)
    (flags : KitSpawnFlags) (stdinp stdoutp stderrp : Bool) :
    kit_spawn_sync_child calls working_directory flags stdinp stdoutp stderrp
      = (first_failure (child_setup_calls calls working_directory flags stdinp stdoutp
          stderrp)).map (fun errno => 128 + errno) := by
  unfold child_setup_calls
  simp only [List.append_assoc, first_failure_if_append]
  unfold kit_spawn_sync_child
  simp only [if_or_bool]
  refine exit_on_failure_step _ _ _ ?_
  refine exit_on_failure_step _ _ _ ?_
  refine exit_on_failure_step _ _ _ ?_
  refine exit_on_failure_step _ _ _ ?_
  refine exit_on_failure_step _ _ _ ?_
  cases calls.exec <;> rfl

theorem wexitstatus_exited (code : Int) :
    WEXITSTATUS (wait_status (.exited code)) = (code % 256).toNat := by
  unfold WEXITSTATUS wait_status
  have h1 : 0 ≤ code % 256 := Int.emod_nonneg _ (by decide)
  have h2 : code % 256 < 256 := Int.emod_lt_of_pos _ (by decide)
  have h3 : (code % 256).toNat < 256 := by omega
  rw [Nat.mul_div_cancel _ (by decide : 0 < 256), Nat.mod_eq_of_lt h3]

theorem spawn_reaches_exit_status (sys : SpawnSys) (errno0 : Int)
    (working_directory : Option String) (flags : KitSpawnFlags)
    (argv : Option (List String)) (stdinp : Option String)
    (stdoutp stderrp out_exit_status : Bool)
    (hparent : parent_reaches_exit_status sys flags argv stdinp stdoutp stderrp
      out_exit_status = true) :
    ∃ out err,
      kit_spawn_sync sys errno0 working_directory flags argv stdinp stdoutp stderrp
          out_exit_status
        = (let status := wait_status
              (match kit_spawn_sync_child sys.child working_directory flags stdinp.isSome
                  stdoutp stderrp with
               | some n => .exited n
               | none => sys.program)
           if WEXITSTATUS status < 128 then
             some { ret := true, errno := errno0, stdout := out, stderr := err,
                    exit_status := some status }
           else
             some { ret := false, errno := (WEXITSTATUS status : Int) - 128, stdout := none,
                    stderr := none, exit_status := some status }) := by
  unfold parent_reaches_exit_status at hparent
  simp only [Bool.and_eq_true, Bool.not_eq_true', Bool.or_eq_true, Option.isNone_iff_eq_none,
    Bool.and_eq_false_imp] at hparent
  obtain ⟨⟨⟨⟨⟨⟨⟨⟨⟨⟨h1, h2⟩, h3⟩, h4⟩, h5⟩, h6⟩, h7⟩, h8⟩, h9⟩, h10⟩, h11⟩ := hparent
  cases hloop : kit_spawn_sync_loop sys.rounds stdinp.isSome (stdinp.getD "") stdoutp none
      stderrp none with
  | unfinished => rw [hloop] at h10; cases h10
  | failed errno => rw [hloop] at h10; cases h10
  | finished out err =>
    refine ⟨out, err, ?_⟩
    have hbefore : (match (if stdinp.isSome = true then sys.pipe_stdin else none) with
        | some errno => some errno
        | none =>
          match (if stdoutp = true then sys.pipe_stdout else none) with
          | some errno => some errno
          | none =>
            match (if stderrp = true then sys.pipe_stderr else none) with
            | some errno => some errno
            | none => sys.fork) = none := by
      have e1 : (if stdinp.isSome = true then sys.pipe_stdin else none) = none := by
        rcases h6 with h | h
        · simp [h]
        · simp [h]
      have e2 : (if stdoutp = true then sys.pipe_stdout else none) = none := by
        rcases h7 with h | h
        · simp [h]
        · simp [h]
      have e3 : (if stderrp = true then sys.pipe_stderr else none) = none := by
        rcases h8 with h | h
        · simp [h]
        · simp [h]
      rw [e1, e2, e3]
      exact h9
    have g1 : argv.isNone = false := by
      cases argv with
      | none => cases h1
      | some a => rfl
    have g3 : (flags.KIT_SPAWN_CHILD_INHERITS_STDIN && stdinp.isSome) = false := by
      cases hf : flags.KIT_SPAWN_CHILD_INHERITS_STDIN with
      | false => rfl
      | true => simpa using h3 hf
    have g4 : (flags.KIT_SPAWN_STDOUT_TO_DEV_NULL && stdoutp) = false := by
      cases hf : flags.KIT_SPAWN_STDOUT_TO_DEV_NULL with
      | false => rfl
      | true => simpa using h4 hf
    have g5 : (flags.KIT_SPAWN_STDERR_TO_DEV_NULL && stderrp) = false := by
      cases hf : flags.KIT_SPAWN_STDERR_TO_DEV_NULL with
      | false => rfl
      | true => simpa using h5 hf
    unfold kit_spawn_sync
    simp only [g1, h2, g3, g4, g5, hbefore, hloop, h11, Bool.false_eq_true, if_false,
      Bool.not_true]

/-- The exit code as the parent reports it: when the child is executed and exits with the code `s`, a parent that
gets as far as the exit status stores a status whose `WEXITSTATUS` is `s`; it returns
TRUE for every `s` in 0..127, and for every `s` in 128..255 it returns FALSE with `errno`
set to `s - 128`. -/
theorem spawn_exit_code_reported (sys : SpawnSys) (errno0 : Int)
    (working_directory : Option String) (flags : KitSpawnFlags)
    (argv : Option (List String)) (stdinp : Option String)
    (stdoutp stderrp out_exit_status : Bool) (s : Int)
    (hs0 : 0 ≤ s) (hs1 : s ≤ 255)
    (hexec : first_failure (child_setup_calls sys.child working_directory flags
      stdinp.isSome stdoutp stderrp) = none)
    (hprog : sys.program = .exited s)
    (hparent : parent_reaches_exit_status sys flags argv stdinp stdoutp stderrp
      out_exit_status = true) :
    (kit_spawn_sync sys errno0 working_directory flags argv stdinp stdoutp stderrp
      out_exit_status).map (fun r => (r.ret, r.errno, r.exit_status.map WEXITSTATUS))
      = some (if s ≤ 127 then (true, errno0, some s.toNat)
              else (false, s - 128, some s.toNat)) := by
  have hchild : kit_spawn_sync_child sys.child working_directory flags stdinp.isSome
      stdoutp stderrp = none := by
    rw [child_exit_first_failure, hexec]
    rfl
  obtain ⟨out, err, hrun⟩ := spawn_reaches_exit_status sys errno0 working_directory flags
    argv stdinp stdoutp stderrp out_exit_status hparent
  have hmod : s % 256 = s := Int.emod_eq_of_lt hs0 (by omega)
  have hw : WEXITSTATUS (wait_status (.exited s)) = s.toNat := by
    rw [wexitstatus_exited, hmod]
  rw [hrun, hchild, hprog]
  simp only [hw]
  by_cases h : s ≤ 127
  · have hlt : s.toNat < 128 := by omega
    simp only [if_pos hlt, if_pos h, Option.map_some', hw]
  · have hge : ¬ s.toNat < 128 := by omega
    have hcast : ((s.toNat : Nat) : Int) - 128 = s - 128 := by omega
    simp only [if_neg hge, if_neg h, Option.map_some', hw, hcast]

/-- An instance of `spawn_exit_code_reported`: the scripts of the unit test, exiting with 42 and with 43. -/
theorem spawn_exit_code_reported_witness :
    (kit_spawn_sync (spawn_sys_example none 42) 0 (some "/") spawn_flags_none
      (some ["/tmp/kit-spawn-test"]) none false false true).map
        (fun r => (r.ret, r.errno, r.exit_status.map WEXITSTATUS))
      = some (true, 0, some 42) ∧
    (kit_spawn_sync (spawn_sys_example none 43) 0 (some "/") spawn_flags_none
      (some ["/tmp/kit-spawn-test"]) none false false true).map
        (fun r => (r.ret, r.errno, r.exit_status.map WEXITSTATUS))
      = some (true, 0, some 43) :=
  ⟨spawn_exit_code_reported (spawn_sys_example none 42) 0 (some "/") spawn_flags_none
      (some ["/tmp/kit-spawn-test"]) none false false true 42 (by decide) (by decide)
      (by decide) rfl (by decide),
   spawn_exit_code_reported (spawn_sys_example none 43) 0 (some "/") spawn_flags_none
      (some ["/tmp/kit-spawn-test"]) none false false true 43 (by decide) (by decide)
      (by decide) rfl (by decide)⟩

/-- The first script of the unit test: the call returns TRUE with the two texts and an
exit status of 42; with one turn only the loop is still running. -/
theorem spawn_script1_example :
    kit_spawn_sync spawn_sys_script1 0 (some "/") spawn_flags_none
        (some ["/tmp/kit-spawn-test"]) none true true true
      = some { ret := true, errno := 0, stdout := some "Hello World\n",
               stderr := some "Goodbye World\n", exit_status := some (42 * 256) } ∧
    kit_spawn_sync { spawn_sys_script1 with rounds := spawn_sys_script1.rounds.take 1 } 0
        (some "/") spawn_flags_none (some ["/tmp/kit-spawn-test"]) none true true true
      = none := by
  decide

/-! ## Theorems: defects met by the walk, the scan and the spawn utility -/

/-- C2: the tree `<config><match user="joe"></match></config>` holds no return node, so
no return node is reached by the walk; for a subject whose uid has no entry in the
password database (`getpwuid_r` returns 0 and finds nothing) `config_node_match` reads
`pd.pw_name` unset, and neither `polkit_config_can_caller_do_action` nor
`polkit_config_can_session_do_action` gets as far as returning
`POLKIT_RESULT_UNKNOWN`. With an entry for the uid both return it. -/
theorem config_walk_no_entry_faults :
    polkit_config_can_caller_do_action env_no_entry ⟨some config_user_match_only⟩
        ⟨some "org.foo.bar"⟩ (some caller_example) = none ∧
    polkit_config_can_session_do_action env_no_entry ⟨some config_user_match_only⟩
        ⟨some "org.foo.bar"⟩ (some session_example) = none ∧
    config_node_match env_no_entry .MATCH_TYPE_USER "joe" ⟨some "org.foo.bar"⟩
        (some caller_example) none = none ∧
    polkit_config_can_caller_do_action env_example ⟨some config_user_match_only⟩
        ⟨some "org.foo.bar"⟩ (some caller_example) = some POLKIT_RESULT_UNKNOWN ∧
    polkit_config_can_session_do_action env_example ⟨some config_user_match_only⟩
        ⟨some "org.foo.bar"⟩ (some session_example) = some POLKIT_RESULT_UNKNOWN := by
  decide

/-- C12: in the tree `<config><match user="joe"></match><define_admin_auth
group="wheel"/></config>` the `define_admin_auth` node is reachable from the top node;
for a caller whose uid has no entry in the password database `config_node_match` reads
`pd.pw_name` unset at the `match` node before it, and
`polkit_config_determine_admin_auth_type` does not get as far as reporting the group
`wheel`. With an entry for the uid it reports it. -/
theorem determine_admin_auth_no_entry_faults :
    polkit_config_determine_admin_auth_type env_no_entry
        ⟨some config_user_match_then_define⟩ ⟨some "org.foo.bar"⟩ (some caller_example)
        ⟨some none, some none⟩ = none ∧
    polkit_config_determine_admin_auth_type env_example
        ⟨some config_user_match_then_define⟩ ⟨some "org.foo.bar"⟩ (some caller_example)
        ⟨some none, some none⟩
      = some (true, ⟨some (some .POLKIT_CONFIG_ADMIN_AUTH_TYPE_GROUP),
          some (some "wheel")⟩) := by
  decide

/-- C3: the store of uid 502 holds an explicit negative grant for `org.foo.bar` without
constraints. A request for that action with `constraints == NULL` makes the scan read
`cd->constraints[0]` through the `NULL` array at that entry, so that it does not end with
`is_negative_authorized = true`, and `polkit_authorization_db_grant_negative_to_uid`
does not return. With the empty array in place of `NULL` the scan stops at the entry
with `is_negative_authorized = true` and `is_authorized = false`. -/
theorem grant_scan_null_constraints_faults :
    (∃ a ∈ auths_negative_plain, is_matching_grant "org.foo.bar" [] true a = true) ∧
    polkit_authorization_db_foreach_for_uid grant_env_example.mem authdb_negative_plain 502
        _check_auth_for_grant
        { action_id := "org.foo.bar", _check_constraint_num := 0, constraints := none,
          is_authorized := false, is_negative_authorized := false } (some none) = none ∧
    polkit_authorization_db_grant_negative_to_uid grant_env_example
        (some authdb_negative_plain) (some ⟨some "org.foo.bar"⟩) 502 none (some none)
      = none ∧
    (polkit_authorization_db_foreach_for_uid grant_env_example.mem authdb_negative_plain 502
        _check_auth_for_grant
        { action_id := "org.foo.bar", _check_constraint_num := 0, constraints := some [],
          is_authorized := false, is_negative_authorized := false } (some none)).map
      (fun r => (r.1, r.2.1.is_authorized, r.2.1.is_negative_authorized))
      = some (true, false, true) := by
  decide

/-- C24: a program that is executed and exits with a code `s` in 128..255 makes
`kit_spawn_sync` return FALSE with `errno` set to `s - 128`, although the child was
executed and the stored status has `WEXITSTATUS` equal to `s`; for every `s` in 0..127
it returns TRUE. Evaluated for a call without pipes in which every system call
succeeds. -/
theorem spawn_exit_code_128_and_above_fails :
    kit_spawn_sync_child (spawn_sys_example none 200).child none spawn_flags_none
      false false false = none ∧
    (kit_spawn_sync (spawn_sys_example none 200) 0 none spawn_flags_none
      (some ["/tmp/kit-spawn-test"]) none false false true).map
        (fun r => (r.ret, r.errno, r.exit_status.map WEXITSTATUS))
      = some (false, 72, some 200) ∧
    (∀ k : Fin 128,
      (kit_spawn_sync (spawn_sys_example none (128 + (k.val : Int))) 0 none spawn_flags_none
        (some ["/tmp/kit-spawn-test"]) none false false true).map
          (fun r => (r.ret, r.errno, r.exit_status.map WEXITSTATUS))
        = some (false, (k.val : Int), some (128 + k.val))) ∧
    (∀ k : Fin 128,
      (kit_spawn_sync (spawn_sys_example none (k.val : Int)) 0 none spawn_flags_none
        (some ["/tmp/kit-spawn-test"]) none false false true).map
          (fun r => (r.ret, r.errno, r.exit_status.map WEXITSTATUS))
        = some (true, 0, some k.val)) := by
  refine ⟨by decide, by decide, fun k => ?_, fun k => ?_⟩
  · have h := spawn_exit_code_reported (spawn_sys_example none (128 + (k.val : Int))) 0 none
      spawn_flags_none (some ["/tmp/kit-spawn-test"]) none false false true
      (128 + (k.val : Int)) (by omega) (by omega) rfl rfl rfl
    rw [h]
    have h1 : ¬ (128 + (k.val : Int) ≤ 127) := by omega
    have h2 : (128 + (k.val : Int)).toNat = 128 + k.val := by omega
    have h3 : 128 + (k.val : Int) - 128 = (k.val : Int) := by omega
    rw [if_neg h1, h2, h3]
  · have h := spawn_exit_code_reported (spawn_sys_example none (k.val : Int)) 0 none
      spawn_flags_none (some ["/tmp/kit-spawn-test"]) none false false true
      (k.val : Int) (by omega) (by omega) rfl rfl rfl
    rw [h]
    have h1 : (k.val : Int) ≤ 127 := by omega
    have h2 : ((k.val : Int)).toNat = k.val := by omega
    rw [if_pos h1, h2]

end PolicyKit
